import Mathlib

/-! ## Verification development for the cell agent (guest-lifecycle core)

Shallow embedding of
* `virDomainCpuTopology.SetCpuTopology`, `SetLocalVolumes`, `SetPlainNetwork`,
  `setCPUPriority`, `StartInstanceWithMedia`, `StopInstance`, `SetDiskThreshold`
  and `SetNetworkThreshold` (service/instance_utility.go),
* `IOScheduler.handleReadTask`, `handleWriteTask`, `handleResizeTask`,
  `handleShrinkTask`, the three snapshot tasks and the progress goroutines
  (service/io_scheduler.go),
* `CreateInstanceExecutor.Execute` and its helpers (task/create_instance.go).

Go's `uint` values are embedded as `Nat`.  In `SetCpuTopology` the only
arithmetic is `%`, `/`, comparison and the doubling of `sockets` from 2 up to
16, so no operation can wrap and the `Nat` model is exact for every `uint`.
-/

namespace Cell

/-! ## CPU topology -/

/-- Errors returned by `SetCpuTopology`; the argument is the offending
`totalThreads` printed in the message. -/
inductive TopologyError where
  /-- Message "even core number ( %d ) is not allowed". -/
  | invalidInput (totalThreads : Nat)
  /-- Message "no proper cpu topology fit total threads %d". -/
  | noFit (totalThreads : Nat)
  deriving DecidableEq, Repr

deriving instance DecidableEq for Except

/-- Fields of `virDomainCpuTopology`. -/
structure virDomainCpuTopology where
  Sockets : Nat
  Cores : Nat
  Threads : Nat
  deriving DecidableEq, Repr

/-- Constant `ThreadPerCore` of `SetCpuTopology`. -/
def ThreadPerCore : Nat := 2

/-- Constant `MaxCores` of `SetCpuTopology`, `1 << 5`. -/
def MaxCores : Nat := 1 <<< 5

/-- Constant `MaxSockets` of `SetCpuTopology`, `1 << 3`. -/
def MaxSockets : Nat := 1 <<< 3

/-- The loop
`for sockets = 2; sockets < MaxSockets+1; sockets = sockets << 1 { cores = (totalThreads / threads) / sockets; if cores <= MaxCores { break } }`
entered with the current `sockets` and `cores`; it returns the values of
`(sockets, cores)` when the loop is left.  `fuel` bounds the number of
condition checks; `none` means the bound was too small. -/
def socketLoop (totalThreads threads : Nat) : Nat → Nat → Nat → Option (Nat × Nat)
  | 0, _, _ => none
  | fuel + 1, sockets, cores =>
    if sockets < MaxSockets + 1 then
      let cores1 := (totalThreads / threads) / sockets
      if cores1 ≤ MaxCores then
        some (sockets, cores1)
      else
        socketLoop totalThreads threads fuel (sockets <<< 1) cores1
    else
      some (sockets, cores)

/-- Embedding of `(*virDomainCpuTopology).SetCpuTopology`: the error, or the
topology written to the receiver. -/
def SetCpuTopology (totalThreads : Nat) : Except TopologyError virDomainCpuTopology :=
  if totalThreads > 1 ∧ 0 ≠ totalThreads % 2 then
    .error (.invalidInput totalThreads)
  else if totalThreads < ThreadPerCore then
    .ok { Threads := 1, Sockets := 1, Cores := totalThreads }
  else
    let threads := ThreadPerCore
    let cores := totalThreads / threads
    if cores > MaxCores then
      match socketLoop totalThreads threads (MaxSockets + 1) 2 cores with
      | none => .error (.noFit totalThreads)
      | some (sockets, cores1) =>
        if cores1 > MaxCores then
          .error (.noFit totalThreads)
        else
          .ok { Threads := threads, Cores := cores1, Sockets := sockets }
    else
      .ok { Threads := threads, Cores := cores, Sockets := 1 }

/-! ## I/O scheduler: the read task

Go `error` values are embedded as their message; a nil `error` is `none`.
The file system, the HTTP client and the image tool are an environment that
answers each call; the task's observable behaviour is the sequence of calls it
makes and of values it puts on `eventChan` and `resultChan`.  The goroutine
that reports progress once per second runs beside the task and is stopped by
`notifyChan`; it takes no part in the calls below and is left out. -/

/-- Go `error`: `none` is nil, `some m` an error with message `m`. -/
abbrev GoError := Option String

/-- Values of `schedulerEventType`. -/
inductive schedulerEventType where
  | schedulerEventWriteDiskCompleted
  | schedulerEventReadDiskCompleted
  | schedulerEventShrinkDiskCompleted
  | schedulerEventResizeDiskCompleted
  | schedulerEventCreateSnapshotCompleted
  | schedulerEventDeleteSnapshotCompleted
  | schedulerEventRestoreSnapshotCompleted
  deriving DecidableEq, Repr

/-- Fields of `schedulerEvent` (the reply channel `ErrorChan` is left out; the
field `Type` is named `EventType`, `Type` being reserved). -/
structure schedulerEvent where
  EventType : schedulerEventType
  Group : String := ""
  Volume : String := ""
  Snapshot : String := ""
  Error : GoError := none
  deriving DecidableEq, Repr

/-- Fields of `SchedulerResult`. -/
structure SchedulerResult where
  Error : GoError := none
  ID : Nat
  Size : Nat := 0
  deriving DecidableEq, Repr

/-- The third value of a `resp.Body.Read` call. -/
inductive ReadError where
  /-- A nil error. -/
  | nil
  /-- The value `io.EOF`. -/
  | eof
  /-- Any other error. -/
  | other (message : String)
  deriving DecidableEq, Repr

/-- One turn of the receive loop as the environment answers it: `resp.Body.Read`
returns `(n, err)`, and `file.Write`, called only when `n > 0`, returns
`(written, writeError)`. -/
structure ReadStep where
  n : Nat
  err : ReadError
  written : Nat := n
  writeError : GoError := none
  deriving DecidableEq, Repr

/-- Answers of the environment to the calls of `handleReadTask`. -/
structure ReadEnv where
  /-- Error of `os.OpenFile(path, O_CREATE|O_WRONLY|O_TRUNC, 0666)`. -/
  openFile : GoError
  /-- Result of `scheduler.client.Get(url)`: an error, or the value of the
  response header `Signature`. -/
  get : Except String String
  /-- Results of the successive turns of the receive loop. -/
  steps : List ReadStep
  /-- Result of `scheduler.generateCheckSum(path)`, the SHA-1 of the file in hex. -/
  generateCheckSum : Except String String
  /-- Result of running `qemu-img resize path targetSize`: `none`, or the
  combined output on failure. -/
  resize : GoError
  /-- The function `bytesToString`, used only to print sizes. -/
  bytesToString : Nat → String

/-- Calls and channel sends of the scheduler, in the order they happen. -/
inductive IOAction where
  | openFile (path : String)
  | get (host : String) (port : Nat) (image : String)
  | write (n : Nat)
  | generateCheckSum (path : String)
  | remove (path : String)
  | resize (path : String) (targetSize : Nat)
  | closeBody
  | closeFile
  | sendEvent (event : schedulerEvent)
  | sendResult (result : SchedulerResult)
  | stat (path : String)
  | put (host : String) (port : Nat) (image : String)
  | convert (source target : String)
  | rename (oldpath newpath : String)
  | backingImage (imagePath backingPath imageFormat : String)
  | commitImage (imagePath : String)
  deriving DecidableEq, Repr

/-- State in which the receive loop of `handleReadTask` is left by `break`:
the variable `err`, the field `result.Size`, and the calls made. -/
structure ReadLoopExit where
  err : GoError
  Size : Nat
  trace : List IOAction
  deriving DecidableEq, Repr

/-- The block run when `err == io.EOF` in `handleReadTask`: integrity check
when `checkSum` is not empty, then the resize; each `break` leaves the loop. -/
def readFinish (env : ReadEnv) (path : String) (targetSize : Nat) (checkSum : String)
    (processed : Nat) (trace : List IOAction) : ReadLoopExit :=
  let resizeImage (trace : List IOAction) : ReadLoopExit :=
    match env.resize with
    | some errorMessage =>
      { err := some ("resize image to " ++ env.bytesToString targetSize ++ " fail: " ++ errorMessage),
        Size := 0,
        trace := trace ++ [.resize path targetSize, .remove path] }
    | none =>
      { err := none, Size := processed, trace := trace ++ [.resize path targetSize] }
  if "" ≠ checkSum then
    match env.generateCheckSum with
    | .error e =>
      { err := some e, Size := 0, trace := trace ++ [.generateCheckSum path, .remove path] }
    | .ok computed =>
      if checkSum ≠ computed then
        { err := some "image corrupted", Size := 0, trace := trace ++ [.generateCheckSum path] }
      else
        resizeImage (trace ++ [.generateCheckSum path])
  else
    resizeImage trace

/-- The receive loop `for { n, err = resp.Body.Read(buffer); ... }` of
`handleReadTask`, one list element per turn; `none` when the environment's
answers run out before the loop is left. -/
def readLoop (env : ReadEnv) (path : String) (targetSize : Nat) (checkSum : String) :
    List ReadStep → Nat → List IOAction → Option ReadLoopExit
  | [], _, _ => none
  | step :: rest, processed, trace =>
    let afterWrite (processed : Nat) (trace : List IOAction) : Option ReadLoopExit :=
      match step.err with
      | .eof => some (readFinish env path targetSize checkSum processed trace)
      | .other e => some { err := some e, Size := 0, trace := trace }
      | .nil => readLoop env path targetSize checkSum rest processed trace
    if step.n > 0 then
      match step.writeError with
      | some writeError =>
        some { err := some writeError, Size := 0, trace := trace ++ [.write step.n] }
      | none => afterWrite (processed + step.written) (trace ++ [.write step.n])
    else
      afterWrite processed trace

/-- What one run of `handleReadTask` does: the calls and channel sends in
order, and the returned error. -/
structure ReadTaskRun where
  trace : List IOAction
  ret : GoError
  deriving DecidableEq, Repr

/-- The first deferred function of `handleReadTask`: copies a non-nil `err`
into the event and the result and sends both. -/
def readDeferred (err : GoError) (event : schedulerEvent) (result : SchedulerResult) :
    List IOAction :=
  match err with
  | some e => [.sendEvent { event with Error := some e }, .sendResult { result with Error := some e }]
  | none => [.sendEvent event, .sendResult result]

/-- Embedding of `(*IOScheduler).handleReadTask`; `none` when the receive loop
never ends on the environment's answers.  After the loop the function ends
with `return nil`, which sets the named result `err` to nil before the deferred
functions run. -/
def handleReadTask (env : ReadEnv) (id : Nat) (group volume path image : String)
    (imageSize targetSize : Nat) (host : String) (port : Nat) : Option ReadTaskRun :=
  let _ := imageSize
  let event : schedulerEvent := { EventType := .schedulerEventReadDiskCompleted, Group := group, Volume := volume }
  let result : SchedulerResult := { ID := id }
  match env.openFile with
  | some e =>
    some { trace := [.openFile path] ++ readDeferred (some e) event result, ret := some e }
  | none =>
    match env.get with
    | .error e =>
      some { trace := [.openFile path, .get host port image, .closeFile]
                        ++ readDeferred (some e) event result,
             ret := some e }
    | .ok checkSum =>
      match readLoop env path targetSize checkSum env.steps 0 [.openFile path, .get host port image] with
      | none => none
      | some exit =>
        let result := { result with Size := exit.Size }
        let err : GoError := none
        some { trace := exit.trace ++ [.closeBody, .closeFile] ++ readDeferred err event result,
               ret := err }

/-- Events sent on `eventChan` during a run. -/
def ReadTaskRun.events (r : ReadTaskRun) : List schedulerEvent :=
  r.trace.filterMap fun a => match a with
    | .sendEvent e => some e
    | _ => none

/-- Results sent on `resultChan` during a run. -/
def ReadTaskRun.results (r : ReadTaskRun) : List SchedulerResult :=
  r.trace.filterMap fun a => match a with
    | .sendResult e => some e
    | _ => none

/-- Paths given to `os.Remove` during a run. -/
def ReadTaskRun.removed (r : ReadTaskRun) : List String :=
  r.trace.filterMap fun a => match a with
    | .remove p => some p
    | _ => none

/-- A server answering with signature "aa" and a two-turn body (4 bytes, then
end of stream) whose file hashes to "bb". -/
def corruptedReadEnv : ReadEnv where
  openFile := none
  get := .ok "aa"
  steps := [{ n := 4, err := .nil }, { n := 0, err := .eof }]
  generateCheckSum := .ok "bb"
  resize := none
  bytesToString := fun n => toString n ++ " Bytes"

/-! ## Create-instance executor: data

The request is embedded as the results of its getters, the modules, the sender
and the random generator as an environment that answers each call.  A run of
`Execute` is the sequence of calls made, each with the answer received, and the
returned error. -/

/-- Message kinds created by the executor with `framework.CreateJsonMessage`. -/
inductive MessageID where
  | CreateGuestResponse
  | GuestCreatedEvent
  | GuestUpdatedEvent
  | GuestStartedEvent
  deriving DecidableEq, Repr

/-- A `framework.Message` as the executor fills it: sessions, the success
flag, the error text (`none` until `SetError` is called) and the parameters
set under the keys `ParamKeyInstance`, `ParamKeyEnable`, `ParamKeyMonitor`,
`ParamKeySecret`, `ParamKeyHardware` and `ParamKeyProgress`. -/
structure Message where
  ID : MessageID
  FromSession : Nat := 0
  ToSession : Nat := 0
  Success : Bool := false
  Error : Option String := none
  ParamKeyInstance : Option String := none
  ParamKeyEnable : Option Bool := none
  ParamKeyMonitor : Option Nat := none
  ParamKeySecret : Option String := none
  ParamKeyHardware : Option String := none
  ParamKeyProgress : Option Nat := none
  deriving DecidableEq, Repr

/-- The incoming `CreateGuest` request: its sender and session, and for every
key the executor reads the result of the getter (`GetString`, `GetUInt`,
`GetUIntArray`, `GetBoolean`, `GetStringArray`), an error message or the value. -/
structure Request where
  Sender : String
  FromSession : Nat
  ParamKeyName : Except String String
  ParamKeyInstance : Except String String
  ParamKeyUser : Except String String
  ParamKeyGroup : Except String String
  ParamKeyCore : Except String Nat
  ParamKeyMemory : Except String Nat
  ParamKeyDisk : Except String (List Nat)
  ParamKeyOption : Except String Bool
  ParamKeyAdmin : Except String String
  ParamKeyTemplate : Except String (List Nat)
  ParamKeyMode : Except String (List Nat)
  ParamKeyImage : Except String String
  ParamKeyHost : Except String String
  ParamKeyPort : Except String Nat
  ParamKeySize : Except String Nat
  ParamKeyAddress : Except String (List String)
  ParamKeyPriority : Except String Nat
  ParamKeyLimit : Except String (List Nat)
  ParamKeyPolicy : Except String (List Nat)
  ParamKeyAction : Except String Bool
  ParamKeyModule : Except String (List String)
  ParamKeyFlag : Except String (List Nat)
  ParamKeySecret : Except String String
  ParamKeyPath : Except String String

/-- Fields of `service.HardwareTemplate`. -/
structure HardwareTemplate where
  OperatingSystem : String
  Disk : String
  Network : String
  Display : String
  Control : String
  USB : String
  Tablet : String
  deriving DecidableEq, Repr

/-- Fields of `service.SecurityPolicyRule`. -/
structure SecurityPolicyRule where
  Accept : Bool := false
  Protocol : String := ""
  SourceAddress : String := ""
  TargetAddress : String := ""
  TargetPort : Nat := 0
  deriving DecidableEq, Repr

/-- Fields of `service.SecurityPolicy`. -/
structure SecurityPolicy where
  Accept : Bool := false
  Rules : List SecurityPolicyRule := []
  deriving DecidableEq, Repr

/-- The fields of `service.GuestConfig` that the executor reads or writes,
each starting at Go's zero value. -/
structure GuestConfig where
  Name : String := ""
  ID : String := ""
  User : String := ""
  Group : String := ""
  Cores : Nat := 0
  Memory : Nat := 0
  Disks : List Nat := []
  AutoStart : Bool := false
  AuthUser : String := ""
  AuthSecret : String := ""
  Template : Option HardwareTemplate := none
  NetworkMode : Nat := 0
  StorageMode : Nat := 0
  InternalAddress : String := ""
  ExternalAddress : String := ""
  CPUPriority : Nat := 0
  ReadSpeed : Nat := 0
  WriteSpeed : Nat := 0
  ReadIOPS : Nat := 0
  WriteIOPS : Nat := 0
  ReceiveSpeed : Nat := 0
  SendSpeed : Nat := 0
  Security : Option SecurityPolicy := none
  QEMUAvailable : Bool := false
  CloudInitAvailable : Bool := false
  RootLoginEnabled : Bool := false
  DataPath : String := ""
  HardwareAddress : String := ""
  NetworkSource : String := ""
  AddressAllocation : String := ""
  MonitorPort : Nat := 0
  MonitorSecret : String := ""
  StoragePool : String := ""
  StorageVolumes : List String := []
  BootImage : String := ""
  Created : Bool := false
  Initialized : Bool := false
  deriving DecidableEq, Repr

/-- Declarations of package `service` that the executor uses and whose
definitions lie outside the files embedded here; they are parameters of the
embedding. -/
structure ServiceDecls where
  /-- Constant `service.NetworkModePlain`. -/
  NetworkModePlain : Nat
  /-- Constant `service.BootTypeNone`. -/
  BootTypeNone : Nat
  /-- Constant `service.BootTypeCloudInit`. -/
  BootTypeCloudInit : Nat
  /-- Constant `service.PolicyRuleActionAccept`. -/
  PolicyRuleActionAccept : Nat
  /-- Constant `service.PolicyRuleProtocolIndexTCP`. -/
  PolicyRuleProtocolIndexTCP : Nat
  /-- Constant `service.PolicyRuleProtocolIndexUDP`. -/
  PolicyRuleProtocolIndexUDP : Nat
  /-- Constant `service.PolicyRuleProtocolIndexICMP`. -/
  PolicyRuleProtocolIndexICMP : Nat
  /-- Constant `service.PolicyRuleProtocolTCP`. -/
  PolicyRuleProtocolTCP : String
  /-- Constant `service.PolicyRuleProtocolUDP`. -/
  PolicyRuleProtocolUDP : String
  /-- Constant `service.PolicyRuleProtocolICMP`. -/
  PolicyRuleProtocolICMP : String
  /-- Function `service.UInt32ToIPv4`. -/
  UInt32ToIPv4 : Nat → String
  /-- Method `service.TemplateOperatingSystem(x).ToString()`. -/
  TemplateOperatingSystem : Nat → String
  /-- Method `service.TemplateDiskDriver(x).ToString()`. -/
  TemplateDiskDriver : Nat → String
  /-- Method `service.TemplateNetworkModel(x).ToString()`. -/
  TemplateNetworkModel : Nat → String
  /-- Method `service.TemplateDisplayDriver(x).ToString()`. -/
  TemplateDisplayDriver : Nat → String
  /-- Method `service.TemplateRemoteControl(x).ToString()`. -/
  TemplateRemoteControl : Nat → String
  /-- Method `service.TemplateUSBModel(x).ToString()`. -/
  TemplateUSBModel : Nat → String
  /-- Method `service.TemplateTabletModel(x).ToString()`. -/
  TemplateTabletModel : Nat → String

/-- Fields of `service.NetworkResult` that the executor reads. -/
structure NetworkResult where
  Error : GoError := none
  Name : String := ""
  Allocation : String := ""
  MonitorPort : Nat := 0
  deriving DecidableEq, Repr

/-- Fields of `service.StorageResult` that the executor reads. -/
structure StorageResult where
  Error : GoError := none
  Pool : String := ""
  Volumes : List String := []
  Image : String := ""
  Size : Nat := 0
  deriving DecidableEq, Repr

/-- Which case of the first `select` of the cloning block fires. -/
inductive CloneStart where
  /-- A value arrives on `startChan`: nil or an error. -/
  | start (err : GoError)
  /-- The timer of the operate timeout fires first. -/
  | timeout
  deriving DecidableEq, Repr

/-- One case firing in the `select` of the cloning loop. -/
inductive CloneEvent where
  /-- The ticker fires; `expired` is the value of
  `time.Now().After(latestUpdate.Add(timeout))`. -/
  | tick (expired : Bool)
  /-- A value arrives on `progressChan`. -/
  | progress (progress : Nat)
  /-- A value arrives on `resultChan`. -/
  | result (result : StorageResult)
  deriving DecidableEq, Repr

/-- Answers of the sender, the random generator and the three modules. -/
structure ExecEnv where
  /-- Result of the k-th call (from 0) of `Sender.SendMessage`. -/
  SendMessage : Nat → GoError
  /-- Raw value behind the k-th call (from 0) of `RandomGenerator.Intn`. -/
  draw : Nat → Nat
  /-- Result of `RandomGenerator.Read` on a 3-byte buffer: an error or the bytes. -/
  Read : Except String (Nat × Nat × Nat)
  GetCurrentConfig : NetworkResult
  AllocateInstanceResource : NetworkResult
  DeallocateAllResource : GoError
  CreateVolumes : StorageResult
  DeleteVolumes : GoError
  CreateInstance : GoError
  DeleteInstance : GoError
  StartInstance : GoError
  /-- What the executor receives first after `ReadDiskImage`. -/
  cloneStart : CloneStart
  /-- What the cloning loop receives, in order.  When the list is used up
  nothing more arrives on `progressChan` or `resultChan`: the ticker goes on
  firing and the tick that comes after the operate timeout ends the loop. -/
  cloneEvents : List CloneEvent

/-- Calls made by the executor, each with the answer it received. -/
inductive Action where
  | SendMessage (msg : Message) (target : String) (result : GoError)
  | GetCurrentConfig (result : NetworkResult)
  | AllocateInstanceResource (id mac internal external : String) (result : NetworkResult)
  | CreateVolumes (group : String) (systemSize : Nat) (dataSize : List Nat) (bootType : Nat)
      (result : StorageResult)
  | CreateInstance (config : GuestConfig) (result : GoError)
  | ReadDiskImage (id : Nat) (guest targetVol imageID : String) (targetSize imageSize : Nat)
      (host : String) (port : Nat)
  | DeleteInstance (guest : String) (result : GoError)
  | DeleteVolumes (group : String) (result : GoError)
  | DeallocateAllResource (guest : String) (result : GoError)
  | StartInstance (guest : String) (result : GoError)
  deriving DecidableEq, Repr

/-- A run of `Execute`: the calls in order, the returned error, and whether
the run ended in a run-time panic (indexing an empty volume list). -/
structure Execution where
  trace : List Action
  ret : GoError
  panic : Bool := false
  deriving DecidableEq, Repr

/-! ## Create-instance executor: helpers -/

/-- Number of `SendMessage` calls in a trace. -/
def sendCount : List Action → Nat
  | [] => 0
  | .SendMessage _ _ _ :: rest => sendCount rest + 1
  | _ :: rest => sendCount rest

/-- A call of `executor.Sender.SendMessage(msg, target)` after the calls in
`trace`: the extended trace and the returned error. -/
def SendMessage (env : ExecEnv) (trace : List Action) (msg : Message) (target : String) :
    List Action × GoError :=
  let result := env.SendMessage (sendCount trace)
  (trace ++ [.SendMessage msg target result], result)

/-- Embedding of `ResponseFail`: marks the message failed, sets the error text,
sends it and returns the result of the send. -/
def ResponseFail (env : ExecEnv) (trace : List Action) (resp : Message) (err target : String) :
    Execution :=
  let resp := { resp with Success := false }
  let resp := { resp with Error := some err }
  let sent := SendMessage env trace resp target
  { trace := sent.1, ret := sent.2 }

/-- Embedding of `ReleaseInstance`: the error of the call is logged only. -/
def ReleaseInstance (env : ExecEnv) (trace : List Action) (guest : String) : List Action :=
  trace ++ [.DeleteInstance guest env.DeleteInstance]

/-- Embedding of `ReleaseVolumes`: the error of the call is logged only. -/
def ReleaseVolumes (env : ExecEnv) (trace : List Action) (groupName : String) : List Action :=
  trace ++ [.DeleteVolumes groupName env.DeleteVolumes]

/-- Embedding of `ReleaseNetworkResource`: the error of the call is logged only. -/
def ReleaseNetworkResource (env : ExecEnv) (trace : List Action) (guest : String) : List Action :=
  trace ++ [.DeallocateAllResource guest env.DeallocateAllResource]

/-- Embedding of `ReleaseResource`. -/
def ReleaseResource (env : ExecEnv) (trace : List Action) (guestID : String)
    (clearNetwork clearVolumes clearInstance : Bool) : List Action :=
  let trace := if clearInstance then ReleaseInstance env trace guestID else trace
  let trace := if clearVolumes then ReleaseVolumes env trace guestID else trace
  let trace := if clearNetwork then ReleaseNetworkResource env trace guestID else trace
  trace

/-- Constant `Letters` of `generatePassword`. -/
def Letters : String :=
  "~!@#$%^&*()_[]-=+0123456789abcdefghijklmnopqrstuvwxyzABCDEFGHIJKLMNOPQRSTUVWXYZ"

/-- The call `RandomGenerator.Intn(n)` made as the k-th one; `math/rand`
returns a value in `[0, n)`. -/
def Intn (env : ExecEnv) (k n : Nat) : Nat :=
  env.draw k % n

/-- The loop of `generatePassword`: `length` characters, the first drawn by
call number `k` of `Intn`. -/
def generatePasswordChars (env : ExecEnv) (k : Nat) : Nat → List Char
  | 0 => []
  | length + 1 =>
    Letters.toList.getD (Intn env k Letters.length) ' ' :: generatePasswordChars env (k + 1) length

/-- Embedding of `generatePassword` when `k` calls of `Intn` have been made
before. -/
def generatePassword (env : ExecEnv) (k : Nat) (length : Nat) : String :=
  String.mk (generatePasswordChars env k length)

/-- One hexadecimal digit, lower case. -/
def hexDigit (d : Nat) : Char :=
  "0123456789abcdef".toList.getD d '0'

/-- The format `%02x` applied to a byte. -/
def hexByte (b : Nat) : String :=
  String.mk [hexDigit (b % 256 / 16), hexDigit (b % 256 % 16)]

/-- Embedding of `generateMacAddress`. -/
def generateMacAddress (env : ExecEnv) : Except String String :=
  match env.Read with
  | .error e => .error e
  | .ok (b0, b1, b2) => .ok ("00:16:3e" ++ ":" ++ hexByte b0 ++ ":" ++ hexByte b1 ++ ":" ++ hexByte b2)

/-- Embedding of `startAutoStartInstance`. -/
def startAutoStartInstance (env : ExecEnv) (trace : List Action) (id : Nat)
    (instanceID receiver : String) : List Action :=
  let trace := trace ++ [.StartInstance instanceID env.StartInstance]
  match env.StartInstance with
  | some _ => trace
  | none =>
    let event : Message := { ID := .GuestStartedEvent }
    let event := { event with FromSession := id }
    let event := { event with ParamKeyInstance := some instanceID }
    (SendMessage env trace event receiver).1

/-! ## Create-instance executor: parse and validate -/

/-- How the parsing part of `Execute` leaves the function early. -/
inductive ParseStop where
  /-- By `return executor.ResponseFail(resp, err.Error(), request.GetSender())`. -/
  | respond (err : String)
  /-- By `return err`, sending nothing. -/
  | returnErr (err : String)
  deriving DecidableEq, Repr

/-- What the parsing part of `Execute` hands to the later stages. -/
structure Parsed where
  config : GuestConfig
  diskSize : List Nat
  systemSize : Nat
  dataSize : List Nat
  cloneFromImage : Bool
  imageID : String
  mediaHost : String
  mediaPort : Nat
  imageSize : Nat
  /-- Number of `Intn` calls made so far. -/
  drawn : Nat
  deriving DecidableEq, Repr

/-- A getter whose failure ends the run with `ResponseFail` and the message
`prefix: error`. -/
def required {α : Type} (result : Except String α) (what : String) : Except ParseStop α :=
  match result with
  | .error e => .error (.respond (what ++ e))
  | .ok v => .ok v

/-- The loop over the policy parameters, five per rule: accept, protocol,
from, to, port.  An unknown protocol index ends it with the error text. -/
def parsePolicyRules (decls : ServiceDecls) : List Nat → Except String (List SecurityPolicyRule)
  | accept :: protocol :: source :: target :: port :: rest =>
    let rule : SecurityPolicyRule := {}
    let rule := { rule with Accept := decide (decls.PolicyRuleActionAccept = accept) }
    let withProtocol : Except String SecurityPolicyRule :=
      if protocol = decls.PolicyRuleProtocolIndexTCP then
        .ok { rule with Protocol := decls.PolicyRuleProtocolTCP }
      else if protocol = decls.PolicyRuleProtocolIndexUDP then
        .ok { rule with Protocol := decls.PolicyRuleProtocolUDP }
      else if protocol = decls.PolicyRuleProtocolIndexICMP then
        .ok { rule with Protocol := decls.PolicyRuleProtocolICMP }
      else
        .error ("invalid security protocol index " ++ toString protocol)
    match withProtocol with
    | .error e => .error e
    | .ok rule =>
      let rule := { rule with SourceAddress := decls.UInt32ToIPv4 (source % 2 ^ 32) }
      let rule := { rule with TargetAddress := decls.UInt32ToIPv4 (target % 2 ^ 32) }
      let rule := { rule with TargetPort := port }
      match parsePolicyRules decls rest with
      | .error e => .error e
      | .ok rules => .ok (rule :: rules)
  | _ => .ok []

/-- The loop over the requested modules: an unknown name ends it with the
error text, "qemu" and "cloud-init" set their flags. -/
def parseModules : List String → GuestConfig → Except String GuestConfig
  | [], config => .ok config
  | moduleName :: rest, config =>
    if ¬ (moduleName = "qemu" ∨ moduleName = "cloud-init") then
      .error ("invalid module '" ++ moduleName ++ "'")
    else if "qemu" = moduleName then
      parseModules rest { config with QEMUAvailable := true }
    else if "cloud-init" = moduleName then
      parseModules rest { config with CloudInitAvailable := true }
    else
      parseModules rest config

/-- Image parameters of the request: `cloneFromImage`, `imageID`, `mediaHost`,
`mediaPort`, `imageSize`. -/
structure CloneParams where
  cloneFromImage : Bool := false
  imageID : String := ""
  mediaHost : String := ""
  mediaPort : Nat := 0
  imageSize : Nat := 0
  deriving DecidableEq, Repr

/-- Parsing, part 1: name, id, user, group, cores, memory, disk sizes, auto
start flag and admin name, each required. -/
def parseBasics (request : Request) : Except ParseStop (GuestConfig × List Nat) := do
  let config : GuestConfig := {}
  let config := { config with Initialized := false }
  let name ← required request.ParamKeyName "get name fail: "
  let config := { config with Name := name }
  let guestID ← required request.ParamKeyInstance "get id fail: "
  let config := { config with ID := guestID }
  let user ← required request.ParamKeyUser "get user fail: "
  let config := { config with User := user }
  let group ← required request.ParamKeyGroup "get group fail: "
  let config := { config with Group := group }
  let cores ← required request.ParamKeyCore "get cores fail: "
  let config := { config with Cores := cores }
  let memory ← required request.ParamKeyMemory "get memory fail: "
  let config := { config with Memory := memory }
  let diskSize ← required request.ParamKeyDisk "get disk size fail: "
  let autoStart ← required request.ParamKeyOption "get auto start flag fail: "
  let config := { config with AutoStart := autoStart }
  let authUser ← required request.ParamKeyAdmin "get admin name fail: "
  let config := { config with AuthUser := authUser }
  pure (config, diskSize)

/-- Parsing, part 2: the template options, exactly `ValidOptionCount` = 7 of
them in the order OS, disk, network, display, control, USB, tablet. -/
def parseTemplate (decls : ServiceDecls) (request : Request) (config : GuestConfig) :
    Except ParseStop GuestConfig :=
  match request.ParamKeyTemplate with
  | .error e => .error (.respond ("get template fail: " ++ e))
  | .ok templateOptions =>
    match templateOptions with
    | [os, disk, network, display, control, usb, tablet] =>
      let t : HardwareTemplate := {
        OperatingSystem := decls.TemplateOperatingSystem os,
        Disk := decls.TemplateDiskDriver disk,
        Network := decls.TemplateNetworkModel network,
        Display := decls.TemplateDisplayDriver display,
        Control := decls.TemplateRemoteControl control,
        USB := decls.TemplateUSBModel usb,
        Tablet := decls.TemplateTabletModel tablet }
      .ok { config with Template := some t }
    | _ =>
      .error (.respond ("template options count mismatch " ++
        toString templateOptions.length ++ " / " ++ toString 7))

/-- Parsing, part 3: the mode array, exactly `ValidModeCount` = 2 entries
[network, storage]; both failures leave by `return err`. -/
def parseMode (request : Request) (config : GuestConfig) : Except ParseStop GuestConfig :=
  match request.ParamKeyMode with
  | .error err => .error (.returnErr err)
  | .ok modeArray =>
    match modeArray with
    | [networkMode, storageMode] =>
      let config := { config with NetworkMode := networkMode }
      .ok { config with StorageMode := storageMode }
    | _ => .error (.returnErr ("unexpect mode params count " ++ toString modeArray.length))

/-- Parsing, part 4: the image to clone from; when the image id is present,
host, port and size are required. -/
def parseClone (request : Request) : Except ParseStop CloneParams :=
  match request.ParamKeyImage with
  | .ok imageID => do
    let mediaHost ← required request.ParamKeyHost "get media host fail: "
    let mediaPort ← required request.ParamKeyPort "get media port fail: "
    let imageSize ← required request.ParamKeySize "get image size fail: "
    pure { cloneFromImage := true, imageID := imageID, mediaHost := mediaHost,
           mediaPort := mediaPort, imageSize := imageSize }
  | .error _ => pure {}

/-- Parsing, part 5: the assigned addresses, when present exactly
`ValidAssignedLength` = 2 of them. -/
def parseAddress (request : Request) (config : GuestConfig) : Except ParseStop GuestConfig :=
  match request.ParamKeyAddress with
  | .ok assignedAddress =>
    match assignedAddress with
    | [internal, external] =>
      let config := { config with InternalAddress := internal }
      .ok { config with ExternalAddress := external }
    | _ =>
      .error (.respond ("unexpect assigned addresses count " ++ toString assignedAddress.length))
  | .error _ => .ok config

/-- Parsing, part 6: priority (an absent value reads as 0) and the limit
array, when present exactly `ValidLimitParametersCount` = 6 entries. -/
def parseQoS (request : Request) (config : GuestConfig) : Except ParseStop GuestConfig :=
  let priorityValue := match request.ParamKeyPriority with
    | .ok v => v
    | .error _ => 0
  let config := { config with CPUPriority := priorityValue }
  match request.ParamKeyLimit with
  | .ok limitParameters =>
    match limitParameters with
    | [readSpeed, writeSpeed, readIOPS, writeIOPS, receive, send] =>
      let config := { config with ReadSpeed := readSpeed }
      let config := { config with WriteSpeed := writeSpeed }
      let config := { config with ReadIOPS := readIOPS }
      let config := { config with WriteIOPS := writeIOPS }
      let config := { config with ReceiveSpeed := receive }
      .ok { config with SendSpeed := send }
    | _ =>
      .error (.respond ("invalid QoS parameters count " ++ toString limitParameters.length))
  | .error _ => .ok config

/-- Parsing, part 7: the security policy, when present a multiple of
`validPolicyElementCount` = 5 values, with the default action required. -/
def parsePolicy (decls : ServiceDecls) (request : Request) (config : GuestConfig) :
    Except ParseStop GuestConfig :=
  match request.ParamKeyPolicy with
  | .ok policyParameters =>
    if 0 ≠ policyParameters.length % 5 then
      .error (.respond ("invalid policy parameters count " ++ toString policyParameters.length))
    else
      let securityPolicy : SecurityPolicy := {}
      match request.ParamKeyAction with
      | .error e => .error (.respond ("get default security action fail: " ++ e))
      | .ok accept =>
        let securityPolicy := { securityPolicy with Accept := accept }
        match parsePolicyRules decls policyParameters with
        | .error e => .error (.respond e)
        | .ok rules =>
          let securityPolicy := { securityPolicy with Rules := rules }
          .ok { config with Security := some securityPolicy }
  | .error _ => .ok config

/-- Parsing, part 8: modules (an absent list reads as empty) and the flag
array of exactly `ValidFlagLength` = 1 entry, compared with `RootLoginEnabled` = 1. -/
def parseModulesAndFlags (request : Request) (config : GuestConfig) :
    Except ParseStop GuestConfig :=
  let modules := match request.ParamKeyModule with
    | .ok v => v
    | .error _ => []
  match parseModules modules config with
  | .error e => .error (.respond e)
  | .ok config =>
    match request.ParamKeyFlag with
    | .error e => .error (.respond ("get flags fail: " ++ e))
    | .ok flags =>
      match flags with
      | [flag] =>
        if 1 = flag then
          .ok { config with RootLoginEnabled := true }
        else
          .ok { config with RootLoginEnabled := false }
      | _ => .error (.respond ("invalid flags count " ++ toString flags.length))

/-- Parsing, part 9: the cloud-init parameters, read only when the cloud-init
module is available; returns the configuration and the number of `Intn` calls
made (`PasswordLength` = 10 when the password is generated). -/
def parseCloudInit (env : ExecEnv) (request : Request) (config : GuestConfig) :
    Except ParseStop (GuestConfig × Nat) :=
  if config.CloudInitAvailable then
    match request.ParamKeySecret with
    | .error e => .error (.respond ("get user password fail: " ++ e))
    | .ok password =>
      let generated := if 0 = password.length then generatePassword env 0 10 else password
      let drawn := if 0 = password.length then 10 else 0
      let config := { config with AuthSecret := generated }
      match request.ParamKeyPath with
      | .error e => .error (.respond ("get data path fail: " ++ e))
      | .ok dataPath =>
        let config := { config with DataPath := dataPath }
        let config := if "" = config.DataPath then { config with DataPath := "/opt/data" } else config
        .ok (config, drawn)
  else
    .ok (config, 0)

/-- The first part of `Execute`, up to the comment "network prepare": reads
and checks every parameter and fills the guest configuration.  `Except.error`
is an early return, `Except.ok` falls through to the network stage. -/
def parseRequest (decls : ServiceDecls) (env : ExecEnv) (request : Request) :
    Except ParseStop Parsed := do
  let basics ← parseBasics request
  let diskSize := basics.2
  let config ← parseTemplate decls request basics.1
  let config ← parseMode request config
  let clone ← parseClone request
  let config ← parseAddress request config
  let config ← parseQoS request config
  let config ← parsePolicy decls request config
  let diskCount := diskSize.length
  if 0 = diskCount then
    throw (ParseStop.respond "must specify disk size")
  let systemSize := diskSize.headD 0
  let dataSize := if diskSize.length > 1 then diskSize.drop 1 else []
  let config ← parseModulesAndFlags request config
  let ci ← parseCloudInit env request config
  pure {
    config := ci.1, diskSize := diskSize, systemSize := systemSize, dataSize := dataSize,
    cloneFromImage := clone.cloneFromImage, imageID := clone.imageID,
    mediaHost := clone.mediaHost, mediaPort := clone.mediaPort, imageSize := clone.imageSize,
    drawn := ci.2 }

/-! ## Create-instance executor: stages

A message fresh from `framework.CreateJsonMessage` has its success flag unset
(false) and no error text. -/

/-- The failure exits of the cloning block: full release, then `ResponseFail`
on the progress event. -/
def cloneFail (env : ExecEnv) (trace : List Action) (config : GuestConfig) (event : Message)
    (err sender : String) : Execution :=
  let trace := ReleaseResource env trace config.ID true true true
  ResponseFail env trace event err sender

/-- The loop `for { select { ... } }` of the cloning block, one list element
per case that fires; on the empty list the expired tick fires. -/
def cloneLoop (env : ExecEnv) (id : Nat) (sender : String) (config : GuestConfig) :
    List CloneEvent → Message → List Action → Execution
  | [], event, trace => cloneFail env trace config event "timeout" sender
  | .tick expired :: rest, event, trace =>
    if expired then
      cloneFail env trace config event "timeout" sender
    else
      cloneLoop env id sender config rest event trace
  | .progress progress :: rest, event, trace =>
    let event := { event with ParamKeyProgress := some progress }
    let sent := SendMessage env trace event sender
    cloneLoop env id sender config rest event sent.1
  | .result result :: _, event, trace =>
    match result.Error with
    | some err => cloneFail env trace config event err sender
    | none =>
      let created : Message := { ID := .GuestCreatedEvent }
      let created := { created with Success := true }
      let created := { created with FromSession := id }
      let created := { created with ParamKeyInstance := some config.ID }
      let created := { created with ParamKeyMonitor := some config.MonitorPort }
      let created := { created with ParamKeySecret := some config.MonitorSecret }
      let created := { created with ParamKeyHardware := some config.HardwareAddress }
      let sent := SendMessage env trace created sender
      let trace := if config.AutoStart then
          startAutoStartInstance env sent.1 id config.ID sender
        else sent.1
      { trace := trace, ret := none }

/-- The first four statements of the block "begin clone image": the progress
event with its success flag set, its session and the instance id. -/
def progressEvent (id : Nat) (guestID : String) : Message :=
  let event : Message := { ID := .GuestUpdatedEvent }
  let event := { event with Success := true }
  let event := { event with FromSession := id }
  { event with ParamKeyInstance := some guestID }

/-- The block "begin clone image" of `Execute`. -/
def cloneStage (env : ExecEnv) (id : Nat) (request : Request) (p : Parsed)
    (config : GuestConfig) (trace : List Action) : Execution :=
  let event := progressEvent id config.ID
  match config.StorageVolumes with
  | [] => { trace := trace, ret := none, panic := true }
  | targetVol :: _ =>
    let trace := trace ++ [.ReadDiskImage id config.ID targetVol p.imageID p.systemSize
      p.imageSize p.mediaHost p.mediaPort]
    match env.cloneStart with
    | .start (some err) => cloneFail env trace config event err request.Sender
    | .timeout => cloneFail env trace config event "start clone disk image timeout" request.Sender
    | .start none => cloneLoop env id request.Sender config env.cloneEvents event trace

/-- The block `if !cloneFromImage { ... return nil }` of `Execute`. -/
def finishStage (env : ExecEnv) (id : Nat) (request : Request) (config : GuestConfig)
    (trace : List Action) : Execution :=
  let event : Message := { ID := .GuestCreatedEvent }
  let event := { event with FromSession := id }
  let event := { event with ParamKeyInstance := some config.ID }
  let event := { event with ParamKeyMonitor := some config.MonitorPort }
  let event := { event with ParamKeySecret := some config.MonitorSecret }
  let event := { event with ParamKeyHardware := some config.HardwareAddress }
  let sent := SendMessage env trace event request.Sender
  let trace := if config.AutoStart then
      startAutoStartInstance env sent.1 id config.ID request.Sender
    else sent.1
  { trace := trace, ret := none }

/-- The statements under "send create response": the instance id, the value
of `config.Created` under `ParamKeyEnable`, and the success flag. -/
def successReply (resp : Message) (config : GuestConfig) : Message :=
  let resp := { resp with ParamKeyInstance := some config.ID }
  let resp := { resp with ParamKeyEnable := some config.Created }
  { resp with Success := true }

/-- The block of `Execute` that defines the domain and sends the create
response (`MonitorSecretLength` = 8). -/
def defineStage (env : ExecEnv) (id : Nat) (request : Request) (resp : Message) (p : Parsed)
    (config : GuestConfig) (trace : List Action) : Execution :=
  let config := { config with MonitorSecret := generatePassword env p.drawn 8 }
  let err := env.CreateInstance
  let trace := trace ++ [.CreateInstance config err]
  match err with
  | some e =>
    let trace := ReleaseResource env trace config.ID true true false
    ResponseFail env trace resp e request.Sender
  | none =>
    let resp := successReply resp config
    let sent := SendMessage env trace resp request.Sender
    match sent.2 with
    | some e => { trace := sent.1, ret := some e }
    | none =>
      if !p.cloneFromImage then
        finishStage env id request config sent.1
      else
        cloneStage env id request p config sent.1

/-- The block "create storage volumes" of `Execute`. -/
def storageStage (decls : ServiceDecls) (env : ExecEnv) (id : Nat) (request : Request)
    (resp : Message) (p : Parsed) (config : GuestConfig) (trace : List Action) : Execution :=
  let volGroup := config.ID
  let bootType := if config.CloudInitAvailable then decls.BootTypeCloudInit else decls.BootTypeNone
  let result := env.CreateVolumes
  let trace := trace ++ [.CreateVolumes volGroup p.systemSize p.dataSize bootType result]
  match result.Error with
  | some err =>
    let trace := ReleaseResource env trace config.ID true false false
    ResponseFail env trace resp err request.Sender
  | none =>
    let config := { config with StoragePool := result.Pool }
    let config := { config with StorageVolumes := result.Volumes }
    let config := { config with Disks := p.diskSize }
    let config := if config.CloudInitAvailable then { config with BootImage := result.Image }
      else config
    defineStage env id request resp p config trace

/-- The block `if "" == config.HardwareAddress { ... }` of "network prepare":
the error text of the failing exit, or the configuration with its MAC address. -/
def prepareMac (env : ExecEnv) (config : GuestConfig) : Except String GuestConfig :=
  if "" = config.HardwareAddress then
    match generateMacAddress env with
    | .error e => .error ("get MAC address fail: " ++ e)
    | .ok mac => .ok { config with HardwareAddress := mac }
  else .ok config

/-- The block "network prepare" of `Execute`. -/
def networkStage (decls : ServiceDecls) (env : ExecEnv) (id : Nat) (request : Request)
    (resp : Message) (p : Parsed) : Execution :=
  match prepareMac env p.config with
  | .error e => ResponseFail env [] resp e request.Sender
  | .ok config =>
    if config.NetworkMode = decls.NetworkModePlain then
      let result := env.GetCurrentConfig
      let trace := [Action.GetCurrentConfig result]
      match result.Error with
      | some err => ResponseFail env trace resp err request.Sender
      | none =>
        let config := { config with NetworkSource := result.Name }
        let config := { config with AddressAllocation := result.Allocation }
        let result := env.AllocateInstanceResource
        let trace := trace ++ [.AllocateInstanceResource config.ID config.HardwareAddress
          config.InternalAddress config.ExternalAddress result]
        match result.Error with
        | some err => ResponseFail env trace resp err request.Sender
        | none =>
          let config := { config with MonitorPort := result.MonitorPort }
          storageStage decls env id request resp p config trace
    else
      ResponseFail env [] resp ("unsupported network mode " ++ toString config.NetworkMode)
        request.Sender

/-- The first four statements of `Execute`: the response message with its
sessions set and its success flag cleared. -/
def initialResponse (id : Nat) (request : Request) : Message :=
  let resp : Message := { ID := .CreateGuestResponse }
  let resp := { resp with FromSession := id }
  let resp := { resp with ToSession := request.FromSession }
  { resp with Success := false }

/-- Embedding of `(*CreateInstanceExecutor).Execute`. -/
def Execute (decls : ServiceDecls) (env : ExecEnv) (id : Nat) (request : Request) : Execution :=
  let resp := initialResponse id request
  match parseRequest decls env request with
  | .error (.respond err) => ResponseFail env [] resp err request.Sender
  | .error (.returnErr err) => { trace := [], ret := some err }
  | .ok p => networkStage decls env id request resp p

/-! ## Create-instance executor: observations on a run -/

/-- The messages handed to `SendMessage` during a run, in order, each with
its target. -/
def sentMessages : List Action → List (Message × String)
  | [] => []
  | .SendMessage msg target _ :: rest => (msg, target) :: sentMessages rest
  | _ :: rest => sentMessages rest

/-- The three release paths. -/
inductive Release where
  | releaseInstance
  | storage
  | network
  deriving DecidableEq, Repr

/-- The release calls of a run, in order: `DeleteInstance`, `DeleteVolumes`,
`DeallocateAllResource`. -/
def releases : List Action → List Release
  | [] => []
  | .DeleteInstance _ _ :: rest => .releaseInstance :: releases rest
  | .DeleteVolumes _ _ :: rest => .storage :: releases rest
  | .DeallocateAllResource _ _ :: rest => .network :: releases rest
  | _ :: rest => releases rest

/-- Whether a call allocates a resource: `AllocateInstanceResource`,
`CreateVolumes` or `CreateInstance`. -/
def Action.allocates : Action → Bool
  | .AllocateInstanceResource _ _ _ _ _ => true
  | .CreateVolumes _ _ _ _ _ => true
  | .CreateInstance _ _ => true
  | _ => false

/-! ## Create-instance executor: vocabulary of the statements -/

/-- The message that `ResponseFail` sends when given `resp` and the text `err`. -/
def failureMessage (resp : Message) (err : String) : Message :=
  { resp with Success := false, Error := some err }

/-- The request is rejected by the parsing part of `Execute`. -/
def parseFails (decls : ServiceDecls) (env : ExecEnv) (request : Request) : Prop :=
  ∀ p, parseRequest decls env request ≠ .ok p

/-- The network stage gets through: the MAC address is there, the network mode
is the plain one, and both calls of the network module succeed. -/
def networkOk (decls : ServiceDecls) (env : ExecEnv) (p : Parsed) : Prop :=
  (∃ c, prepareMac env p.config = .ok c) ∧ p.config.NetworkMode = decls.NetworkModePlain ∧
    env.GetCurrentConfig.Error = none ∧ env.AllocateInstanceResource.Error = none

/-- Whether the cloning loop, receiving these events, leaves by a failure
exit: an expired tick (also when nothing more arrives) or a result carrying an
error, before any successful result. -/
def cloneEndsInFailure : List CloneEvent → Bool
  | [] => true
  | .tick expired :: rest => expired || cloneEndsInFailure rest
  | .progress _ :: rest => cloneEndsInFailure rest
  | .result result :: _ => result.Error.isSome

/-- Whether the cloning block, once `ReadDiskImage` is called, leaves by a
failure exit: start failure, start timeout, inactivity timeout or an error
result. -/
def cloneFails (env : ExecEnv) : Bool :=
  match env.cloneStart with
  | .timeout => true
  | .start (some _) => true
  | .start none => cloneEndsInFailure env.cloneEvents

/-- Sample values for the declarations of package `service`. -/
def sampleDecls : ServiceDecls where
  NetworkModePlain := 0
  BootTypeNone := 0
  BootTypeCloudInit := 1
  PolicyRuleActionAccept := 1
  PolicyRuleProtocolIndexTCP := 0
  PolicyRuleProtocolIndexUDP := 1
  PolicyRuleProtocolIndexICMP := 2
  PolicyRuleProtocolTCP := "tcp"
  PolicyRuleProtocolUDP := "udp"
  PolicyRuleProtocolICMP := "icmp"
  UInt32ToIPv4 := fun n => toString n
  TemplateOperatingSystem := fun n => toString n
  TemplateDiskDriver := fun n => toString n
  TemplateNetworkModel := fun n => toString n
  TemplateDisplayDriver := fun n => toString n
  TemplateRemoteControl := fun n => toString n
  TemplateUSBModel := fun n => toString n
  TemplateTabletModel := fun n => toString n

/-- A minimal well-formed request: 2 cores, 2 GiB of memory, one 20 GiB disk,
no image, no cloud-init. -/
def sampleRequest : Request where
  Sender := "core"
  FromSession := 5
  ParamKeyName := .ok "g.vm"
  ParamKeyInstance := .ok "uuid-1"
  ParamKeyUser := .ok "u"
  ParamKeyGroup := .ok "g"
  ParamKeyCore := .ok 2
  ParamKeyMemory := .ok 2147483648
  ParamKeyDisk := .ok [21474836480]
  ParamKeyOption := .ok false
  ParamKeyAdmin := .ok "root"
  ParamKeyTemplate := .ok [0, 1, 2, 0, 0, 0, 0]
  ParamKeyMode := .ok [0, 0]
  ParamKeyImage := .error "no image"
  ParamKeyHost := .error "no host"
  ParamKeyPort := .error "no port"
  ParamKeySize := .error "no size"
  ParamKeyAddress := .error "no address"
  ParamKeyPriority := .ok 1
  ParamKeyLimit := .error "no limit"
  ParamKeyPolicy := .error "no policy"
  ParamKeyAction := .error "no action"
  ParamKeyModule := .error "no module"
  ParamKeyFlag := .ok [0]
  ParamKeySecret := .error "no secret"
  ParamKeyPath := .error "no path"

/-- The sample request asking to clone the system disk from image "img". -/
def sampleCloneRequest : Request :=
  { sampleRequest with
    ParamKeyImage := .ok "img", ParamKeyHost := .ok "h", ParamKeyPort := .ok 443,
    ParamKeySize := .ok 10485760 }

/-- An environment in which every call succeeds; the cloning loop receives one
progress value and then a successful result. -/
def sampleEnv : ExecEnv where
  SendMessage := fun _ => none
  draw := fun k => k
  Read := .ok (1, 2, 255)
  GetCurrentConfig := { Name := "br0" }
  AllocateInstanceResource := { MonitorPort := 5901 }
  DeallocateAllResource := none
  CreateVolumes := { Pool := "local0", Volumes := ["uuid-1_sys.qcow2"] }
  DeleteVolumes := none
  CreateInstance := none
  DeleteInstance := none
  StartInstance := none
  cloneStart := .start none
  cloneEvents := [.progress 50, .result { Size := 10485760 }]

/-- The parameter checks spelled out: conditions on the request each of which
makes the parsing part of `Execute` reject it. -/
def listedParseFailure (decls : ServiceDecls) (request : Request) : Prop :=
  (∃ e, request.ParamKeyName = .error e) ∨ (∃ e, request.ParamKeyInstance = .error e) ∨
  (∃ e, request.ParamKeyUser = .error e) ∨ (∃ e, request.ParamKeyGroup = .error e) ∨
  (∃ e, request.ParamKeyCore = .error e) ∨ (∃ e, request.ParamKeyMemory = .error e) ∨
  (∃ e, request.ParamKeyDisk = .error e) ∨ (∃ e, request.ParamKeyOption = .error e) ∨
  (∃ e, request.ParamKeyAdmin = .error e) ∨ (∃ e, request.ParamKeyTemplate = .error e) ∨
  (∃ e, request.ParamKeyMode = .error e) ∨ (∃ e, request.ParamKeyFlag = .error e) ∨
  request.ParamKeyDisk = .ok [] ∨
  (∃ l, request.ParamKeyTemplate = .ok l ∧ l.length ≠ 7) ∨
  (∃ l, request.ParamKeyMode = .ok l ∧ l.length ≠ 2) ∨
  (∃ l, request.ParamKeyLimit = .ok l ∧ l.length ≠ 6) ∨
  (∃ l, request.ParamKeyPolicy = .ok l ∧ l.length % 5 ≠ 0) ∨
  (∃ l e, request.ParamKeyPolicy = .ok l ∧ parsePolicyRules decls l = .error e) ∨
  (∃ l, request.ParamKeyFlag = .ok l ∧ l.length ≠ 1) ∨
  (∃ l m, request.ParamKeyModule = .ok l ∧ m ∈ l ∧ m ≠ "qemu" ∧ m ≠ "cloud-init")

/-- The sample request with an empty disk-size array. -/
def emptyDiskRequest : Request :=
  { sampleRequest with ParamKeyDisk := .ok [] }

/-- The sample request without its mode array. -/
def noModeRequest : Request :=
  { sampleRequest with ParamKeyMode := .error "no mode" }

/-- The sample environment with `CreateVolumes` failing and every release
call failing too. -/
def storageFailEnv : ExecEnv :=
  { sampleEnv with
    CreateVolumes := { Error := some "no space" },
    DeleteInstance := some "release failed", DeleteVolumes := some "release failed",
    DeallocateAllResource := some "release failed" }

/-- The sample environment with the start of the cloning timing out. -/
def startTimeoutEnv : ExecEnv :=
  { sampleEnv with cloneStart := .timeout }

/-- What the parsing part of `Execute` yields on the sample request. -/
def sampleParsed : Parsed where
  config := {
    Name := "g.vm", ID := "uuid-1", User := "u", Group := "g", Cores := 2, Memory := 2147483648,
    AuthUser := "root", CPUPriority := 1,
    Template := some { OperatingSystem := "0", Disk := "1", Network := "2", Display := "0",
                       Control := "0", USB := "0", Tablet := "0" } }
  diskSize := [21474836480]
  systemSize := 21474836480
  dataSize := []
  cloneFromImage := false
  imageID := ""
  mediaHost := ""
  mediaPort := 0
  imageSize := 0
  drawn := 0

/-- The `GuestCreatedEvent` messages handed to `SendMessage` during a run, in
order, each with its target. -/
def createdEvents (trace : List Action) : List (Message × String) :=
  (sentMessages trace).filter (fun m => decide (m.1.ID = MessageID.GuestCreatedEvent))

/-- The run completes successfully: the request is accepted, the network
stage, the volume creation and the domain definition succeed, the create
response is delivered and, when an image is cloned, the cloning block is
entered with a system volume and does not leave by a failure exit. -/
def runSucceeds (decls : ServiceDecls) (env : ExecEnv) (request : Request) : Prop :=
  ∃ p, parseRequest decls env request = .ok p ∧ networkOk decls env p ∧
    env.CreateVolumes.Error = none ∧ env.CreateInstance = none ∧ env.SendMessage 0 = none ∧
    (p.cloneFromImage = true → env.CreateVolumes.Volumes ≠ [] ∧ cloneFails env = false)

/-- What the parsing part of `Execute` yields on the sample cloning request. -/
def sampleCloneParsed : Parsed :=
  { sampleParsed with
    cloneFromImage := true, imageID := "img", mediaHost := "h", mediaPort := 443,
    imageSize := 10485760 }

/-! ## Domain document

The structures of the domain document, with the fields that the embedded
functions read or write; a Go pointer field is an `Option`, a nil pointer
`none`.  Go's reserved-looking field name `Type` is written `DiskType`,
`DriverType`, `InterfaceType` or `ModelType`.  `uint` and `int` are 64 bits
wide: `uint(x)` of a `uint64` is `x`, and `int(x)` is `toInt x`. -/

/-- The conversion `int(x)` of a `uint64` value: the signed 64-bit integer with
the same bits. -/
def toInt (x : Nat) : Int :=
  if x % 2 ^ 64 < 2 ^ 63 then (x % 2 ^ 64 : Nat) else ((x % 2 ^ 64 : Nat) : Int) - 2 ^ 64

/-- Fields of `virDomainInterfaceTarget`. -/
structure virDomainInterfaceTarget where
  Device : String := ""
  deriving DecidableEq, Repr

/-- Fields of `virDomainInterfaceSource`. -/
structure virDomainInterfaceSource where
  Bridge : String := ""
  Network : String := ""
  deriving DecidableEq, Repr

/-- Fields of `virDomainInterfaceMAC`. -/
structure virDomainInterfaceMAC where
  Address : String := ""
  deriving DecidableEq, Repr

/-- Fields of `virDomainInterfaceModel`. -/
structure virDomainInterfaceModel where
  ModelType : String := ""
  deriving DecidableEq, Repr

/-- Fields of `virDomainInterfaceLimit`. -/
structure virDomainInterfaceLimit where
  Average : Nat := 0
  Peak : Nat := 0
  Burst : Nat := 0
  deriving DecidableEq, Repr

/-- Fields of `virDomainInterfaceBandwidth`. -/
structure virDomainInterfaceBandwidth where
  Inbound : Option virDomainInterfaceLimit := none
  Outbound : Option virDomainInterfaceLimit := none
  deriving DecidableEq, Repr

/-- Fields of `virDomainInterfaceElement`. -/
structure virDomainInterfaceElement where
  InterfaceType : String := ""
  Source : virDomainInterfaceSource := {}
  MAC : Option virDomainInterfaceMAC := none
  Model : Option virDomainInterfaceModel := none
  Target : Option virDomainInterfaceTarget := none
  Bandwidth : Option virDomainInterfaceBandwidth := none
  deriving DecidableEq, Repr

/-- Fields of `virDomainDiskDriver`. -/
structure virDomainDiskDriver where
  Name : String := ""
  DriverType : String := ""
  deriving DecidableEq, Repr

/-- Fields of `virDomainDiskSourceHost`. -/
structure virDomainDiskSourceHost where
  Name : String := ""
  Port : Nat := 0
  deriving DecidableEq, Repr

/-- Fields of `virDomainDiskSource`. -/
structure virDomainDiskSource where
  File : String := ""
  Protocol : String := ""
  Name : String := ""
  Pool : String := ""
  Volume : String := ""
  Host : Option virDomainDiskSourceHost := none
  deriving DecidableEq, Repr

/-- Fields of `virDomainDiskTarget`. -/
structure virDomainDiskTarget where
  Device : String := ""
  Bus : String := ""
  deriving DecidableEq, Repr

/-- Fields of `virDomainDiskTune`; the two byte rates are `uint`, the two
operation rates `int`. -/
structure virDomainDiskTune where
  ReadBytePerSecond : Nat := 0
  WriteBytePerSecond : Nat := 0
  ReadIOPerSecond : Int := 0
  WriteIOPerSecond : Int := 0
  deriving DecidableEq, Repr

/-- Fields of `virDomainDiskElement`. -/
structure virDomainDiskElement where
  DiskType : String := ""
  Device : String := ""
  Driver : virDomainDiskDriver := {}
  Target : virDomainDiskTarget := {}
  ReadOnly : Option Bool := none
  Source : Option virDomainDiskSource := none
  IoTune : Option virDomainDiskTune := none
  deriving DecidableEq, Repr

/-- Fields of `virDomainCPUTuneDefine`. -/
structure virDomainCPUTuneDefine where
  Shares : Nat := 0
  Period : Nat := 0
  Quota : Nat := 0
  deriving DecidableEq, Repr

/-- The fields `Disks` and `Interface` of `virDomainDevicesElement`. -/
structure virDomainDevicesElement where
  Disks : List virDomainDiskElement := []
  Interface : List virDomainInterfaceElement := []
  deriving DecidableEq, Repr

/-- The fields `Name`, `CPUTune` and `Devices` of `virDomainDefine`. -/
structure virDomainDefine where
  Name : String := ""
  CPUTune : virDomainCPUTuneDefine := {}
  Devices : virDomainDevicesElement := {}
  deriving DecidableEq, Repr

/-- Constant `IDEOffsetCDROM`. -/
def IDEOffsetCDROM : Nat := 0

/-- Constant `IDEOffsetCIDATA`. -/
def IDEOffsetCIDATA : Nat := 1

/-- Constant `IDEOffsetDISK`. -/
def IDEOffsetDISK : Nat := 2

/-- Constant `DiskTypeBlock`. -/
def DiskTypeBlock : String := "block"

/-- Constant `DiskTypeFile`. -/
def DiskTypeFile : String := "file"

/-- Constant `DiskTypeVolume`. -/
def DiskTypeVolume : String := "volume"

/-- Constant `DeviceCDROM`. -/
def DeviceCDROM : String := "cdrom"

/-- Constant `DeviceDisk`. -/
def DeviceDisk : String := "disk"

/-- Constant `DriverNameQEMU`. -/
def DriverNameQEMU : String := "qemu"

/-- Constant `DriverTypeRaw`. -/
def DriverTypeRaw : String := "raw"

/-- Constant `DriverTypeQCOW2`. -/
def DriverTypeQCOW2 : String := "qcow2"

/-- Constant `StartDeviceCharacter`, 0x61, the letter a. -/
def StartDeviceCharacter : Nat := 0x61

/-- Constant `DevicePrefixIDE`. -/
def DevicePrefixIDE : String := "hd"

/-- Constant `DevicePrefixSCSI`. -/
def DevicePrefixSCSI : String := "sd"

/-- Constant `DiskBusIDE`. -/
def DiskBusIDE : String := "ide"

/-- The verb `%c` of `fmt.Sprintf` on an integer: the character with that code
point, or U+FFFD when the integer is no valid code point. -/
def fmtChar (n : Nat) : Char :=
  if n.isValidChar then Char.ofNat n else Char.ofNat 0xFFFD

/-- The call `fmt.Sprintf("%s%c", devicePrefix, devChar)`. -/
def deviceName (devicePrefix : String) (devChar : Nat) : String :=
  devicePrefix ++ String.singleton (fmtChar devChar)

/-! ## Domain builder -/

/-- The element `cdromElement` of `SetLocalVolumes`: the empty IDE CD-ROM. -/
def cdromElement : virDomainDiskElement :=
  { DiskType := DiskTypeBlock, Device := DeviceCDROM,
    Driver := { Name := DriverNameQEMU, DriverType := DriverTypeRaw },
    Target := { Device := deviceName DevicePrefixIDE (StartDeviceCharacter + IDEOffsetCDROM),
                Bus := DiskBusIDE },
    ReadOnly := some true }

/-- The element `ciElement` of `SetLocalVolumes`: the CD-ROM holding the boot
image. -/
def ciElement (bootImage : String) : virDomainDiskElement :=
  let isoSource : virDomainDiskSource := { File := bootImage }
  { DiskType := DiskTypeFile, Device := DeviceCDROM,
    Driver := { Name := DriverNameQEMU, DriverType := DriverTypeRaw },
    Target := { Device := deviceName DevicePrefixIDE (StartDeviceCharacter + IDEOffsetCIDATA),
                Bus := DiskBusIDE },
    Source := some isoSource, ReadOnly := some true }

/-- The block `if DiskBusIDE == diskBus { ... } else { ... }` of
`SetLocalVolumes`: the first `devChar` and the `devicePrefix`. -/
def volumeStart (diskBus : String) : Nat × String :=
  if DiskBusIDE = diskBus then (StartDeviceCharacter + IDEOffsetDISK, DevicePrefixIDE)
  else (StartDeviceCharacter, DevicePrefixSCSI)

/-- The variable `ioTune` of `SetLocalVolumes`: nil unless one of the four
values is nonzero. -/
def volumeTune (readSpeed readIOPS writeSpeed writeIOPS : Nat) : Option virDomainDiskTune :=
  if 0 ≠ writeSpeed ∨ 0 ≠ writeIOPS ∨ 0 ≠ readSpeed ∨ 0 ≠ readIOPS then
    let limit : virDomainDiskTune := {}
    let limit := { limit with ReadBytePerSecond := readSpeed }
    let limit := { limit with ReadIOPerSecond := toInt readIOPS }
    let limit := { limit with WriteBytePerSecond := writeSpeed }
    let limit := { limit with WriteIOPerSecond := toInt writeIOPS }
    some limit
  else none

/-- The element `diskElement` built in one turn of the volume loop of
`SetLocalVolumes`. -/
def volumeElement (diskBus pool devicePrefix : String) (ioTune : Option virDomainDiskTune)
    (devChar : Nat) (volumeName : String) : virDomainDiskElement :=
  let devName := deviceName devicePrefix devChar
  let source : virDomainDiskSource := { Pool := pool, Volume := volumeName }
  let diskElement : virDomainDiskElement := {
    DiskType := DiskTypeVolume, Device := DeviceDisk,
    Driver := { Name := DriverNameQEMU, DriverType := DriverTypeQCOW2 },
    Target := { Device := devName, Bus := diskBus }, Source := some source }
  match ioTune with
  | some tune => { diskElement with IoTune := some tune }
  | none => diskElement

/-- The loop `for _, volumeName := range volumes` of `SetLocalVolumes`: one
disk element per volume appended to `disks`, `devChar` counting up. -/
def volumeLoop (diskBus pool devicePrefix : String) (ioTune : Option virDomainDiskTune) :
    List String → Nat → List virDomainDiskElement → List virDomainDiskElement
  | [], _, disks => disks
  | volumeName :: rest, devChar, disks =>
    let diskElement := volumeElement diskBus pool devicePrefix ioTune devChar volumeName
    volumeLoop diskBus pool devicePrefix ioTune rest (devChar + 1) (disks ++ [diskElement])

/-- Embedding of `(*virDomainDefine).SetLocalVolumes`: the define after the
call; the function always returns nil. -/
def SetLocalVolumes (define : virDomainDefine) (diskBus pool : String) (volumes : List String)
    (bootImage : String) (readSpeed readIOPS writeSpeed writeIOPS : Nat) : virDomainDefine :=
  let disks := define.Devices.Disks ++ [cdromElement]
  let disks := if "" ≠ bootImage then disks ++ [ciElement bootImage] else disks
  let devChar := (volumeStart diskBus).1
  let devicePrefix := (volumeStart diskBus).2
  let ioTune := volumeTune readSpeed readIOPS writeSpeed writeIOPS
  let disks := volumeLoop diskBus pool devicePrefix ioTune volumes devChar disks
  { define with Devices := { define.Devices with Disks := disks } }

/-- Embedding of `(*virDomainDefine).generateMacAddress`; `randRead` is the
result of `rand.Read` on a 3-byte buffer, an error or the bytes. -/
def defineGenerateMacAddress (randRead : Except String (Nat × Nat × Nat)) : Except String String :=
  match randRead with
  | .error e => .error e
  | .ok (b0, b1, b2) => .ok ("00:16:3e" ++ ":" ++ hexByte b0 ++ ":" ++ hexByte b1 ++ ":" ++ hexByte b2)

/-- The block `if 0 != receiveSpeed || 0 != sendSpeed { ... }` of
`SetPlainNetwork`: the value assigned to `i.Bandwidth`, nil when both speeds
are zero. -/
def plainBandwidth (receiveSpeed sendSpeed : Nat) : Option virDomainInterfaceBandwidth :=
  if 0 ≠ receiveSpeed ∨ 0 ≠ sendSpeed then
    let bandWidth : virDomainInterfaceBandwidth := {}
    let bandWidth :=
      if 0 ≠ receiveSpeed then
        let limit : virDomainInterfaceLimit := {}
        let limit := { limit with Average := receiveSpeed >>> 10 }
        let limit := { limit with Peak := receiveSpeed >>> 9 }
        let limit := { limit with Burst := limit.Average }
        { bandWidth with Inbound := some limit }
      else bandWidth
    let bandWidth :=
      if 0 ≠ sendSpeed then
        let limit : virDomainInterfaceLimit := {}
        let limit := { limit with Average := sendSpeed >>> 10 }
        let limit := { limit with Peak := sendSpeed >>> 9 }
        let limit := { limit with Burst := limit.Average }
        { bandWidth with Outbound := some limit }
      else bandWidth
    some bandWidth
  else none

/-- Embedding of `(*virDomainDefine).SetPlainNetwork`: the error, or the
define after the call. -/
def SetPlainNetwork (randRead : Except String (Nat × Nat × Nat)) (define : virDomainDefine)
    (netBus bridge mac : String) (receiveSpeed sendSpeed : Nat) : Except String virDomainDefine :=
  let withMac : Except String String :=
    if mac = "" then defineGenerateMacAddress randRead else .ok mac
  match withMac with
  | .error err => .error err
  | .ok mac =>
    let i : virDomainInterfaceElement := {}
    let i := { i with InterfaceType := "bridge" }
    let i := { i with MAC := some { Address := mac } }
    let i := { i with Source := { Bridge := bridge } }
    let i := { i with Model := some { ModelType := netBus } }
    let i := match plainBandwidth receiveSpeed sendSpeed with
      | some bandWidth => { i with Bandwidth := some bandWidth }
      | none => i
    .ok { define with Devices := { define.Devices with Interface := [i] } }

/-- The constants `PriorityHigh`, `PriorityMedium` and `PriorityLow` of type
`PriorityEnum`, declared outside the files embedded here; they are parameters
of the embedding.  As labels of one `switch` they are pairwise distinct. -/
structure PriorityDecls where
  PriorityHigh : Nat
  PriorityMedium : Nat
  PriorityLow : Nat
  deriving DecidableEq, Repr

/-- Embedding of `setCPUPriority`: the define after the call, whose period is
set on every path, and the returned error. -/
def setCPUPriority (decls : PriorityDecls) (domain : virDomainDefine) (priority : Nat) :
    virDomainDefine × GoError :=
  let periodPerSecond := 1000000
  let quotaPerSecond := 1000000
  let highShares := 2000
  let mediumShares := 1000
  let lowShares := 500
  let domain := { domain with CPUTune := { domain.CPUTune with Period := periodPerSecond } }
  if priority = decls.PriorityHigh then
    let domain := { domain with CPUTune := { domain.CPUTune with Shares := highShares } }
    ({ domain with CPUTune := { domain.CPUTune with Quota := quotaPerSecond } }, none)
  else if priority = decls.PriorityMedium then
    let domain := { domain with CPUTune := { domain.CPUTune with Shares := mediumShares } }
    ({ domain with CPUTune := { domain.CPUTune with Quota := quotaPerSecond / 2 } }, none)
  else if priority = decls.PriorityLow then
    let domain := { domain with CPUTune := { domain.CPUTune with Shares := lowShares } }
    ({ domain with CPUTune := { domain.CPUTune with Quota := quotaPerSecond / 4 } }, none)
  else
    (domain, some ("invalid CPU priority " ++ toString priority))

/-! ## Hypervisor adapter

The hypervisor connection is an environment that answers each call of the
library.  A run records the commands issued to the domain, in order, and the
returned error; look-ups and queries (`LookupDomainByUUIDString`, `IsActive`,
`GetXMLDesc`) are answers of the environment and not commands.  The XML text
handed to `UpdateDeviceFlags` is identified with the element it is marshalled
from. -/

/-- The flags of `UpdateDeviceFlags` used by the adapter, constants of the
hypervisor library. -/
inductive DeviceModifyFlags where
  | DOMAIN_DEVICE_MODIFY_CONFIG
  | DOMAIN_DEVICE_MODIFY_LIVE
  deriving DecidableEq, Repr

/-- A device element given to `xml.MarshalIndent`. -/
inductive DeviceElement where
  | disk (element : virDomainDiskElement)
  | netInterface (element : virDomainInterfaceElement)
  deriving DecidableEq, Repr

/-- The fields of `libvirt.DomainInterfaceParameters` that the adapter sets. -/
structure DomainInterfaceParameters where
  BandwidthInAverageSet : Bool := false
  BandwidthInAverage : Nat := 0
  BandwidthInPeakSet : Bool := false
  BandwidthInPeak : Nat := 0
  BandwidthInBurstSet : Bool := false
  BandwidthInBurst : Nat := 0
  BandwidthOutAverageSet : Bool := false
  BandwidthOutAverage : Nat := 0
  BandwidthOutPeakSet : Bool := false
  BandwidthOutPeak : Nat := 0
  BandwidthOutBurstSet : Bool := false
  BandwidthOutBurst : Nat := 0
  deriving DecidableEq, Repr

/-- Commands issued to a domain. -/
inductive DomainCommand where
  /-- The call `UpdateDeviceFlags(xml, flags)` with the XML text of `device`. -/
  | UpdateDeviceFlags (device : DeviceElement) (flags : DeviceModifyFlags)
  /-- The call `SetInterfaceParameters(device, &parameters, DOMAIN_AFFECT_LIVE)`. -/
  | SetInterfaceParameters (device : String) (parameters : DomainInterfaceParameters)
  /-- The call `Create()`, which starts the domain. -/
  | Create
  | Destroy
  | Shutdown
  /-- The call `Reboot(DOMAIN_REBOOT_DEFAULT)`. -/
  | Reboot
  /-- The call `Reset(0)`. -/
  | Reset
  deriving DecidableEq, Repr

/-- Answers of the hypervisor library and of the XML encoder. -/
structure DomainEnv where
  /-- Error of `LookupDomainByUUIDString`, nil when the domain is found. -/
  LookupDomainByUUIDString : GoError
  /-- Result of `IsActive`. -/
  IsActive : Except String Bool
  /-- Result of `GetXMLDesc(0)` followed by `xml.Unmarshal` into a define: the
  error of the first that fails, or the define read. -/
  currentDomain : Except String virDomainDefine
  /-- Result of `xml.MarshalIndent` on a device element: an error or the text. -/
  MarshalIndent : DeviceElement → Except String String
  /-- Result of the k-th call (from 0) of `UpdateDeviceFlags`. -/
  UpdateDeviceFlags : Nat → GoError
  /-- Result of the k-th call (from 0) of `SetInterfaceParameters`. -/
  SetInterfaceParameters : Nat → GoError
  Create : GoError
  Destroy : GoError
  Shutdown : GoError
  Reboot : GoError
  Reset : GoError

/-- A run of an adapter function: the commands issued, the returned error, and
whether the run ended in a run-time panic (a nil `Target` dereferenced). -/
structure DomainRun where
  trace : List DomainCommand
  ret : GoError
  panic : Bool := false
  deriving DecidableEq, Repr

/-- Number of `UpdateDeviceFlags` calls in a trace. -/
def updateCount : List DomainCommand → Nat
  | [] => 0
  | .UpdateDeviceFlags _ _ :: rest => updateCount rest + 1
  | _ :: rest => updateCount rest

/-- Number of `SetInterfaceParameters` calls in a trace. -/
def setParametersCount : List DomainCommand → Nat
  | [] => 0
  | .SetInterfaceParameters _ _ :: rest => setParametersCount rest + 1
  | _ :: rest => setParametersCount rest

/-- Embedding of `(*InstanceUtility).StopInstance`. -/
def StopInstance (env : DomainEnv) (id : String) (reboot force : Bool) : DomainRun :=
  match env.LookupDomainByUUIDString with
  | some err => { trace := [], ret := some err }
  | none =>
    match env.IsActive with
    | .error err => { trace := [], ret := some err }
    | .ok isRunning =>
      if !isRunning then
        { trace := [], ret := some ("instance '" ++ id ++ "' already stopped") }
      else if reboot then
        if force then
          { trace := [.Reset], ret := env.Reset }
        else
          { trace := [.Reboot], ret := env.Reboot }
      else
        if force then
          { trace := [.Destroy], ret := env.Destroy }
        else
          { trace := [.Shutdown], ret := env.Shutdown }

/-- The loop over the disks in `SetDiskThreshold`: read-only devices are
skipped, every other one gets its `iotune` rewritten and is updated in the
persistent configuration; the first error ends the loop. -/
def diskThresholdLoop (env : DomainEnv)
    (writeSpeed writeIOPS readSpeed readIOPS : Nat) :
    List virDomainDiskElement → List DomainCommand → DomainRun
  | [], trace => { trace := trace, ret := none }
  | dev :: rest, trace =>
    if dev.ReadOnly ≠ none then
      diskThresholdLoop env writeSpeed writeIOPS readSpeed readIOPS rest trace
    else
      let tune : virDomainDiskTune := match dev.IoTune with
        | some tune => tune
        | none => {}
      let tune := { tune with WriteIOPerSecond := toInt writeIOPS }
      let tune := { tune with ReadIOPerSecond := toInt readIOPS }
      let tune := { tune with WriteBytePerSecond := writeSpeed }
      let tune := { tune with ReadBytePerSecond := readSpeed }
      let dev := { dev with IoTune := some tune }
      match env.MarshalIndent (.disk dev) with
      | .error err => { trace := trace, ret := some err }
      | .ok data =>
        let result := env.UpdateDeviceFlags (updateCount trace)
        let trace := trace ++ [.UpdateDeviceFlags (.disk dev) .DOMAIN_DEVICE_MODIFY_CONFIG]
        match result with
        | some err =>
          { trace := trace, ret := some ("update device fail: " ++ err ++ ", content: " ++ data) }
        | none => diskThresholdLoop env writeSpeed writeIOPS readSpeed readIOPS rest trace

/-- Embedding of `(*InstanceUtility).SetDiskThreshold`. -/
def SetDiskThreshold (env : DomainEnv) (guestID : String)
    (writeSpeed writeIOPS readSpeed readIOPS : Nat) : DomainRun :=
  match env.LookupDomainByUUIDString with
  | some err => { trace := [], ret := some err }
  | none =>
    match env.currentDomain with
    | .error err => { trace := [], ret := some err }
    | .ok currentDomain =>
      match env.IsActive with
      | .error err => { trace := [], ret := some err }
      | .ok activated =>
        if activated then
          { trace := [],
            ret := some ("instance " ++ currentDomain.Name ++ " ('" ++ guestID ++
              "') is still running") }
        else
          diskThresholdLoop env writeSpeed writeIOPS readSpeed readIOPS
            currentDomain.Devices.Disks []

/-- The block "API params" of `SetNetworkThreshold`: the live parameters,
filled only when the domain is active. -/
def liveParameters (activated : Bool) (receiveSpeed sendSpeed : Nat) : DomainInterfaceParameters :=
  let parameters : DomainInterfaceParameters := {}
  if activated then
    let parameters :=
      if 0 ≠ receiveSpeed then
        { parameters with
          BandwidthInAverageSet := true, BandwidthInAverage := receiveSpeed >>> 10,
          BandwidthInPeakSet := true, BandwidthInPeak := receiveSpeed >>> 9,
          BandwidthInBurstSet := true, BandwidthInBurst := receiveSpeed >>> 10 }
      else parameters
    if 0 ≠ sendSpeed then
      { parameters with
        BandwidthOutAverageSet := true, BandwidthOutAverage := sendSpeed >>> 10,
        BandwidthOutPeakSet := true, BandwidthOutPeak := sendSpeed >>> 9,
        BandwidthOutBurstSet := true, BandwidthOutBurst := sendSpeed >>> 10 }
    else parameters
  else parameters

/-- The block "configure params" of `SetNetworkThreshold`: the variable
`bandWidth`, whose address is assigned to every interface. -/
def thresholdBandwidth (receiveSpeed sendSpeed : Nat) : virDomainInterfaceBandwidth :=
  let bandWidth : virDomainInterfaceBandwidth := {}
  let bandWidth :=
    if 0 ≠ receiveSpeed then
      let inbound : virDomainInterfaceLimit :=
        { Average := receiveSpeed >>> 10, Peak := receiveSpeed >>> 9, Burst := receiveSpeed >>> 10 }
      { bandWidth with Inbound := some inbound }
    else bandWidth
  if 0 ≠ sendSpeed then
    let outbound : virDomainInterfaceLimit :=
      { Average := sendSpeed >>> 10, Peak := sendSpeed >>> 9, Burst := sendSpeed >>> 10 }
    { bandWidth with Outbound := some outbound }
  else bandWidth

/-- First half of the loop body of `SetNetworkThreshold`, the block
`if activated { ... }`: `Except.error` is a `return` out of the function (or
the panic on a nil `Target`), `Except.ok` the trace with which the body goes on. -/
def setLiveParameters (env : DomainEnv) (activated : Bool)
    (parameters : DomainInterfaceParameters) (netInf : virDomainInterfaceElement)
    (trace : List DomainCommand) : Except DomainRun (List DomainCommand) :=
  if activated then
    match netInf.Target with
    | none => .error { trace := trace, ret := none, panic := true }
    | some target =>
      let result := env.SetInterfaceParameters (setParametersCount trace)
      let trace := trace ++ [.SetInterfaceParameters target.Device parameters]
      match result with
      | some err => .error { trace := trace, ret := some err }
      | none => .ok trace
  else .ok trace

/-- Second half of the loop body of `SetNetworkThreshold`: the bandwidth is
assigned, the interface marshalled and updated in the persistent
configuration. -/
def updateInterfaceConfig (env : DomainEnv) (bandWidth : virDomainInterfaceBandwidth)
    (netInf : virDomainInterfaceElement) (trace : List DomainCommand) :
    Except DomainRun (List DomainCommand) :=
  let netInf := { netInf with Bandwidth := some bandWidth }
  match env.MarshalIndent (.netInterface netInf) with
  | .error err => .error { trace := trace, ret := some err }
  | .ok data =>
    let result := env.UpdateDeviceFlags (updateCount trace)
    let trace := trace ++ [.UpdateDeviceFlags (.netInterface netInf)
      .DOMAIN_DEVICE_MODIFY_CONFIG]
    match result with
    | some err =>
      .error { trace := trace,
               ret := some ("update device fail: " ++ err ++ ", content: " ++ data) }
    | none => .ok trace

/-- The body of the loop over the interfaces in `SetNetworkThreshold` for one
interface. -/
def networkThresholdStep (env : DomainEnv) (activated : Bool)
    (parameters : DomainInterfaceParameters) (bandWidth : virDomainInterfaceBandwidth)
    (netInf : virDomainInterfaceElement) (trace : List DomainCommand) :
    Except DomainRun (List DomainCommand) :=
  match setLiveParameters env activated parameters netInf trace with
  | .error run => .error run
  | .ok trace => updateInterfaceConfig env bandWidth netInf trace

/-- The loop over the interfaces in `SetNetworkThreshold`. -/
def networkThresholdLoop (env : DomainEnv) (activated : Bool)
    (parameters : DomainInterfaceParameters) (bandWidth : virDomainInterfaceBandwidth) :
    List virDomainInterfaceElement → List DomainCommand → DomainRun
  | [], trace => { trace := trace, ret := none }
  | netInf :: rest, trace =>
    match networkThresholdStep env activated parameters bandWidth netInf trace with
    | .error run => run
    | .ok trace => networkThresholdLoop env activated parameters bandWidth rest trace

/-- Embedding of `(*InstanceUtility).SetNetworkThreshold`. -/
def SetNetworkThreshold (env : DomainEnv) (guestID : String) (receiveSpeed sendSpeed : Nat) :
    DomainRun :=
  let _ := guestID
  match env.LookupDomainByUUIDString with
  | some err => { trace := [], ret := some err }
  | none =>
    match env.currentDomain with
    | .error err => { trace := [], ret := some err }
    | .ok currentDomain =>
      match env.IsActive with
      | .error err => { trace := [], ret := some err }
      | .ok activated =>
        let parameters := liveParameters activated receiveSpeed sendSpeed
        let bandWidth := thresholdBandwidth receiveSpeed sendSpeed
        networkThresholdLoop env activated parameters bandWidth
          currentDomain.Devices.Interface []

/-- The interface elements written to the persistent configuration during a
run: those given to `UpdateDeviceFlags`. -/
def updatedInterfaces : List DomainCommand → List virDomainInterfaceElement
  | [] => []
  | .UpdateDeviceFlags (.netInterface element) _ :: rest => element :: updatedInterfaces rest
  | _ :: rest => updatedInterfaces rest

/-- The device updates of a run. -/
def deviceUpdates : List DomainCommand → List (DeviceElement × DeviceModifyFlags)
  | [] => []
  | .UpdateDeviceFlags device flags :: rest => (device, flags) :: deviceUpdates rest
  | _ :: rest => deviceUpdates rest

/-- A domain with one writable disk and one interface, found and stopped; every
call succeeds. -/
def stoppedDomainEnv : DomainEnv where
  LookupDomainByUUIDString := none
  IsActive := .ok false
  currentDomain := .ok {
    Name := "g.vm",
    Devices := {
      Disks := [{ DiskType := "volume", Device := "disk", Target := { Device := "sda", Bus := "scsi" } }],
      Interface := [{ InterfaceType := "bridge", Source := { Bridge := "br0" },
                      Target := some { Device := "vnet0" } }] } }
  MarshalIndent := fun _ => .ok "<device/>"
  UpdateDeviceFlags := fun _ => none
  SetInterfaceParameters := fun _ => none
  Create := none
  Destroy := none
  Shutdown := none
  Reboot := none
  Reset := none

/-- The same domain, running. -/
def runningDomainEnv : DomainEnv :=
  { stoppedDomainEnv with IsActive := .ok true }

/-- Sample values for the priority constants. -/
def samplePriorityDecls : PriorityDecls :=
  { PriorityHigh := 0, PriorityMedium := 1, PriorityLow := 2 }

/-! ## I/O scheduler: progress reports

Go's `int` is 64 bits wide: the value of an `int` expression is the signed
64-bit integer congruent to the mathematical result, the division `/` truncates
toward zero, and a division by zero is the run-time panic "integer divide by
zero". -/

/-- Fields of `SchedulerUpdate`. -/
structure SchedulerUpdate where
  ID : Nat
  Progress : Nat
  deriving DecidableEq, Repr

/-- The value of an `int` expression whose mathematical result is `x`. -/
def wrapInt (x : Int) : Int :=
  toInt (x % 2 ^ 64).toNat

/-- The conversion `uint(x)` of an `int`. -/
def toUint (x : Int) : Nat :=
  (x % 2 ^ 64).toNat

/-- The statements
`var progress = processed * 100 / total; if progress > 100 { progress = 100 }`
of the two progress goroutines, followed by the conversion `uint(progress)` of
the value put in the update; `none` is the panic of a division by zero. -/
def progressValue (processed total : Int) : Option Nat :=
  if total = 0 then none
  else
    let progress := wrapInt (Int.tdiv (wrapInt (processed * 100)) total)
    let progress := if progress > 100 then 100 else progress
    some (toUint progress)

/-- What the `select` of a progress goroutine receives: the value on
`notifyChan`, or a tick of the one-second ticker, at which the goroutine reads
the byte counter `processed`. -/
inductive ProgressSignal where
  | notify
  | tick (processed : Int)
  deriving DecidableEq, Repr

/-- How a progress goroutine stands after the signals it was given. -/
inductive ProgressStatus where
  /-- It received from `notifyChan`, sent on `exitChan` and returned. -/
  | exited
  /-- It stopped with a run-time panic, which ends the whole process. -/
  | panicked
  /-- It is still blocked in `select`. -/
  | waiting
  deriving DecidableEq, Repr

/-- Updates sent on `progressChan` by a progress goroutine, and its status. -/
structure ProgressRun where
  updates : List SchedulerUpdate
  status : ProgressStatus
  deriving DecidableEq, Repr

/-- The loop `for { select { case <-notifyChan: ...; case <-ticker.C: ... } }`
of the progress goroutines of `handleReadTask` and `handleWriteTask`, the
divisor being `total`. -/
def progressRoutine (id : Nat) (total : Int) :
    List ProgressSignal → List SchedulerUpdate → ProgressRun
  | [], updates => { updates := updates, status := .waiting }
  | .notify :: _, updates => { updates := updates, status := .exited }
  | .tick processed :: rest, updates =>
    match progressValue processed total with
    | none => { updates := updates, status := .panicked }
    | some progress =>
      progressRoutine id total rest (updates ++ [{ Progress := progress, ID := id }])

/-- The progress goroutine of `handleReadTask`, which divides by
`int(imageSize)`. -/
def readProgress (id : Nat) (imageSize : Nat) (signals : List ProgressSignal) : ProgressRun :=
  progressRoutine id (toInt imageSize) signals []

/-- The progress goroutine of `handleWriteTask`, which divides by
`totalSize = int(stat.Size())`. -/
def writeProgress (id : Nat) (totalSize : Int) (signals : List ProgressSignal) : ProgressRun :=
  progressRoutine id totalSize signals []

/-! ## I/O scheduler: write, resize and shrink tasks -/

/-- What one run of a scheduler task does: the calls and channel sends in
order, and the returned error. -/
structure TaskRun where
  trace : List IOAction
  ret : GoError
  deriving DecidableEq, Repr

/-- The deferred function that `handleWriteTask`, `handleResizeTask` and
`handleShrinkTask` each register first: copies a non-nil `err` into the event
and the result, sends the event on `eventChan`, then the result on
`resultChan`. -/
def taskDeferred (err : GoError) (event : schedulerEvent) (result : SchedulerResult) :
    List IOAction :=
  match err with
  | some e => [.sendEvent { event with Error := some e }, .sendResult { result with Error := some e }]
  | none => [.sendEvent event, .sendResult result]

/-- Answers of the environment to the calls of `handleWriteTask`. -/
structure WriteEnv where
  /-- Result of `os.Stat(path)`: an error, or `stat.Size()`. -/
  stat : Except String Int
  /-- Result of `scheduler.generateCheckSum(path)`. -/
  generateCheckSum : Except String String
  /-- Error of `os.Open(path)`. -/
  openFile : GoError
  /-- Error of `http.NewRequest(http.MethodPut, url, bodyReader)`. -/
  newRequest : GoError
  /-- Error of `scheduler.client.Do(req)`. -/
  doRequest : GoError
  /-- Result of `decoder.Decode(&jsonResp)`: an error, or the fields
  `ErrorCode` and `Message` of the answer. -/
  decode : Except String (Int × String)

/-- Embedding of `(*IOScheduler).handleWriteTask`.  The goroutine that copies
the file into the pipe closes the file when it ends, and `finishRoutine` waits
for it.  When `http.NewRequest` fails nothing ever reads `bodyReader`, so the
goroutine stays blocked in its first write to the pipe and `finishRoutine`
does not come back: that path is `none`.  `client.Do` closes the request body
on every return, which ends the goroutine. -/
def handleWriteTask (env : WriteEnv) (id : Nat) (group volume path image host : String)
    (port : Nat) : Option TaskRun :=
  let event : schedulerEvent := { EventType := .schedulerEventWriteDiskCompleted, Group := group, Volume := volume }
  let result : SchedulerResult := { ID := id }
  match env.stat with
  | .error e => some { trace := [.stat path] ++ taskDeferred (some e) event result, ret := some e }
  | .ok size =>
    let totalSize := wrapInt size
    match env.generateCheckSum with
    | .error e =>
      some { trace := [.stat path, .generateCheckSum path] ++ taskDeferred (some e) event result,
             ret := some e }
    | .ok _ =>
      match env.openFile with
      | some e =>
        some { trace := [.stat path, .generateCheckSum path, .openFile path]
                          ++ taskDeferred (some e) event result,
               ret := some e }
      | none =>
        let trace : List IOAction := [.stat path, .generateCheckSum path, .openFile path]
        match env.newRequest with
        | some _ => none
        | none =>
          let trace := trace ++ [.put host port image, .closeFile]
          match env.doRequest with
          | some e => some { trace := trace ++ taskDeferred (some e) event result, ret := some e }
          | none =>
            match env.decode with
            | .error e =>
              some { trace := trace ++ [.closeBody] ++ taskDeferred (some e) event result,
                     ret := some e }
            | .ok (errorCode, message) =>
              if 0 ≠ errorCode then
                some { trace := trace ++ [.closeBody] ++ taskDeferred (some message) event result,
                       ret := some message }
              else
                let result := { result with Size := toUint totalSize }
                some { trace := trace ++ [.closeBody] ++ taskDeferred none event result,
                       ret := none }

/-- The error of an `os.Stat` call, as far as the tasks tell its values apart. -/
inductive StatError where
  /-- A nil error: the file is there. -/
  | nil
  /-- An error of which `os.IsNotExist` holds. -/
  | notExist
  /-- Any other error. -/
  | other (message : String)
  deriving DecidableEq, Repr

/-- Answers of the operating system and of the image tool to the calls of the
resize and snapshot tasks.  An answer may depend on the calls made before it. -/
structure FileEnv where
  /-- Error of a call of `os.Remove`, `os.Rename`, `backingImage`,
  `commitImage` or of running `qemu-img resize`, after the calls `history`;
  for `qemu-img resize` the text is the combined output. -/
  answer : (history : List IOAction) → IOAction → GoError
  /-- Error of `os.Stat(path)` after the calls `history`. -/
  stat : (history : List IOAction) → (path : String) → StatError
  /-- The function `bytesToString`, used only to print sizes. -/
  bytesToString : Nat → String

/-- Embedding of `(*IOScheduler).handleResizeTask`. -/
def handleResizeTask (env : FileEnv) (id : Nat) (group volume path : String) (size : Nat) :
    TaskRun :=
  let event : schedulerEvent := { EventType := .schedulerEventResizeDiskCompleted, Group := group, Volume := volume }
  let result : SchedulerResult := { ID := id }
  match env.answer [] (.resize path size) with
  | some errMessage =>
    let err := "resize volume to " ++ env.bytesToString size ++ " fail: " ++ errMessage
    { trace := [.resize path size] ++ taskDeferred (some err) event result, ret := some err }
  | none =>
    { trace := [.resize path size] ++ taskDeferred none event result, ret := none }

/-- The files of the storage pool: the content found at a path, `none` when
there is no file. -/
abbrev Files := String → Option String

/-- The files after `content` has been written at `path`. -/
def writeFile (files : Files) (path content : String) : Files :=
  fun p => if p = path then some content else files p

/-- The files after a successful `os.Remove(path)`. -/
def removeFile (files : Files) (path : String) : Files :=
  fun p => if p = path then none else files p

/-- The files after a successful `os.Rename(oldpath, newpath)`: the content of
`oldpath` is found at `newpath`, replacing what was there. -/
def renameFile (files : Files) (oldpath newpath : String) : Files :=
  fun p => if p = newpath then files oldpath else if p = oldpath then none else files p

/-- Answers of the environment to the calls of `handleShrinkTask`.  A call
that fails leaves the files as they were. -/
structure ShrinkEnv where
  /-- Result of running `qemu-img convert -f qcow2 -O qcow2 path shrankPath`:
  the combined output on failure, or the content written to `shrankPath`. -/
  convert : Except String String
  /-- Error of `os.Remove(path)`. -/
  remove : GoError
  /-- Error of `os.Rename(shrankPath, path)`. -/
  rename : GoError

/-- What one run of `handleShrinkTask` does: the calls and channel sends, the
returned error, and the files left behind. -/
structure ShrinkRun where
  trace : List IOAction
  ret : GoError
  files : Files

/-- Embedding of `(*IOScheduler).handleShrinkTask`, run on the files `files`. -/
def handleShrinkTask (env : ShrinkEnv) (files : Files) (id : Nat) (group volume path : String) :
    ShrinkRun :=
  let event : schedulerEvent := { EventType := .schedulerEventShrinkDiskCompleted, Group := group, Volume := volume }
  let result : SchedulerResult := { ID := id }
  let shrankPath := path ++ "_shrink"
  match env.convert with
  | .error errMessage =>
    { trace := [.convert path shrankPath] ++ taskDeferred (some errMessage) event result,
      ret := some errMessage, files := files }
  | .ok converted =>
    let files := writeFile files shrankPath converted
    match env.remove with
    | some e =>
      { trace := [.convert path shrankPath, .remove path] ++ taskDeferred (some e) event result,
        ret := some e, files := files }
    | none =>
      let files := removeFile files path
      match env.rename with
      | some e =>
        { trace := [.convert path shrankPath, .remove path, .rename shrankPath path]
                     ++ taskDeferred (some e) event result,
          ret := some e, files := files }
      | none =>
        let files := renameFile files shrankPath path
        { trace := [.convert path shrankPath, .remove path, .rename shrankPath path]
                     ++ taskDeferred none event result,
          ret := none, files := files }

/-! ## I/O scheduler: snapshot tasks

Each loop returns `Except.error (err, calls)` when the function returns from
inside the loop with the error `err`, and `Except.ok calls` when the loop runs
to its end, after which the function returns nil. -/

/-- Fields of `snapshotTarget`. -/
structure snapshotTarget where
  Current : String := ""
  Backing : String := ""
  Backed : String := ""
  deriving DecidableEq, Repr

/-- Constant `imageFormatQCOW2`. -/
def imageFormatQCOW2 : String := "qcow2"

/-- Constant `imageFormatDefault`. -/
def imageFormatDefault : String := imageFormatQCOW2

/-- The deferred function of the three snapshot tasks: copies a non-nil `err`
into the event and sends the event on `eventChan`. -/
def snapshotDeferred (err : GoError) (event : schedulerEvent) : List IOAction :=
  match err with
  | some e => [.sendEvent { event with Error := some e }]
  | none => [.sendEvent event]

/-- The end of a snapshot task: the deferred function after the loop. -/
def snapshotReturn (event : schedulerEvent)
    (loop : Except (String × List IOAction) (List IOAction)) : TaskRun :=
  match loop with
  | .error (e, trace) => { trace := trace ++ snapshotDeferred (some e) event, ret := some e }
  | .ok trace => { trace := trace ++ snapshotDeferred none event, ret := none }

/-- The loop `for _, target := range targets` of `handleRestoreSnapshotTask`.
Only an `os.Stat` error of which `os.IsNotExist` holds stops the turn; any
other one is overwritten by the result of `os.Remove`. -/
def restoreSnapshotLoop (env : FileEnv) :
    List snapshotTarget → List IOAction → Except (String × List IOAction) (List IOAction)
  | [], trace => .ok trace
  | target :: rest, trace =>
    let current := target.Current
    let backing := target.Backing
    if env.stat trace backing = .notExist then
      .error ("invalid backing path '" ++ backing ++ "'", trace ++ [.stat backing])
    else
      let trace := trace ++ [.stat backing]
      match env.answer trace (.remove current) with
      | some e => .error (e, trace ++ [.remove current])
      | none =>
        let trace := trace ++ [.remove current]
        match env.answer trace (.backingImage current backing imageFormatDefault) with
        | some e => .error (e, trace ++ [.backingImage current backing imageFormatDefault])
        | none =>
          restoreSnapshotLoop env rest (trace ++ [.backingImage current backing imageFormatDefault])

/-- Embedding of `(*IOScheduler).handleRestoreSnapshotTask`. -/
def handleRestoreSnapshotTask (env : FileEnv) (group snapshot : String)
    (targets : List snapshotTarget) : TaskRun :=
  let event : schedulerEvent := { EventType := .schedulerEventRestoreSnapshotCompleted, Group := group, Snapshot := snapshot }
  snapshotReturn event (restoreSnapshotLoop env targets [])

/-- The loop `for _, target := range targets` of `handleDeleteSnapshotTask`.
With an empty `Backed` the error of `os.Remove` is only logged: the value it
leaves in `err` is overwritten by the next assignment to `err` or by the final
`return nil`. -/
def deleteSnapshotLoop (env : FileEnv) :
    List snapshotTarget → List IOAction → Except (String × List IOAction) (List IOAction)
  | [], trace => .ok trace
  | target :: rest, trace =>
    let targetFile := target.Current
    if "" = target.Backed then
      deleteSnapshotLoop env rest (trace ++ [.remove targetFile])
    else
      let backedFile := target.Backed
      match env.answer trace (.commitImage backedFile) with
      | some e =>
        .error ("commit image '" ++ backedFile ++ "' fail when delete snapshot: " ++ e,
                trace ++ [.commitImage backedFile])
      | none =>
        let trace := trace ++ [.commitImage backedFile]
        match env.answer trace (.remove backedFile) with
        | some e =>
          .error ("delete snapshot file '" ++ backedFile ++ "' fail after merging: " ++ e,
                  trace ++ [.remove backedFile])
        | none =>
          let trace := trace ++ [.remove backedFile]
          match env.answer trace (.rename targetFile backedFile) with
          | some e =>
            .error ("rename snapshot file '" ++ targetFile ++ "' fail after merging: " ++ e,
                    trace ++ [.rename targetFile backedFile])
          | none => deleteSnapshotLoop env rest (trace ++ [.rename targetFile backedFile])

/-- Embedding of `(*IOScheduler).handleDeleteSnapshotTask`. -/
def handleDeleteSnapshotTask (env : FileEnv) (group snapshot : String)
    (targets : List snapshotTarget) : TaskRun :=
  let event : schedulerEvent := { EventType := .schedulerEventDeleteSnapshotCompleted, Group := group, Snapshot := snapshot }
  snapshotReturn event (deleteSnapshotLoop env targets [])

/-! ## I/O scheduler: vocabulary of the statements -/

/-- Whether an action is a send on `eventChan` or `resultChan`. -/
def IOAction.isSend : IOAction → Bool
  | .sendEvent _ => true
  | .sendResult _ => true
  | _ => false

/-- A trace ends with one completion event and then one result, both carrying
the error `err`, and holds no other send. -/
def endsWithCompletion (trace : List IOAction) (eventType : schedulerEventType) (id : Nat)
    (err : GoError) : Prop :=
  ∃ calls event result, trace = calls ++ [.sendEvent event, .sendResult result] ∧
    (∀ a ∈ calls, a.isSend = false) ∧ event.EventType = eventType ∧ result.ID = id ∧
    event.Error = err ∧ result.Error = err

/-- The receive loop of the read task is left on these answers: some turn ends
the stream, fails to read, or fails to write. -/
def streamEnds (steps : List ReadStep) : Prop :=
  ∃ step ∈ steps, step.err ≠ .nil ∨ (step.n > 0 ∧ step.writeError ≠ none)

/-- The calls of one turn of the snapshot-restore loop when nothing fails. -/
def restoreCalls (target : snapshotTarget) : List IOAction :=
  [.stat target.Backing, .remove target.Current,
   .backingImage target.Current target.Backing "qcow2"]

/-- A file system that lets every call succeed and finds every file. -/
def sampleFileEnv : FileEnv where
  answer := fun _ _ => none
  stat := fun _ _ => .nil
  bytesToString := fun n => toString n ++ " Bytes"

/-- A pool holding one image. -/
def sampleFiles : Files :=
  fun p => if p = "/pool/v.qcow2" then some "image" else none

/-- A shrink in which every call succeeds. -/
def sampleShrinkEnv : ShrinkEnv where
  convert := .ok "shrunk"
  remove := none
  rename := none

/-- A shrink in which the conversion and the removal succeed and the renaming
fails. -/
def renameFailEnv : ShrinkEnv where
  convert := .ok "shrunk"
  remove := none
  rename := some "rename /pool/v.qcow2_shrink /pool/v.qcow2: permission denied"

/-- An upload of a 4096-byte file that the server accepts. -/
def sampleWriteEnv : WriteEnv where
  stat := .ok 4096
  generateCheckSum := .ok "aa"
  openFile := none
  newRequest := none
  doRequest := none
  decode := .ok (0, "")

/-- An upload of a 4096-byte file to the host "bad host": the file is found,
hashed and opened, and `http.NewRequest` rejects the URL, whose host holds a
space. -/
def badHostEnv : WriteEnv where
  stat := .ok 4096
  generateCheckSum := .ok "aa"
  openFile := none
  newRequest := some "invalid character in host name"
  doRequest := none
  decode := .ok (0, "")

/-- Two snapshot targets. -/
def sampleTargets : List snapshotTarget :=
  [{ Current := "/pool/a", Backing := "/pool/a.s1", Backed := "/pool/a.s0" },
   { Current := "/pool/b", Backing := "/pool/b.s1", Backed := "/pool/b.s0" }]

/-- A file system in which "/pool/b.s1" is missing and every call succeeds. -/
def missingBackingEnv : FileEnv where
  answer := fun _ _ => none
  stat := fun _ path => if path = "/pool/b.s1" then .notExist else .nil
  bytesToString := fun n => toString n ++ " Bytes"

/-- A file system in which removing "/pool/b.s0" fails. -/
def removeFailEnv : FileEnv where
  answer := fun _ call => if call = .remove "/pool/b.s0" then some "permission denied" else none
  stat := fun _ _ => .nil
  bytesToString := fun n => toString n ++ " Bytes"

/-- The calls of one turn of the snapshot-delete loop for a target with a
non-empty `Backed` when nothing fails. -/
def mergeCalls (target : snapshotTarget) : List IOAction :=
  [.commitImage target.Backed, .remove target.Backed, .rename target.Current target.Backed]

/-! ## Statements on flags, device names and passwords: samples -/

/-- The sample request with the flag value 3, whose bit 0 is set. -/
def flagThreeRequest : Request :=
  { sampleRequest with ParamKeyFlag := .ok [3] }

/-- A request without a password, for a guest with the cloud-init module. -/
def cloudInitRequest : Request :=
  { sampleRequest with
    ParamKeyModule := .ok ["cloud-init"], ParamKeySecret := .ok "", ParamKeyPath := .ok "" }

/-- The target device names of a disk list, in order. -/
def targetDevices (disks : List virDomainDiskElement) : List String :=
  disks.map fun d => d.Target.Device

/-! ## Theorems: CPU topology -/

/-- Closed form of `SetCpuTopology` on even counts of at least two threads:
the socket count is found by the successive tests 1, 2, 4, 8. -/
theorem SetCpuTopology_even (n : Nat) (h2 : 2 ≤ n) (hev : n % 2 = 0) :
    SetCpuTopology n =
      if n / 2 ≤ 32 then .ok { Sockets := 1, Cores := n / 2, Threads := 2 }
      else if n / 2 / 2 ≤ 32 then .ok { Sockets := 2, Cores := n / 2 / 2, Threads := 2 }
      else if n / 2 / 4 ≤ 32 then .ok { Sockets := 4, Cores := n / 2 / 4, Threads := 2 }
      else if n / 2 / 8 ≤ 32 then .ok { Sockets := 8, Cores := n / 2 / 8, Threads := 2 }
      else .error (.noFit n) := by
  have h1 : ¬ (n > 1 ∧ 0 ≠ n % 2) := by omega
  have h3 : ¬ n < 2 := by omega
  simp only [SetCpuTopology, ThreadPerCore, MaxCores, MaxSockets, socketLoop, h1, h3,
    if_false, Nat.shiftLeft_eq]
  norm_num
  by_cases a : n / 2 ≤ 32
  · simp [a, Nat.not_lt.mpr a]
  · by_cases b : n / 2 / 2 ≤ 32
    · simp [a, b, Nat.lt_of_not_le a, Nat.not_lt.mpr b]
    · by_cases c : n / 2 / 4 ≤ 32
      · simp [a, b, c, Nat.lt_of_not_le a, Nat.not_lt.mpr c]
      · by_cases d : n / 2 / 8 ≤ 32
        · simp [a, b, c, d, Nat.lt_of_not_le a, Nat.not_lt.mpr d]
        · simp [a, b, c, d, Nat.lt_of_not_le a, Nat.lt_of_not_le d]

/-- Closed form of `SetCpuTopology` below two threads. -/
theorem SetCpuTopology_small (n : Nat) (h : n < 2) :
    SetCpuTopology n = .ok { Sockets := 1, Cores := n, Threads := 1 } := by
  have h1 : ¬ (n > 1 ∧ 0 ≠ n % 2) := by omega
  simp [SetCpuTopology, ThreadPerCore, h1, h]

/-- Closed form of `SetCpuTopology` on odd counts above one. -/
theorem SetCpuTopology_odd (n : Nat) (h : 1 < n) (hodd : n % 2 = 1) :
    SetCpuTopology n = .error (.invalidInput n) := by
  have h1 : n > 1 ∧ 0 ≠ n % 2 := by omega
  simp [SetCpuTopology, h1]

/-- What holds of the claim C1 on its whole domain: for `n = 1` or `n` even in
2..256 the call succeeds within the bounds, and the product
`sockets * cores * threads` never exceeds `n` and equals `n` whenever
`sockets * threads` divides `n`. -/
theorem SetCpuTopology_bounds (n : Nat) (hn : n = 1 ∨ (n % 2 = 0 ∧ 2 ≤ n ∧ n ≤ 256)) :
    ∃ t, SetCpuTopology n = .ok t ∧ (t.Threads = 1 ∨ t.Threads = 2) ∧ t.Cores ≤ 32 ∧
      t.Sockets ≤ 8 ∧ t.Sockets * t.Cores * t.Threads ≤ n ∧
      (n % (t.Sockets * t.Threads) = 0 → t.Sockets * t.Cores * t.Threads = n) := by
  rcases hn with rfl | ⟨hev, h2, h256⟩
  · exact ⟨_, SetCpuTopology_small 1 (by omega), by simp⟩
  · rw [SetCpuTopology_even n h2 hev]
    split_ifs with a b c d
    · refine ⟨_, rfl, Or.inr rfl, ?_, ?_, ?_, ?_⟩ <;> simp only <;> omega
    · refine ⟨_, rfl, Or.inr rfl, ?_, ?_, ?_, ?_⟩ <;> simp only <;> omega
    · refine ⟨_, rfl, Or.inr rfl, ?_, ?_, ?_, ?_⟩ <;> simp only <;> omega
    · refine ⟨_, rfl, Or.inr rfl, ?_, ?_, ?_, ?_⟩ <;> simp only <;> omega
    · omega

/-- C1 (evaluation at the failing input): 66 is an even core count in 2..256,
`SetCpuTopology 66` succeeds with sockets = 2, cores = 16, threads = 2, and the
product of the three is 64, not 66. -/
theorem C1_SetCpuTopology_66_product :
    (66 % 2 = 0 ∧ 2 ≤ 66 ∧ 66 ≤ 256) ∧
    SetCpuTopology 66 = .ok { Sockets := 2, Cores := 16, Threads := 2 } ∧
    ¬ (∃ t, SetCpuTopology 66 = .ok t ∧ t.Sockets * t.Cores * t.Threads = 66) := by
  refine ⟨by decide, by decide, ?_⟩
  rintro ⟨t, ht, hp⟩
  have h : SetCpuTopology 66 = .ok { Sockets := 2, Cores := 16, Threads := 2 } := by decide
  rw [h] at ht
  cases ht
  simp at hp

/-- C2 (counterexample): `SetCpuTopology 64` does not yield sockets = 2,
cores = 16, threads = 2. -/
theorem C2_SetCpuTopology_64_not_two_sockets :
    SetCpuTopology 64 ≠ .ok { Sockets := 2, Cores := 16, Threads := 2 } := by
  decide

/-- C2 (amended): `SetCpuTopology 64` succeeds and yields sockets = 1,
cores = 32, threads = 2. -/
theorem C2_SetCpuTopology_64 :
    SetCpuTopology 64 = .ok { Sockets := 1, Cores := 32, Threads := 2 } := by
  decide

/-- C3 (counterexample): `SetCpuTopology 512` is not an error: it produces a
topology. -/
theorem C3_SetCpuTopology_512_not_error :
    ¬ (∃ e, SetCpuTopology 512 = .error e) := by
  rintro ⟨e, he⟩
  have h : SetCpuTopology 512 = .ok { Sockets := 8, Cores := 32, Threads := 2 } := by decide
  rw [h] at he
  cases he

/-- C3 (amended): `SetCpuTopology 512` succeeds with sockets = 8, cores = 32,
threads = 2; the no-fit error is returned for 528 cores, the smallest even
count that fits no topology. -/
theorem C3_SetCpuTopology_512 :
    SetCpuTopology 512 = .ok { Sockets := 8, Cores := 32, Threads := 2 } ∧
    SetCpuTopology 528 = .error (.noFit 528) ∧
    ∀ n, n < 528 → n % 2 = 0 → ∃ t, SetCpuTopology n = .ok t := by
  refine ⟨by decide, by decide, ?_⟩
  intro n hn hev
  rcases Nat.lt_or_ge n 2 with h | h
  · exact ⟨_, SetCpuTopology_small n h⟩
  · rw [SetCpuTopology_even n h hev]
    split_ifs
    · exact ⟨_, rfl⟩
    · exact ⟨_, rfl⟩
    · exact ⟨_, rfl⟩
    · exact ⟨_, rfl⟩
    · omega

/-- C4: `SetCpuTopology n` returns an error exactly when `n > 1` is odd (the
invalid-input error) or `n` is even and no socket count in {1, 2, 4, 8} makes
`(n / 2) / sockets` at most 32 (the no-fit error); every other `n`, including
0 and 1, succeeds, and 3 is rejected. -/
theorem C4_SetCpuTopology_error_iff (n : Nat) :
    (SetCpuTopology n = .error (.invalidInput n) ↔ (n > 1 ∧ n % 2 = 1)) ∧
    (SetCpuTopology n = .error (.noFit n) ↔
      (n % 2 = 0 ∧ ∀ s ∈ [1, 2, 4, 8], ¬ (n / 2) / s ≤ 32)) ∧
    ((∃ e, SetCpuTopology n = .error e) ↔
      ((n > 1 ∧ n % 2 = 1) ∨ (n % 2 = 0 ∧ ∀ s ∈ [1, 2, 4, 8], ¬ (n / 2) / s ≤ 32))) ∧
    ((∃ t, SetCpuTopology n = .ok t) ↔
      ¬ ((n > 1 ∧ n % 2 = 1) ∨ (n % 2 = 0 ∧ ∀ s ∈ [1, 2, 4, 8], ¬ (n / 2) / s ≤ 32))) ∧
    (∃ t, SetCpuTopology 0 = .ok t) ∧ (∃ t, SetCpuTopology 1 = .ok t) ∧
    SetCpuTopology 3 = .error (.invalidInput 3) := by
  have key : (∀ s ∈ [1, 2, 4, 8], ¬ (n / 2) / s ≤ 32) ↔ ¬ n / 2 / 8 ≤ 32 := by
    simp only [List.mem_cons, List.mem_singleton, List.not_mem_nil, or_false, forall_eq_or_imp,
      forall_eq, Nat.div_one]
    omega
  refine ⟨?_, ?_, ?_, ?_, ⟨_, SetCpuTopology_small 0 (by omega)⟩,
    ⟨_, SetCpuTopology_small 1 (by omega)⟩, by decide⟩
  all_goals try rw [key]
  all_goals
    rcases Nat.lt_or_ge n 2 with h | h
    · rw [SetCpuTopology_small n h]
      simp
      try omega
    · rcases Nat.mod_two_eq_zero_or_one n with hev | hodd
      · rw [SetCpuTopology_even n h hev]
        split_ifs <;> simp <;> omega
      · rw [SetCpuTopology_odd n (by omega) hodd]
        simp
        try omega

/-- C5: whenever `SetCpuTopology n` succeeds with topology `t`: if `n < 2`
then threads = 1, sockets = 1 and cores = `n`; otherwise threads = 2, sockets is
the smallest value in {1, 2, 4, 8} with `(n / 2) / sockets ≤ 32`, and
cores = `(n / 2) / sockets`. -/
theorem C5_SetCpuTopology_result (n : Nat) (t : virDomainCpuTopology)
    (h : SetCpuTopology n = .ok t) :
    (n < 2 → t.Threads = 1 ∧ t.Sockets = 1 ∧ t.Cores = n) ∧
    (¬ n < 2 → t.Threads = 2 ∧ t.Sockets ∈ [1, 2, 4, 8] ∧ (n / 2) / t.Sockets ≤ 32 ∧
      (∀ s ∈ [1, 2, 4, 8], (n / 2) / s ≤ 32 → t.Sockets ≤ s) ∧
      t.Cores = (n / 2) / t.Sockets) := by
  rcases Nat.lt_or_ge n 2 with h2 | h2
  · rw [SetCpuTopology_small n h2] at h
    cases h
    exact ⟨fun _ => ⟨rfl, rfl, rfl⟩, fun hc => absurd h2 hc⟩
  · refine ⟨fun hc => by omega, fun _ => ?_⟩
    rcases Nat.mod_two_eq_zero_or_one n with hev | hodd
    · rw [SetCpuTopology_even n h2 hev] at h
      simp only [List.mem_cons, List.mem_singleton, List.not_mem_nil, or_false, forall_eq_or_imp,
        forall_eq, Nat.div_one]
      split_ifs at h with a b c d
      all_goals cases h
      all_goals simp
      all_goals omega
    · rw [SetCpuTopology_odd n (by omega) hodd] at h
      cases h

/-- Witness for C5 at 132 threads: sockets = 4, cores = 16, threads = 2. -/
theorem C5_SetCpuTopology_result_witness :
    SetCpuTopology 132 = .ok { Sockets := 4, Cores := 16, Threads := 2 } ∧
    ((132 < 2 → (2 : Nat) = 1 ∧ (4 : Nat) = 1 ∧ (16 : Nat) = 132) ∧
    (¬ 132 < 2 → (2 : Nat) = 2 ∧ 4 ∈ [1, 2, 4, 8] ∧ (132 / 2) / 4 ≤ 32 ∧
      (∀ s ∈ [1, 2, 4, 8], (132 / 2) / s ≤ 32 → 4 ≤ s) ∧
      16 = (132 / 2) / 4)) :=
  ⟨by decide, C5_SetCpuTopology_result 132 { Sockets := 4, Cores := 16, Threads := 2 } (by decide)⟩

/-! ## Theorems: read task -/

/-- C6 (evaluation at the failing input): with a non-empty `Signature` "aa" and
a downloaded file hashing to "bb", `handleReadTask` makes no `os.Remove` call,
returns nil, and sends one event and one result whose `Error` is nil. -/
theorem C6_handleReadTask_mismatch_not_reported :
    ∃ r, handleReadTask corruptedReadEnv 7 "g" "v" "/pool/v.qcow2" "img" 4 1024 "h" 443 = some r ∧
      r.removed = [] ∧ r.ret = none ∧
      r.events = [{ EventType := .schedulerEventReadDiskCompleted, Group := "g", Volume := "v",
                    Error := none }] ∧
      r.results = [{ ID := 7, Size := 0, Error := none }] := by
  refine ⟨_, rfl, ?_, ?_, ?_, ?_⟩ <;> decide

/-! ## Lemmas: parsing -/

theorem required_ok {α : Type} (result : Except String α) (what : String) (v : α)
    (h : required result what = .ok v) : result = .ok v := by
  unfold required at h
  split at h
  · cases h
  · cases h; rfl

theorem parseBasics_ok (request : Request) (r : GuestConfig × List Nat)
    (h : parseBasics request = .ok r) :
    (∃ v, request.ParamKeyName = .ok v) ∧ (∃ v, request.ParamKeyInstance = .ok v) ∧
    (∃ v, request.ParamKeyUser = .ok v) ∧ (∃ v, request.ParamKeyGroup = .ok v) ∧
    (∃ v, request.ParamKeyCore = .ok v) ∧ (∃ v, request.ParamKeyMemory = .ok v) ∧
    request.ParamKeyDisk = .ok r.2 ∧ (∃ v, request.ParamKeyOption = .ok v) ∧
    (∃ v, request.ParamKeyAdmin = .ok v) ∧ r.1.Created = false := by
  unfold parseBasics at h
  simp only [bind, Except.bind, pure, Except.pure] at h
  split at h; · cases h
  rename_i v1 h1
  split at h; · cases h
  rename_i v2 h2
  split at h; · cases h
  rename_i v3 h3
  split at h; · cases h
  rename_i v4 h4
  split at h; · cases h
  rename_i v5 h5
  split at h; · cases h
  rename_i v6 h6
  split at h; · cases h
  rename_i v7 h7
  split at h; · cases h
  rename_i v8 h8
  split at h; · cases h
  rename_i v9 h9
  cases h
  exact ⟨⟨_, required_ok _ _ _ h1⟩, ⟨_, required_ok _ _ _ h2⟩, ⟨_, required_ok _ _ _ h3⟩,
    ⟨_, required_ok _ _ _ h4⟩, ⟨_, required_ok _ _ _ h5⟩, ⟨_, required_ok _ _ _ h6⟩,
    required_ok _ _ _ h7, ⟨_, required_ok _ _ _ h8⟩, ⟨_, required_ok _ _ _ h9⟩, rfl⟩

theorem parseTemplate_ok (decls : ServiceDecls) (request : Request) (config c : GuestConfig)
    (h : parseTemplate decls request config = .ok c) :
    (∃ l, request.ParamKeyTemplate = .ok l ∧ l.length = 7) ∧ c.Created = config.Created := by
  unfold parseTemplate at h
  split at h
  · cases h
  · rename_i l hl
    split at h
    · cases h
      exact ⟨⟨_, hl, rfl⟩, rfl⟩
    · cases h

theorem parseMode_ok (request : Request) (config c : GuestConfig)
    (h : parseMode request config = .ok c) :
    (∃ l, request.ParamKeyMode = .ok l ∧ l.length = 2) ∧ c.Created = config.Created := by
  unfold parseMode at h
  split at h
  · cases h
  · rename_i l hl
    split at h
    · cases h
      exact ⟨⟨_, hl, rfl⟩, rfl⟩
    · cases h

theorem parseClone_ok (request : Request) (c : CloneParams)
    (h : parseClone request = .ok c) :
    ∀ i, request.ParamKeyImage = .ok i →
      (∃ v, request.ParamKeyHost = .ok v) ∧ (∃ v, request.ParamKeyPort = .ok v) ∧
      (∃ v, request.ParamKeySize = .ok v) := by
  intro i hi
  unfold parseClone at h
  rw [hi] at h
  simp only [bind, Except.bind, pure, Except.pure] at h
  split at h; · cases h
  rename_i v1 h1
  split at h; · cases h
  rename_i v2 h2
  split at h; · cases h
  rename_i v3 h3
  exact ⟨⟨_, required_ok _ _ _ h1⟩, ⟨_, required_ok _ _ _ h2⟩, ⟨_, required_ok _ _ _ h3⟩⟩

theorem parseAddress_ok (request : Request) (config c : GuestConfig)
    (h : parseAddress request config = .ok c) :
    (∀ l, request.ParamKeyAddress = .ok l → l.length = 2) ∧ c.Created = config.Created := by
  unfold parseAddress at h
  split at h
  · rename_i l hl
    split at h
    · cases h
      refine ⟨fun l2 h2 => ?_, rfl⟩
      rw [hl] at h2
      cases h2
      rfl
    · cases h
  · rename_i e he
    cases h
    refine ⟨fun l2 h2 => ?_, rfl⟩
    rw [he] at h2
    cases h2

theorem parseQoS_ok (request : Request) (config c : GuestConfig)
    (h : parseQoS request config = .ok c) :
    (∀ l, request.ParamKeyLimit = .ok l → l.length = 6) ∧ c.Created = config.Created := by
  unfold parseQoS at h
  simp only at h
  split at h
  · rename_i l hl
    split at h
    · cases h
      refine ⟨fun l2 h2 => ?_, rfl⟩
      rw [hl] at h2
      cases h2
      rfl
    · cases h
  · rename_i e he
    cases h
    refine ⟨fun l2 h2 => ?_, rfl⟩
    rw [he] at h2
    cases h2

theorem parsePolicy_ok (decls : ServiceDecls) (request : Request) (config c : GuestConfig)
    (h : parsePolicy decls request config = .ok c) :
    (∀ l, request.ParamKeyPolicy = .ok l →
      l.length % 5 = 0 ∧ (∃ a, request.ParamKeyAction = .ok a) ∧
      ∃ rules, parsePolicyRules decls l = .ok rules) ∧ c.Created = config.Created := by
  unfold parsePolicy at h
  split at h
  · rename_i l hl
    split at h
    · cases h
    · rename_i hlen
      split at h
      · cases h
      · rename_i a ha
        split at h
        · cases h
        · rename_i rules hr
          cases h
          refine ⟨fun l2 h2 => ?_, rfl⟩
          rw [hl] at h2
          cases h2
          exact ⟨by omega, ⟨_, ha⟩, ⟨_, hr⟩⟩
  · rename_i e he
    cases h
    refine ⟨fun l2 h2 => ?_, rfl⟩
    rw [he] at h2
    cases h2

theorem parseModules_ok (modules : List String) (config c : GuestConfig)
    (h : parseModules modules config = .ok c) :
    (∀ m ∈ modules, m = "qemu" ∨ m = "cloud-init") ∧ c.Created = config.Created := by
  induction modules generalizing config with
  | nil =>
    unfold parseModules at h
    cases h
    simp
  | cons m rest ih =>
    unfold parseModules at h
    split at h
    · cases h
    · rename_i hm
      have hm2 : m = "qemu" ∨ m = "cloud-init" := by
        by_contra hc
        exact hm hc
      split at h
      · have := ih _ h
        refine ⟨?_, this.2⟩
        intro x hx
        rcases List.mem_cons.mp hx with rfl | hx
        · exact hm2
        · exact this.1 x hx
      · split at h
        · have := ih _ h
          refine ⟨?_, this.2⟩
          intro x hx
          rcases List.mem_cons.mp hx with rfl | hx
          · exact hm2
          · exact this.1 x hx
        · have := ih _ h
          refine ⟨?_, this.2⟩
          intro x hx
          rcases List.mem_cons.mp hx with rfl | hx
          · exact hm2
          · exact this.1 x hx

theorem parseModulesAndFlags_ok (request : Request) (config c : GuestConfig)
    (h : parseModulesAndFlags request config = .ok c) :
    (∀ l, request.ParamKeyModule = .ok l → ∀ m ∈ l, m = "qemu" ∨ m = "cloud-init") ∧
    (∃ l, request.ParamKeyFlag = .ok l ∧ l.length = 1) ∧ c.Created = config.Created := by
  unfold parseModulesAndFlags at h
  simp only at h
  split at h
  · cases h
  · rename_i c1 hc1
    have hmod := parseModules_ok _ _ _ hc1
    split at h
    · cases h
    · rename_i flags hf
      split at h
      · have hcr : c.Created = c1.Created := by
          split at h <;> (cases h; rfl)
        refine ⟨?_, ⟨_, hf, rfl⟩, hcr.trans hmod.2⟩
        intro l hl m hm
        rw [hl] at hmod
        exact hmod.1 m hm
      · cases h

theorem parseCloudInit_ok (env : ExecEnv) (request : Request) (config : GuestConfig)
    (r : GuestConfig × Nat) (h : parseCloudInit env request config = .ok r) :
    (config.CloudInitAvailable = true →
      (∃ v, request.ParamKeySecret = .ok v) ∧ (∃ v, request.ParamKeyPath = .ok v)) ∧
    r.1.Created = config.Created := by
  unfold parseCloudInit at h
  by_cases hc : config.CloudInitAvailable = true
  · rw [if_pos hc] at h
    cases hv : request.ParamKeySecret with
    | error e => rw [hv] at h; cases h
    | ok v =>
      rw [hv] at h
      cases hw : request.ParamKeyPath with
      | error e => rw [hw] at h; cases h
      | ok w =>
        rw [hw] at h
        simp only at h
        refine ⟨fun _ => ⟨⟨_, rfl⟩, ⟨_, rfl⟩⟩, ?_⟩
        split at h <;> (cases h; rfl)
  · rw [if_neg hc] at h
    cases h
    exact ⟨fun h2 => absurd h2 hc, rfl⟩

theorem parseRequest_ok (decls : ServiceDecls) (env : ExecEnv) (request : Request) (p : Parsed)
    (h : parseRequest decls env request = .ok p) :
    ∃ basics c1 c2 clone c3 c4 c5 c6 ci,
      parseBasics request = .ok basics ∧ parseTemplate decls request basics.1 = .ok c1 ∧
      parseMode request c1 = .ok c2 ∧ parseClone request = .ok clone ∧
      parseAddress request c2 = .ok c3 ∧ parseQoS request c3 = .ok c4 ∧
      parsePolicy decls request c4 = .ok c5 ∧ basics.2 ≠ [] ∧
      parseModulesAndFlags request c5 = .ok c6 ∧ parseCloudInit env request c6 = .ok ci ∧
      p.config = ci.1 ∧ p.diskSize = basics.2 ∧ p.cloneFromImage = clone.cloneFromImage := by
  unfold parseRequest at h
  simp only [bind, Except.bind, pure, Except.pure] at h
  cases h1 : parseBasics request with
  | error e => rw [h1] at h; cases h
  | ok basics =>
  rw [h1] at h; simp only at h
  cases h2 : parseTemplate decls request basics.1 with
  | error e => rw [h2] at h; cases h
  | ok c1 =>
  rw [h2] at h; simp only at h
  cases h3 : parseMode request c1 with
  | error e => rw [h3] at h; cases h
  | ok c2 =>
  rw [h3] at h; simp only at h
  cases h4 : parseClone request with
  | error e => rw [h4] at h; cases h
  | ok clone =>
  rw [h4] at h; simp only at h
  cases h5 : parseAddress request c2 with
  | error e => rw [h5] at h; cases h
  | ok c3 =>
  rw [h5] at h; simp only at h
  cases h6 : parseQoS request c3 with
  | error e => rw [h6] at h; cases h
  | ok c4 =>
  rw [h6] at h; simp only at h
  cases h7 : parsePolicy decls request c4 with
  | error e => rw [h7] at h; cases h
  | ok c5 =>
  rw [h7] at h; simp only at h
  by_cases hd : 0 = basics.2.length
  · rw [if_pos hd] at h; cases h
  rw [if_neg hd] at h
  cases h8 : parseModulesAndFlags request c5 with
  | error e => rw [h8] at h; cases h
  | ok c6 =>
  rw [h8] at h; simp only at h
  cases h9 : parseCloudInit env request c6 with
  | error e => rw [h9] at h; cases h
  | ok ci =>
  rw [h9] at h; simp only at h
  cases h
  refine ⟨basics, c1, c2, clone, c3, c4, c5, c6, ci, rfl, h2, h3, rfl, h5, h6, h7, ?_, h8, h9,
    rfl, rfl, rfl⟩
  intro hnil
  rw [hnil] at hd
  exact hd rfl

theorem parseFails_of_listed (decls : ServiceDecls) (env : ExecEnv) (request : Request)
    (h : listedParseFailure decls request) : parseFails decls env request := by
  intro p hp
  obtain ⟨basics, c1, c2, clone, c3, c4, c5, c6, ci, h1, h2, h3, -, -, h6, h7, hd, h8, -, -, -, -⟩ :=
    parseRequest_ok decls env request p hp
  obtain ⟨⟨_, b1⟩, ⟨_, b2⟩, ⟨_, b3⟩, ⟨_, b4⟩, ⟨_, b5⟩, ⟨_, b6⟩, b7, ⟨_, b8⟩, ⟨_, b9⟩, -⟩ :=
    parseBasics_ok request basics h1
  obtain ⟨⟨lt, t1, t2⟩, -⟩ := parseTemplate_ok decls request _ _ h2
  obtain ⟨⟨lm, m1, m2⟩, -⟩ := parseMode_ok request _ _ h3
  obtain ⟨q1, -⟩ := parseQoS_ok request _ _ h6
  obtain ⟨y1, -⟩ := parsePolicy_ok decls request _ _ h7
  obtain ⟨f1, ⟨lf, f2, f3⟩, -⟩ := parseModulesAndFlags_ok request _ _ h8
  unfold listedParseFailure at h
  rcases h with ⟨e, h⟩ | ⟨e, h⟩ | ⟨e, h⟩ | ⟨e, h⟩ | ⟨e, h⟩ | ⟨e, h⟩ | ⟨e, h⟩ | ⟨e, h⟩ | ⟨e, h⟩ |
    ⟨e, h⟩ | ⟨e, h⟩ | ⟨e, h⟩ | h | ⟨l, h, hl⟩ | ⟨l, h, hl⟩ | ⟨l, h, hl⟩ | ⟨l, h, hl⟩ |
    ⟨l, e, h, hl⟩ | ⟨l, h, hl⟩ | ⟨l, m, h, hm, hq, hc⟩
  · rw [b1] at h; cases h
  · rw [b2] at h; cases h
  · rw [b3] at h; cases h
  · rw [b4] at h; cases h
  · rw [b5] at h; cases h
  · rw [b6] at h; cases h
  · rw [b7] at h; cases h
  · rw [b8] at h; cases h
  · rw [b9] at h; cases h
  · rw [t1] at h; cases h
  · rw [m1] at h; cases h
  · rw [f2] at h; cases h
  · rw [b7] at h; exact hd (Except.ok.inj h)
  · rw [t1] at h; cases h; exact hl t2
  · rw [m1] at h; cases h; exact hl m2
  · exact hl (q1 l h)
  · exact hl (y1 l h).1
  · obtain ⟨rules, hr⟩ := (y1 l h).2.2
    rw [hr] at hl; cases hl
  · rw [f2] at h; cases h; exact hl f3
  · rcases f1 l h m hm with rfl | rfl
    · exact hq rfl
    · exact hc rfl

theorem parsePolicyRules_invalid_protocol (decls : ServiceDecls) (rest : List Nat)
    (accept protocol source target port : Nat)
    (h : protocol ≠ decls.PolicyRuleProtocolIndexTCP ∧ protocol ≠ decls.PolicyRuleProtocolIndexUDP ∧
      protocol ≠ decls.PolicyRuleProtocolIndexICMP) :
    parsePolicyRules decls (accept :: protocol :: source :: target :: port :: rest) =
      .error ("invalid security protocol index " ++ toString protocol) := by
  simp [parsePolicyRules, h.1, h.2.1, h.2.2]

/-! ## Lemmas: observations on the stages -/

theorem sentMessages_append (a b : List Action) :
    sentMessages (a ++ b) = sentMessages a ++ sentMessages b := by
  induction a with
  | nil => rfl
  | cons x xs ih => cases x <;> simp [sentMessages, ih]

theorem releases_append (a b : List Action) :
    releases (a ++ b) = releases a ++ releases b := by
  induction a with
  | nil => rfl
  | cons x xs ih => cases x <;> simp [releases, ih]

theorem sentMessages_SendMessage (env : ExecEnv) (trace : List Action) (msg : Message)
    (target : String) :
    sentMessages (SendMessage env trace msg target).1 = sentMessages trace ++ [(msg, target)] := by
  simp [SendMessage, sentMessages_append, sentMessages]

theorem releases_SendMessage (env : ExecEnv) (trace : List Action) (msg : Message)
    (target : String) :
    releases (SendMessage env trace msg target).1 = releases trace := by
  simp [SendMessage, releases_append, releases]

theorem sentMessages_ResponseFail (env : ExecEnv) (trace : List Action) (resp : Message)
    (err target : String) :
    sentMessages (ResponseFail env trace resp err target).trace =
      sentMessages trace ++ [({ resp with Success := false, Error := some err }, target)] := by
  simp [ResponseFail, sentMessages_SendMessage]

theorem releases_ResponseFail (env : ExecEnv) (trace : List Action) (resp : Message)
    (err target : String) :
    releases (ResponseFail env trace resp err target).trace = releases trace := by
  simp [ResponseFail, releases_SendMessage]

theorem ReleaseResource_eq (env : ExecEnv) (trace : List Action) (guestID : String)
    (clearNetwork clearVolumes clearInstance : Bool) :
    ReleaseResource env trace guestID clearNetwork clearVolumes clearInstance =
      trace ++ ((if clearInstance then [Action.DeleteInstance guestID env.DeleteInstance] else [])
        ++ (if clearVolumes then [Action.DeleteVolumes guestID env.DeleteVolumes] else [])
        ++ (if clearNetwork then [Action.DeallocateAllResource guestID env.DeallocateAllResource]
            else [])) := by
  cases clearNetwork <;> cases clearVolumes <;> cases clearInstance <;>
    simp [ReleaseResource, ReleaseInstance, ReleaseVolumes, ReleaseNetworkResource]

theorem releases_cloneFail (env : ExecEnv) (trace : List Action) (config : GuestConfig)
    (event : Message) (err sender : String) :
    releases (cloneFail env trace config event err sender).trace =
      releases trace ++ [.releaseInstance, .storage, .network] := by
  simp [cloneFail, releases_ResponseFail, ReleaseResource_eq, releases_append, releases]

theorem releases_startAutoStartInstance (env : ExecEnv) (trace : List Action) (id : Nat)
    (instanceID receiver : String) :
    releases (startAutoStartInstance env trace id instanceID receiver) = releases trace := by
  unfold startAutoStartInstance
  cases env.StartInstance <;> simp [releases_SendMessage, releases_append, releases]

theorem releases_cloneLoop (env : ExecEnv) (id : Nat) (sender : String) (config : GuestConfig)
    (events : List CloneEvent) (event : Message) (trace : List Action) :
    releases (cloneLoop env id sender config events event trace).trace =
      releases trace ++
        (if cloneEndsInFailure events then [.releaseInstance, .storage, .network] else []) := by
  induction events generalizing event trace with
  | nil => simp [cloneLoop, cloneEndsInFailure, releases_cloneFail]
  | cons e rest ih =>
    cases e with
    | tick expired =>
      cases expired <;> simp [cloneLoop, cloneEndsInFailure, releases_cloneFail, ih]
    | progress n =>
      simp [cloneLoop, cloneEndsInFailure, ih, releases_SendMessage]
    | result result =>
      cases h : result.Error with
      | none =>
        simp only [cloneLoop, cloneEndsInFailure, h]
        split <;> simp [releases_startAutoStartInstance, releases_SendMessage]
      | some err => simp [cloneLoop, cloneEndsInFailure, h, releases_cloneFail]

theorem prepareMac_ok (env : ExecEnv) (config c : GuestConfig)
    (h : prepareMac env config = .ok c) :
    c = { config with HardwareAddress := c.HardwareAddress } := by
  unfold prepareMac at h
  split at h
  · split at h
    · cases h
    · cases h; rfl
  · cases h; rfl

theorem releases_cloneStage (env : ExecEnv) (id : Nat) (request : Request) (p : Parsed)
    (config : GuestConfig) (trace : List Action) (hv : config.StorageVolumes ≠ []) :
    releases (cloneStage env id request p config trace).trace =
      releases trace ++ (if cloneFails env then [.releaseInstance, .storage, .network] else []) := by
  unfold cloneStage cloneFails
  cases hvol : config.StorageVolumes with
  | nil => exact absurd hvol hv
  | cons v vs =>
    cases hs : env.cloneStart with
    | timeout => simp [releases_cloneFail, releases_append, releases]
    | start err =>
      cases err with
      | none => simp [releases_cloneLoop, releases_append, releases]
      | some e => simp [releases_cloneFail, releases_append, releases]

theorem releases_finishStage (env : ExecEnv) (id : Nat) (request : Request)
    (config : GuestConfig) (trace : List Action) :
    releases (finishStage env id request config trace).trace = releases trace := by
  unfold finishStage
  simp only
  split <;> simp [releases_startAutoStartInstance, releases_SendMessage]

theorem releases_defineStage_fail (env : ExecEnv) (id : Nat) (request : Request) (resp : Message)
    (p : Parsed) (config : GuestConfig) (trace : List Action) (e : String)
    (h : env.CreateInstance = some e) :
    releases (defineStage env id request resp p config trace).trace =
      releases trace ++ [.storage, .network] := by
  simp [defineStage, h, releases_ResponseFail, ReleaseResource_eq, releases_append, releases]

theorem sendCount_append (a b : List Action) :
    sendCount (a ++ b) = sendCount a + sendCount b := by
  induction a with
  | nil => simp [sendCount]
  | cons x xs ih => cases x <;> simp [sendCount, ih]; omega

theorem sentMessages_ReleaseResource (env : ExecEnv) (trace : List Action) (guestID : String)
    (clearNetwork clearVolumes clearInstance : Bool) :
    sentMessages (ReleaseResource env trace guestID clearNetwork clearVolumes clearInstance) =
      sentMessages trace := by
  cases clearNetwork <;> cases clearVolumes <;> cases clearInstance <;>
    simp [ReleaseResource_eq, sentMessages_append, sentMessages]

theorem sentMessages_cloneFail (env : ExecEnv) (trace : List Action) (config : GuestConfig)
    (event : Message) (err sender : String) :
    sentMessages (cloneFail env trace config event err sender).trace =
      sentMessages trace ++ [({ event with Success := false, Error := some err }, sender)] := by
  simp [cloneFail, sentMessages_ResponseFail, sentMessages_ReleaseResource]

/-- The messages of a failing cloning loop: progress events with the success
flag set, then one failure message. -/
theorem sentMessages_cloneLoop_fail (env : ExecEnv) (id : Nat) (sender : String)
    (config : GuestConfig) (events : List CloneEvent) (event : Message) (trace : List Action)
    (hf : cloneEndsInFailure events = true) (hs : event.Success = true) :
    ∃ ms m, sentMessages (cloneLoop env id sender config events event trace).trace =
        sentMessages trace ++ ms ++ [(m, sender)] ∧
      (∀ x ∈ ms, x.1.Success = true ∧ x.2 = sender) ∧
      m.Success = false ∧ ∃ text, m.Error = some text := by
  induction events generalizing event trace with
  | nil =>
    exact ⟨[], failureMessage event "timeout",
      by simp [cloneLoop, sentMessages_cloneFail, failureMessage], by simp, rfl, _, rfl⟩
  | cons e rest ih =>
    cases e with
    | tick expired =>
      cases expired with
      | true =>
        exact ⟨[], failureMessage event "timeout",
          by simp [cloneLoop, sentMessages_cloneFail, failureMessage], by simp, rfl, _, rfl⟩
      | false =>
        simp only [cloneEndsInFailure, Bool.false_or] at hf
        simpa [cloneLoop] using ih event trace hf hs
    | progress n =>
      simp only [cloneEndsInFailure] at hf
      obtain ⟨ms, m, h1, h2, h3, h4⟩ :=
        ih { event with ParamKeyProgress := some n }
          (SendMessage env trace { event with ParamKeyProgress := some n } sender).1 hf hs
      refine ⟨({ event with ParamKeyProgress := some n }, sender) :: ms, m, ?_, ?_, h3, h4⟩
      · simp only [cloneLoop]
        rw [h1, sentMessages_SendMessage]
        simp
      · intro x hx
        rcases List.mem_cons.mp hx with rfl | hx
        · exact ⟨hs, rfl⟩
        · exact h2 x hx
    | result result =>
      simp only [cloneEndsInFailure] at hf
      cases h : result.Error with
      | none => rw [h] at hf; cases hf
      | some err =>
        exact ⟨[], failureMessage event err,
          by simp [cloneLoop, h, sentMessages_cloneFail, failureMessage], by simp, rfl, _, rfl⟩

theorem sentMessages_cloneStage_fail (env : ExecEnv) (id : Nat) (request : Request) (p : Parsed)
    (config : GuestConfig) (trace : List Action) (hv : config.StorageVolumes ≠ [])
    (hf : cloneFails env = true) :
    ∃ ms m, sentMessages (cloneStage env id request p config trace).trace =
        sentMessages trace ++ ms ++ [(m, request.Sender)] ∧
      (∀ x ∈ ms, x.1.Success = true ∧ x.2 = request.Sender) ∧
      m.Success = false ∧ ∃ text, m.Error = some text := by
  unfold cloneStage
  unfold cloneFails at hf
  cases hvol : config.StorageVolumes with
  | nil => exact absurd hvol hv
  | cons v vs =>
    cases hs : env.cloneStart with
    | timeout =>
      exact ⟨[], failureMessage (progressEvent id config.ID) "start clone disk image timeout",
        by simp [sentMessages_cloneFail, sentMessages_append, sentMessages, failureMessage],
        by simp, rfl, _, rfl⟩
    | start err =>
      cases err with
      | some e =>
        exact ⟨[], failureMessage (progressEvent id config.ID) e,
          by simp [sentMessages_cloneFail, sentMessages_append, sentMessages, failureMessage],
          by simp, rfl, _, rfl⟩
      | none =>
        rw [hs] at hf
        simp only at hf
        obtain ⟨ms, m, h1, h2, h3, h4⟩ := sentMessages_cloneLoop_fail env id request.Sender config
          env.cloneEvents (progressEvent id config.ID)
          (trace ++ [.ReadDiskImage id config.ID v p.imageID p.systemSize p.imageSize p.mediaHost
            p.mediaPort]) hf rfl
        refine ⟨ms, m, ?_, h2, h3, h4⟩
        simp only
        rw [h1]
        simp [sentMessages_append, sentMessages]

theorem Execute_parsed (decls : ServiceDecls) (env : ExecEnv) (id : Nat) (request : Request)
    (p : Parsed) (hp : parseRequest decls env request = .ok p) :
    Execute decls env id request =
      networkStage decls env id request (initialResponse id request) p := by
  unfold Execute
  rw [hp]

theorem networkStage_fail (decls : ServiceDecls) (env : ExecEnv) (id : Nat) (request : Request)
    (resp : Message) (p : Parsed) (hn : ¬ networkOk decls env p) :
    ∃ err trace, networkStage decls env id request resp p =
        ResponseFail env trace resp err request.Sender ∧
      sentMessages trace = [] ∧ releases trace = [] := by
  unfold networkStage
  cases hm : prepareMac env p.config with
  | error e => exact ⟨_, _, rfl, rfl, rfl⟩
  | ok c =>
    have hc := prepareMac_ok env p.config c hm
    have hmode : c.NetworkMode = p.config.NetworkMode := by rw [hc]
    simp only
    by_cases h1 : c.NetworkMode = decls.NetworkModePlain
    · rw [if_pos h1]
      cases h2 : env.GetCurrentConfig.Error with
      | some err => exact ⟨_, _, rfl, rfl, rfl⟩
      | none =>
        cases h3 : env.AllocateInstanceResource.Error with
        | some err => exact ⟨_, _, rfl, rfl, rfl⟩
        | none => exact absurd ⟨⟨c, hm⟩, hmode ▸ h1, h2, h3⟩ hn
    · rw [if_neg h1]
      exact ⟨_, _, rfl, rfl, rfl⟩

theorem networkStage_ok (decls : ServiceDecls) (env : ExecEnv) (id : Nat) (request : Request)
    (resp : Message) (p : Parsed) (hn : networkOk decls env p) :
    ∃ config trace, networkStage decls env id request resp p =
        storageStage decls env id request resp p config trace ∧
      config.ID = p.config.ID ∧ config.Created = p.config.Created ∧
      config.AutoStart = p.config.AutoStart ∧
      sentMessages trace = [] ∧ releases trace = [] ∧ sendCount trace = 0 := by
  obtain ⟨⟨c, hm⟩, h1, h2, h3⟩ := hn
  have hc := prepareMac_ok env p.config c hm
  have hmode : c.NetworkMode = decls.NetworkModePlain := by rw [hc]; exact h1
  have hid : c.ID = p.config.ID := by rw [hc]
  have hcr : c.Created = p.config.Created := by rw [hc]
  have hau : c.AutoStart = p.config.AutoStart := by rw [hc]
  unfold networkStage
  rw [hm]
  simp only
  rw [if_pos hmode, h2]
  simp only
  rw [h3]
  exact ⟨_, _, rfl, hid, hcr, hau, rfl, rfl, rfl⟩

theorem storageStage_fail (decls : ServiceDecls) (env : ExecEnv) (id : Nat) (request : Request)
    (resp : Message) (p : Parsed) (config : GuestConfig) (trace : List Action) (e : String)
    (h : env.CreateVolumes.Error = some e) :
    sentMessages (storageStage decls env id request resp p config trace).trace =
        sentMessages trace ++ [(failureMessage resp e, request.Sender)] ∧
      releases (storageStage decls env id request resp p config trace).trace =
        releases trace ++ [.network] := by
  unfold storageStage
  simp only [h]
  constructor
  · simp [sentMessages_ResponseFail, sentMessages_ReleaseResource, sentMessages_append,
      sentMessages, failureMessage]
  · simp [releases_ResponseFail, ReleaseResource_eq, releases_append, releases]

theorem storageStage_ok (decls : ServiceDecls) (env : ExecEnv) (id : Nat) (request : Request)
    (resp : Message) (p : Parsed) (config : GuestConfig) (trace : List Action)
    (h : env.CreateVolumes.Error = none) :
    ∃ config1 trace1, storageStage decls env id request resp p config trace =
        defineStage env id request resp p config1 trace1 ∧
      config1.ID = config.ID ∧ config1.Created = config.Created ∧
      config1.AutoStart = config.AutoStart ∧
      config1.StorageVolumes = env.CreateVolumes.Volumes ∧
      sentMessages trace1 = sentMessages trace ∧ releases trace1 = releases trace ∧
      sendCount trace1 = sendCount trace := by
  unfold storageStage
  simp only [h]
  refine ⟨_, _, rfl, ?_, ?_, ?_, ?_, ?_, ?_, ?_⟩
  · split <;> rfl
  · split <;> rfl
  · split <;> rfl
  · split <;> rfl
  · simp [sentMessages_append, sentMessages]
  · simp [releases_append, releases]
  · simp [sendCount_append, sendCount]

theorem defineStage_fail (env : ExecEnv) (id : Nat) (request : Request)
    (resp : Message) (p : Parsed) (config : GuestConfig) (trace : List Action) (e : String)
    (h : env.CreateInstance = some e) :
    sentMessages (defineStage env id request resp p config trace).trace =
        sentMessages trace ++ [(failureMessage resp e, request.Sender)] ∧
      releases (defineStage env id request resp p config trace).trace =
        releases trace ++ [.storage, .network] := by
  unfold defineStage
  simp only [h]
  constructor
  · simp [sentMessages_ResponseFail, sentMessages_ReleaseResource, sentMessages_append,
      sentMessages, failureMessage]
  · simp [releases_ResponseFail, ReleaseResource_eq, releases_append, releases]

theorem sentMessages_startAutoStartInstance (env : ExecEnv) (trace : List Action) (id : Nat)
    (instanceID receiver : String) :
    ∃ rest, sentMessages (startAutoStartInstance env trace id instanceID receiver) =
      sentMessages trace ++ rest := by
  unfold startAutoStartInstance
  cases env.StartInstance with
  | some e => exact ⟨[], by simp [sentMessages_append, sentMessages]⟩
  | none => exact ⟨_, by simp [sentMessages_SendMessage, sentMessages_append, sentMessages]; rfl⟩

theorem sentMessages_finishStage (env : ExecEnv) (id : Nat) (request : Request)
    (config : GuestConfig) (trace : List Action) :
    ∃ rest, sentMessages (finishStage env id request config trace).trace =
      sentMessages trace ++ rest := by
  unfold finishStage
  simp only
  split
  · obtain ⟨rest, h⟩ := sentMessages_startAutoStartInstance env
      (SendMessage env trace
        { ID := .GuestCreatedEvent, FromSession := id, ParamKeyInstance := some config.ID,
          ParamKeyMonitor := some config.MonitorPort, ParamKeySecret := some config.MonitorSecret,
          ParamKeyHardware := some config.HardwareAddress } request.Sender).1
      id config.ID request.Sender
    exact ⟨_, by rw [h, sentMessages_SendMessage, List.append_assoc]⟩
  · exact ⟨_, by rw [sentMessages_SendMessage]⟩

theorem sentMessages_cloneLoop (env : ExecEnv) (id : Nat) (sender : String)
    (config : GuestConfig) (events : List CloneEvent) (event : Message) (trace : List Action) :
    ∃ rest, sentMessages (cloneLoop env id sender config events event trace).trace =
      sentMessages trace ++ rest := by
  induction events generalizing event trace with
  | nil => exact ⟨_, by simp only [cloneLoop, sentMessages_cloneFail]; rfl⟩
  | cons e rest ih =>
    cases e with
    | tick expired =>
      cases expired with
      | true => exact ⟨_, by simp only [cloneLoop, sentMessages_cloneFail, if_true]; rfl⟩
      | false => simpa [cloneLoop] using ih event trace
    | progress n =>
      obtain ⟨r, h⟩ := ih { event with ParamKeyProgress := some n }
        (SendMessage env trace { event with ParamKeyProgress := some n } sender).1
      exact ⟨_, by simp only [cloneLoop]; rw [h, sentMessages_SendMessage, List.append_assoc]⟩
    | result result =>
      cases h : result.Error with
      | some err => exact ⟨_, by simp only [cloneLoop, h, sentMessages_cloneFail]; rfl⟩
      | none =>
        simp only [cloneLoop, h]
        split
        · obtain ⟨r, hr⟩ := sentMessages_startAutoStartInstance env
            (SendMessage env trace
              { ID := .GuestCreatedEvent, Success := true, FromSession := id,
                ParamKeyInstance := some config.ID, ParamKeyMonitor := some config.MonitorPort,
                ParamKeySecret := some config.MonitorSecret,
                ParamKeyHardware := some config.HardwareAddress } sender).1
            id config.ID sender
          exact ⟨_, by rw [hr, sentMessages_SendMessage, List.append_assoc]⟩
        · exact ⟨_, by rw [sentMessages_SendMessage]⟩

theorem sentMessages_cloneStage (env : ExecEnv) (id : Nat) (request : Request) (p : Parsed)
    (config : GuestConfig) (trace : List Action) :
    ∃ rest, sentMessages (cloneStage env id request p config trace).trace =
      sentMessages trace ++ rest := by
  unfold cloneStage
  cases config.StorageVolumes with
  | nil => exact ⟨[], by simp⟩
  | cons v vs =>
    cases env.cloneStart with
    | timeout =>
      exact ⟨_, by simp only [sentMessages_cloneFail, sentMessages_append, sentMessages,
        List.append_nil]; rfl⟩
    | start err =>
      cases err with
      | some e =>
        exact ⟨_, by simp only [sentMessages_cloneFail, sentMessages_append, sentMessages,
          List.append_nil]; rfl⟩
      | none =>
        obtain ⟨r, hr⟩ := sentMessages_cloneLoop env id request.Sender config env.cloneEvents
          (progressEvent id config.ID)
          (trace ++ [.ReadDiskImage id config.ID v p.imageID p.systemSize p.imageSize p.mediaHost
            p.mediaPort])
        exact ⟨r, by simp only; rw [hr]; simp [sentMessages_append, sentMessages]⟩

/-- Once `CreateInstance` has succeeded, the next message sent is the create
response built by `successReply`. -/
theorem defineStage_reply (env : ExecEnv) (id : Nat) (request : Request)
    (resp : Message) (p : Parsed) (config : GuestConfig) (trace : List Action)
    (h : env.CreateInstance = none) :
    ∃ rest, sentMessages (defineStage env id request resp p config trace).trace =
      sentMessages trace ++ (successReply resp config, request.Sender) :: rest := by
  unfold defineStage
  simp only [h]
  split
  · exact ⟨[], by simp [sentMessages_SendMessage, successReply, sentMessages_append, sentMessages]⟩
  · split
    · obtain ⟨r, hr⟩ := sentMessages_finishStage env id request
        { config with MonitorSecret := generatePassword env p.drawn 8 }
        (SendMessage env
          (trace ++ [.CreateInstance { config with MonitorSecret := generatePassword env p.drawn 8 }
            none])
          (successReply resp { config with MonitorSecret := generatePassword env p.drawn 8 })
          request.Sender).1
      exact ⟨r, by rw [hr, sentMessages_SendMessage]; simp [sentMessages_append, sentMessages,
        successReply]⟩
    · obtain ⟨r, hr⟩ := sentMessages_cloneStage env id request p
        { config with MonitorSecret := generatePassword env p.drawn 8 }
        (SendMessage env
          (trace ++ [.CreateInstance { config with MonitorSecret := generatePassword env p.drawn 8 }
            none])
          (successReply resp { config with MonitorSecret := generatePassword env p.drawn 8 })
          request.Sender).1
      exact ⟨r, by rw [hr, sentMessages_SendMessage]; simp [sentMessages_append, sentMessages,
        successReply]⟩

/-- A failure of the cloning block: the create response, then progress events,
then one failure message; and the full release. -/
theorem defineStage_clone_fail (env : ExecEnv) (id : Nat) (request : Request)
    (resp : Message) (p : Parsed) (config : GuestConfig) (trace : List Action)
    (h : env.CreateInstance = none) (hs : env.SendMessage (sendCount trace) = none)
    (hc : p.cloneFromImage = true) (hv : config.StorageVolumes ≠ [])
    (hf : cloneFails env = true) :
    (∃ ms m, sentMessages (defineStage env id request resp p config trace).trace =
        sentMessages trace ++ (successReply resp config, request.Sender) :: ms ++
          [(m, request.Sender)] ∧
      (∀ x ∈ ms, x.1.Success = true ∧ x.2 = request.Sender) ∧
      m.Success = false ∧ ∃ text, m.Error = some text) ∧
    releases (defineStage env id request resp p config trace).trace =
      releases trace ++ [.releaseInstance, .storage, .network] := by
  have hcount : sendCount (trace ++ [Action.CreateInstance
      { config with MonitorSecret := generatePassword env p.drawn 8 } none]) = sendCount trace := by
    simp [sendCount_append, sendCount]
  unfold defineStage
  simp only [h, SendMessage, hcount, hs, hc]
  constructor
  · obtain ⟨ms, m, h1, h2, h3, h4⟩ := sentMessages_cloneStage_fail env id request p
      { config with MonitorSecret := generatePassword env p.drawn 8 }
      (trace ++ [.CreateInstance { config with MonitorSecret := generatePassword env p.drawn 8 }
          none] ++
        [.SendMessage
          (successReply resp { config with MonitorSecret := generatePassword env p.drawn 8 })
          request.Sender none]) hv hf
    refine ⟨ms, m, ?_, h2, h3, h4⟩
    simp only [Bool.not_true, Bool.false_eq_true, if_false]
    rw [h1]
    simp [sentMessages_append, sentMessages, successReply]
  · simp only [Bool.not_true, Bool.false_eq_true, if_false]
    rw [releases_cloneStage env id request p _ _
      (show ({ config with MonitorSecret := generatePassword env p.drawn 8 } :
        GuestConfig).StorageVolumes ≠ [] from hv), hf]
    simp [releases_append, releases]

theorem parseRequest_Created (decls : ServiceDecls) (env : ExecEnv) (request : Request)
    (p : Parsed) (hp : parseRequest decls env request = .ok p) : p.config.Created = false := by
  obtain ⟨basics, c1, c2, clone, c3, c4, c5, c6, ci, h1, h2, h3, -, h5, h6, h7, -, h8, h9, hc, -, -⟩ :=
    parseRequest_ok decls env request p hp
  rw [hc, (parseCloudInit_ok env request _ _ h9).2, (parseModulesAndFlags_ok request _ _ h8).2.2,
    (parsePolicy_ok decls request _ _ h7).2, (parseQoS_ok request _ _ h6).2,
    (parseAddress_ok request _ _ h5).2, (parseMode_ok request _ _ h3).2,
    (parseTemplate_ok decls request _ _ h2).2]
  exact (parseBasics_ok request basics h1).2.2.2.2.2.2.2.2.2

theorem successReply_congr (resp : Message) (c1 c2 : GuestConfig) (hid : c1.ID = c2.ID)
    (hcr : c1.Created = c2.Created) : successReply resp c1 = successReply resp c2 := by
  simp [successReply, hid, hcr]

/-- The releases of the cloning block are none or the full release. -/
theorem releases_cloneStage_shape (env : ExecEnv) (id : Nat) (request : Request) (p : Parsed)
    (config : GuestConfig) (trace : List Action) :
    releases (cloneStage env id request p config trace).trace = releases trace ∨
    releases (cloneStage env id request p config trace).trace =
      releases trace ++ [.releaseInstance, .storage, .network] := by
  by_cases hv : config.StorageVolumes = []
  · left
    unfold cloneStage
    rw [hv]
  · rw [releases_cloneStage env id request p config trace hv]
    cases cloneFails env <;> simp

/-- The releases of the define stage and what follows it. -/
theorem releases_defineStage_shape (env : ExecEnv) (id : Nat) (request : Request)
    (resp : Message) (p : Parsed) (config : GuestConfig) (trace : List Action) :
    releases (defineStage env id request resp p config trace).trace = releases trace ∨
    releases (defineStage env id request resp p config trace).trace =
      releases trace ++ [.storage, .network] ∨
    releases (defineStage env id request resp p config trace).trace =
      releases trace ++ [.releaseInstance, .storage, .network] := by
  cases h : env.CreateInstance with
  | some e => exact Or.inr (Or.inl (defineStage_fail env id request resp p config trace e h).2)
  | none =>
    unfold defineStage
    simp only [h]
    split
    · left
      simp [releases_SendMessage, releases_append, releases]
    · split
      · left
        rw [releases_finishStage]
        simp [releases_SendMessage, releases_append, releases]
      · rcases releases_cloneStage_shape env id request p
          { config with MonitorSecret := generatePassword env p.drawn 8 }
          (SendMessage env
            (trace ++ [.CreateInstance
              { config with MonitorSecret := generatePassword env p.drawn 8 } none])
            (successReply resp { config with MonitorSecret := generatePassword env p.drawn 8 })
            request.Sender).1 with hr | hr
        · left
          rw [hr]
          simp [releases_SendMessage, releases_append, releases]
        · right; right
          rw [hr]
          simp [releases_SendMessage, releases_append, releases]

/-- The releases of a whole run are a sublist of instance, storage, network. -/
theorem releases_Execute_shape (decls : ServiceDecls) (env : ExecEnv) (id : Nat)
    (request : Request) :
    releases (Execute decls env id request).trace = [] ∨
    releases (Execute decls env id request).trace = [.network] ∨
    releases (Execute decls env id request).trace = [.storage, .network] ∨
    releases (Execute decls env id request).trace = [.releaseInstance, .storage, .network] := by
  cases hp : parseRequest decls env request with
  | error stop =>
    left
    unfold Execute
    rw [hp]
    cases stop <;> simp [releases_ResponseFail, releases]
  | ok p =>
    rw [Execute_parsed decls env id request p hp]
    by_cases hn : networkOk decls env p
    · obtain ⟨config, trace, he, -, -, -, -, hr, -⟩ :=
        networkStage_ok decls env id request (initialResponse id request) p hn
      rw [he]
      cases hs : env.CreateVolumes.Error with
      | some e =>
        right; left
        rw [(storageStage_fail decls env id request _ p config trace e hs).2, hr]
        rfl
      | none =>
        obtain ⟨config1, trace1, he1, -, -, -, -, -, hr1, -⟩ :=
          storageStage_ok decls env id request (initialResponse id request) p config trace hs
        rw [he1]
        rcases releases_defineStage_shape env id request (initialResponse id request) p config1
          trace1 with h | h | h
        · left; rw [h, hr1, hr]
        · right; right; left; rw [h, hr1, hr]; rfl
        · right; right; right; rw [h, hr1, hr]; rfl
    · obtain ⟨err, trace, he, -, hr⟩ :=
        networkStage_fail decls env id request (initialResponse id request) p hn
      left
      rw [he, releases_ResponseFail, hr]

/-! ## Theorems: create-instance executor -/

/-- C7 (what the code does): for every request whose parsing, network stage,
volume creation and domain definition all succeed, the first message sent is
the create response, to the requester, with the success flag set and the
instance id, and its created flag (`ParamKeyEnable`) is false, not true. -/
theorem C7_reply_created_flag_false (decls : ServiceDecls) (env : ExecEnv) (id : Nat)
    (request : Request) (p : Parsed) (hp : parseRequest decls env request = .ok p)
    (hn : networkOk decls env p) (hs : env.CreateVolumes.Error = none)
    (hd : env.CreateInstance = none) :
    ∃ reply rest, sentMessages (Execute decls env id request).trace =
        (reply, request.Sender) :: rest ∧
      reply.ID = .CreateGuestResponse ∧ reply.Success = true ∧
      reply.ParamKeyInstance = some p.config.ID ∧ reply.ParamKeyEnable = some false := by
  rw [Execute_parsed decls env id request p hp]
  obtain ⟨config, trace, he, hid, hcr, -, hm, -, -⟩ :=
    networkStage_ok decls env id request (initialResponse id request) p hn
  obtain ⟨config1, trace1, he1, hid1, hcr1, -, -, hm1, -, -⟩ :=
    storageStage_ok decls env id request (initialResponse id request) p config trace hs
  obtain ⟨rest, hr⟩ :=
    defineStage_reply env id request (initialResponse id request) p config1 trace1 hd
  have hc : successReply (initialResponse id request) config1 =
      successReply (initialResponse id request) p.config :=
    successReply_congr _ _ _ (hid1.trans hid) (hcr1.trans hcr)
  refine ⟨successReply (initialResponse id request) p.config, rest, ?_, rfl, rfl, rfl, ?_⟩
  · rw [he, he1, hr, hm1, hm, hc]
    rfl
  · have := parseRequest_Created decls env request p hp
    simp [successReply, this]

/-- C8 (counterexample): a request without its mode array fails and no
message at all is sent; a cloning request whose start times out fails after a
message with success = true, the create response, has been sent. -/
theorem C8_failure_not_single_message :
    ((Execute sampleDecls sampleEnv 9 noModeRequest).ret = some "no mode" ∧
      sentMessages (Execute sampleDecls sampleEnv 9 noModeRequest).trace = []) ∧
    (cloneFails startTimeoutEnv = true ∧
      (sentMessages (Execute sampleDecls startTimeoutEnv 9 sampleCloneRequest).trace).map
        (fun m => (m.1.ID, m.1.Success, m.1.Error)) =
        [(.CreateGuestResponse, true, none),
         (.GuestUpdatedEvent, false, some "start clone disk image timeout")]) := by
  decide

/-- C8 (amended): a run that fails in parsing through `ResponseFail`, in the
network stage, in volume creation or in the domain definition sends exactly one
message, to the requester, with success = false and the error text, and none
with success = true; a run that fails during image cloning sends the create
response and progress events, all with success = true, and then exactly one
message with success = false and an error text, all to the requester. -/
theorem C8_failure_messages (decls : ServiceDecls) (env : ExecEnv) (id : Nat)
    (request : Request) :
    (∀ resp err, (failureMessage resp err).Success = false ∧
      (failureMessage resp err).Error = some err) ∧
    (∀ err, parseRequest decls env request = .error (.respond err) →
      sentMessages (Execute decls env id request).trace =
        [(failureMessage (initialResponse id request) err, request.Sender)]) ∧
    (∀ p, parseRequest decls env request = .ok p →
      (¬ networkOk decls env p →
        ∃ err, sentMessages (Execute decls env id request).trace =
          [(failureMessage (initialResponse id request) err, request.Sender)]) ∧
      (networkOk decls env p → ∀ e, env.CreateVolumes.Error = some e →
        sentMessages (Execute decls env id request).trace =
          [(failureMessage (initialResponse id request) e, request.Sender)]) ∧
      (networkOk decls env p → env.CreateVolumes.Error = none →
        ∀ e, env.CreateInstance = some e →
        sentMessages (Execute decls env id request).trace =
          [(failureMessage (initialResponse id request) e, request.Sender)]) ∧
      (networkOk decls env p → env.CreateVolumes.Error = none → env.CreateInstance = none →
        env.SendMessage 0 = none → p.cloneFromImage = true → env.CreateVolumes.Volumes ≠ [] →
        cloneFails env = true →
        ∃ reply ms m, sentMessages (Execute decls env id request).trace =
            (reply, request.Sender) :: ms ++ [(m, request.Sender)] ∧
          reply.Success = true ∧ (∀ x ∈ ms, x.1.Success = true ∧ x.2 = request.Sender) ∧
          m.Success = false ∧ ∃ text, m.Error = some text)) := by
  refine ⟨fun _ _ => ⟨rfl, rfl⟩, ?_, ?_⟩
  · intro err hp
    unfold Execute
    rw [hp]
    simp [sentMessages_ResponseFail, sentMessages, failureMessage]
  · intro p hp
    rw [Execute_parsed decls env id request p hp]
    refine ⟨?_, ?_, ?_, ?_⟩
    · intro hn
      obtain ⟨err, trace, he, hm, -⟩ :=
        networkStage_fail decls env id request (initialResponse id request) p hn
      exact ⟨err, by rw [he, sentMessages_ResponseFail, hm]; rfl⟩
    · intro hn e hs
      obtain ⟨config, trace, he, -, -, -, hm, -, -⟩ :=
        networkStage_ok decls env id request (initialResponse id request) p hn
      rw [he, (storageStage_fail decls env id request _ p config trace e hs).1, hm]
      rfl
    · intro hn hs e hd
      obtain ⟨config, trace, he, -, -, -, hm, -, -⟩ :=
        networkStage_ok decls env id request (initialResponse id request) p hn
      obtain ⟨config1, trace1, he1, -, -, -, -, hm1, -, -⟩ :=
        storageStage_ok decls env id request (initialResponse id request) p config trace hs
      rw [he, he1, (defineStage_fail env id request _ p config1 trace1 e hd).1, hm1, hm]
      rfl
    · intro hn hs hd hsend hc hv hf
      obtain ⟨config, trace, he, -, -, -, hm, -, hcount⟩ :=
        networkStage_ok decls env id request (initialResponse id request) p hn
      obtain ⟨config1, trace1, he1, -, -, -, hvol, hm1, -, hcount1⟩ :=
        storageStage_ok decls env id request (initialResponse id request) p config trace hs
      have hsend1 : env.SendMessage (sendCount trace1) = none := by
        rw [hcount1, hcount]; exact hsend
      have hv1 : config1.StorageVolumes ≠ [] := by rw [hvol]; exact hv
      obtain ⟨⟨ms, m, h1, h2, h3, h4⟩, -⟩ := defineStage_clone_fail env id request
        (initialResponse id request) p config1 trace1 hd hsend1 hc hv1 hf
      refine ⟨successReply (initialResponse id request) config1, ms, m, ?_, rfl, h2, h3, h4⟩
      rw [he, he1, h1, hm1, hm]
      rfl

/-- Witness for C8: with volume creation failing, the one message sent is the
failure response carrying the error text. -/
theorem C8_failure_messages_witness :
    (parseRequest sampleDecls storageFailEnv sampleRequest = .ok sampleParsed ∧
      networkOk sampleDecls storageFailEnv sampleParsed ∧
      storageFailEnv.CreateVolumes.Error = some "no space") ∧
    sentMessages (Execute sampleDecls storageFailEnv 9 sampleRequest).trace =
      [(failureMessage (initialResponse 9 sampleRequest) "no space", "core")] :=
  ⟨⟨by decide, ⟨⟨_, rfl⟩, rfl, rfl, rfl⟩, rfl⟩,
   ((C8_failure_messages sampleDecls storageFailEnv 9 sampleRequest).2.2 sampleParsed
      (by decide)).2.1 ⟨⟨_, rfl⟩, rfl, rfl, rfl⟩ "no space" rfl⟩

/-- Witness for C7 on the sample request in the all-succeeding environment. -/
theorem C7_reply_created_flag_false_witness :
    (parseRequest sampleDecls sampleEnv sampleRequest = .ok sampleParsed ∧
      networkOk sampleDecls sampleEnv sampleParsed ∧
      sampleEnv.CreateVolumes.Error = none ∧ sampleEnv.CreateInstance = none) ∧
    ∃ reply rest, sentMessages (Execute sampleDecls sampleEnv 9 sampleRequest).trace =
        (reply, "core") :: rest ∧
      reply.ID = .CreateGuestResponse ∧ reply.Success = true ∧
      reply.ParamKeyInstance = some "uuid-1" ∧ reply.ParamKeyEnable = some false :=
  ⟨⟨by decide, ⟨⟨_, rfl⟩, rfl, rfl, rfl⟩, rfl, rfl⟩,
   C7_reply_created_flag_false sampleDecls sampleEnv 9 sampleRequest sampleParsed (by decide)
     ⟨⟨_, rfl⟩, rfl, rfl, rfl⟩ rfl rfl⟩

/-- C9: a request that fails parse-and-validate (a missing required parameter,
an empty disk-size array, a template array not of length 7, a mode array not of
length 2, a limit array present with a length other than 6, a policy array
whose length is not a multiple of 5, an invalid protocol index, a flag array
not of length 1, an unknown module, or any other rejection by the parsing part)
leads to no call of `AllocateInstanceResource`, `CreateVolumes` or
`CreateInstance`. -/
theorem C9_parse_failure_allocates_nothing (decls : ServiceDecls) (env : ExecEnv) (id : Nat)
    (request : Request)
    (h : listedParseFailure decls request ∨ parseFails decls env request) :
    parseFails decls env request ∧
    ∀ a ∈ (Execute decls env id request).trace, a.allocates = false := by
  have hf : parseFails decls env request := by
    rcases h with h | h
    · exact parseFails_of_listed decls env request h
    · exact h
  refine ⟨hf, ?_⟩
  unfold Execute
  cases hp : parseRequest decls env request with
  | ok p => exact absurd hp (hf p)
  | error stop =>
    cases stop with
    | respond err =>
      intro a ha
      simp only [ResponseFail, SendMessage, List.nil_append, List.mem_singleton] at ha
      rw [ha]
      rfl
    | returnErr err =>
      intro a ha
      simp at ha

/-- Witness for C9 on the sample request with an empty disk-size array. -/
theorem C9_parse_failure_allocates_nothing_witness :
    listedParseFailure sampleDecls emptyDiskRequest ∧
    (parseFails sampleDecls sampleEnv emptyDiskRequest ∧
      ∀ a ∈ (Execute sampleDecls sampleEnv 9 emptyDiskRequest).trace, a.allocates = false) :=
  ⟨by simp [listedParseFailure, emptyDiskRequest, sampleRequest],
   C9_parse_failure_allocates_nothing sampleDecls sampleEnv 9 emptyDiskRequest
     (Or.inl (by simp [listedParseFailure, emptyDiskRequest, sampleRequest]))⟩

/-- C10: the releases of a run are determined by the failing stage: a failure
of the network stage releases nothing, of volume creation the network, of the
domain definition storage then network, and a failure of the cloning (start
failure, start timeout, inactivity timeout or error result) instance, storage,
network.  In every run the releases are a sublist of instance, storage,
network, so they keep that order and none runs twice; and `ReleaseResource`
makes each requested call whatever the earlier ones returned. -/
theorem C10_release_by_failing_stage (decls : ServiceDecls) (env : ExecEnv) (id : Nat)
    (request : Request) :
    (∀ p, parseRequest decls env request = .ok p →
      (¬ networkOk decls env p → releases (Execute decls env id request).trace = []) ∧
      (networkOk decls env p → (∃ e, env.CreateVolumes.Error = some e) →
        releases (Execute decls env id request).trace = [.network]) ∧
      (networkOk decls env p → env.CreateVolumes.Error = none →
        (∃ e, env.CreateInstance = some e) →
        releases (Execute decls env id request).trace = [.storage, .network]) ∧
      (networkOk decls env p → env.CreateVolumes.Error = none → env.CreateInstance = none →
        env.SendMessage 0 = none → p.cloneFromImage = true → env.CreateVolumes.Volumes ≠ [] →
        cloneFails env = true →
        releases (Execute decls env id request).trace =
          [.releaseInstance, .storage, .network])) ∧
    (releases (Execute decls env id request).trace).Sublist
      [.releaseInstance, .storage, .network] ∧
    (∀ trace guest clearNetwork clearVolumes clearInstance,
      ReleaseResource env trace guest clearNetwork clearVolumes clearInstance =
        trace ++ ((if clearInstance then [Action.DeleteInstance guest env.DeleteInstance] else [])
          ++ (if clearVolumes then [Action.DeleteVolumes guest env.DeleteVolumes] else [])
          ++ (if clearNetwork then [Action.DeallocateAllResource guest env.DeallocateAllResource]
              else []))) := by
  refine ⟨?_, ?_, fun trace guest n v i => ReleaseResource_eq env trace guest n v i⟩
  · intro p hp
    rw [Execute_parsed decls env id request p hp]
    refine ⟨?_, ?_, ?_, ?_⟩
    · intro hn
      obtain ⟨err, trace, he, -, hr⟩ :=
        networkStage_fail decls env id request (initialResponse id request) p hn
      rw [he, releases_ResponseFail, hr]
    · rintro hn ⟨e, hs⟩
      obtain ⟨config, trace, he, -, -, -, -, hr, -⟩ :=
        networkStage_ok decls env id request (initialResponse id request) p hn
      rw [he, (storageStage_fail decls env id request _ p config trace e hs).2, hr]
      rfl
    · rintro hn hs ⟨e, hd⟩
      obtain ⟨config, trace, he, -, -, -, -, hr, -⟩ :=
        networkStage_ok decls env id request (initialResponse id request) p hn
      obtain ⟨config1, trace1, he1, -, -, -, -, -, hr1, -⟩ :=
        storageStage_ok decls env id request (initialResponse id request) p config trace hs
      rw [he, he1, (defineStage_fail env id request _ p config1 trace1 e hd).2, hr1, hr]
      rfl
    · intro hn hs hd hsend hc hv hf
      obtain ⟨config, trace, he, -, -, -, -, hr, hcount⟩ :=
        networkStage_ok decls env id request (initialResponse id request) p hn
      obtain ⟨config1, trace1, he1, -, -, -, hvol, -, hr1, hcount1⟩ :=
        storageStage_ok decls env id request (initialResponse id request) p config trace hs
      have hsend1 : env.SendMessage (sendCount trace1) = none := by
        rw [hcount1, hcount]; exact hsend
      have hv1 : config1.StorageVolumes ≠ [] := by rw [hvol]; exact hv
      rw [he, he1, (defineStage_clone_fail env id request (initialResponse id request) p config1
        trace1 hd hsend1 hc hv1 hf).2, hr1, hr]
      rfl
  · rcases releases_Execute_shape decls env id request with h | h | h | h <;> rw [h] <;> decide

/-- Witness for C10: volume creation fails and every release call fails; the
one release made is the network one. -/
theorem C10_release_by_failing_stage_witness :
    (parseRequest sampleDecls storageFailEnv sampleRequest = .ok sampleParsed ∧
      networkOk sampleDecls storageFailEnv sampleParsed ∧
      storageFailEnv.CreateVolumes.Error = some "no space" ∧
      storageFailEnv.DeallocateAllResource = some "release failed") ∧
    releases (Execute sampleDecls storageFailEnv 9 sampleRequest).trace = [.network] :=
  ⟨⟨by decide, ⟨⟨_, rfl⟩, rfl, rfl, rfl⟩, rfl, rfl⟩,
   ((C10_release_by_failing_stage sampleDecls storageFailEnv 9 sampleRequest).1 sampleParsed
      (by decide)).2.1 ⟨⟨_, rfl⟩, rfl, rfl, rfl⟩ ⟨"no space", rfl⟩⟩

/-! ## Theorems: hypervisor adapter -/

/-- C13: on a running domain `StopInstance` issues exactly one command, chosen
by (reboot, force): shutdown, destroy, reboot or reset, and returns its result;
on a stopped domain it issues no command and returns the error "instance ...
already stopped". -/
theorem C13_StopInstance_matrix (env : DomainEnv) (id : String)
    (hl : env.LookupDomainByUUIDString = none) :
    (env.IsActive = .ok true →
      StopInstance env id false false = { trace := [.Shutdown], ret := env.Shutdown } ∧
      StopInstance env id false true = { trace := [.Destroy], ret := env.Destroy } ∧
      StopInstance env id true false = { trace := [.Reboot], ret := env.Reboot } ∧
      StopInstance env id true true = { trace := [.Reset], ret := env.Reset }) ∧
    (env.IsActive = .ok false → ∀ reboot force,
      StopInstance env id reboot force =
        { trace := [], ret := some ("instance '" ++ id ++ "' already stopped") }) := by
  constructor
  · intro ha
    simp [StopInstance, hl, ha]
  · intro ha reboot force
    simp [StopInstance, hl, ha]

/-- Witness for C13: a forced stop of the running sample domain is one destroy. -/
theorem C13_StopInstance_matrix_witness :
    StopInstance runningDomainEnv "uuid-1" false true = { trace := [.Destroy], ret := none } :=
  ((C13_StopInstance_matrix runningDomainEnv "uuid-1" rfl).1 rfl).2.1

/-- C14: on an active domain `SetDiskThreshold` returns an error and issues no
command, so no device is updated; when the domain and its description are
found, the error is "instance ... is still running". -/
theorem C14_SetDiskThreshold_active (env : DomainEnv) (guestID : String)
    (writeSpeed writeIOPS readSpeed readIOPS : Nat) (ha : env.IsActive = .ok true) :
    (∃ err, (SetDiskThreshold env guestID writeSpeed writeIOPS readSpeed readIOPS).ret =
      some err) ∧
    (SetDiskThreshold env guestID writeSpeed writeIOPS readSpeed readIOPS).trace = [] ∧
    deviceUpdates (SetDiskThreshold env guestID writeSpeed writeIOPS readSpeed readIOPS).trace
      = [] ∧
    (env.LookupDomainByUUIDString = none → ∀ currentDomain,
      env.currentDomain = .ok currentDomain →
      (SetDiskThreshold env guestID writeSpeed writeIOPS readSpeed readIOPS).ret =
        some ("instance " ++ currentDomain.Name ++ " ('" ++ guestID ++ "') is still running")) := by
  have key : (∃ err, (SetDiskThreshold env guestID writeSpeed writeIOPS readSpeed readIOPS).ret =
      some err) ∧
      (SetDiskThreshold env guestID writeSpeed writeIOPS readSpeed readIOPS).trace = [] := by
    unfold SetDiskThreshold
    cases env.LookupDomainByUUIDString with
    | some e => exact ⟨⟨e, rfl⟩, rfl⟩
    | none =>
      cases env.currentDomain with
      | error e => exact ⟨⟨e, rfl⟩, rfl⟩
      | ok d =>
        rw [ha]
        exact ⟨⟨_, rfl⟩, rfl⟩
  refine ⟨key.1, key.2, by rw [key.2]; rfl, ?_⟩
  intro hl d hd
  simp [SetDiskThreshold, hl, hd, ha]

/-- Witness for C14 on the running sample domain. -/
theorem C14_SetDiskThreshold_active_witness :
    (SetDiskThreshold runningDomainEnv "uuid-1" 1048576 100 1048576 100).ret =
      some "instance g.vm ('uuid-1') is still running" ∧
    (SetDiskThreshold runningDomainEnv "uuid-1" 1048576 100 1048576 100).trace = [] :=
  ⟨(C14_SetDiskThreshold_active runningDomainEnv "uuid-1" 1048576 100 1048576 100 rfl).2.2.2
      rfl _ rfl,
   (C14_SetDiskThreshold_active runningDomainEnv "uuid-1" 1048576 100 1048576 100 rfl).2.1⟩

/-! ## Theorems: interface bandwidth -/

/-- The interface built by `SetPlainNetwork` when it returns nil. -/
theorem SetPlainNetwork_ok (randRead : Except String (Nat × Nat × Nat))
    (define define1 : virDomainDefine) (netBus bridge mac : String) (receiveSpeed sendSpeed : Nat)
    (h : SetPlainNetwork randRead define netBus bridge mac receiveSpeed sendSpeed = .ok define1) :
    ∃ address, define1.Devices.Interface =
      [{ InterfaceType := "bridge", Source := { Bridge := bridge },
         MAC := some { Address := address }, Model := some { ModelType := netBus },
         Bandwidth := plainBandwidth receiveSpeed sendSpeed }] ∧
      define1.Devices.Disks = define.Devices.Disks := by
  unfold SetPlainNetwork at h
  simp only at h
  split at h
  · cases h
  · rename_i address _
    cases h
    refine ⟨address, ?_, rfl⟩
    cases plainBandwidth receiveSpeed sendSpeed <;> rfl

/-- The value of `plainBandwidth` case by case. -/
theorem plainBandwidth_eq (receiveSpeed sendSpeed : Nat) :
    plainBandwidth receiveSpeed sendSpeed =
      if receiveSpeed = 0 ∧ sendSpeed = 0 then none
      else some {
        Inbound := if receiveSpeed = 0 then none else
          some { Average := receiveSpeed >>> 10, Peak := receiveSpeed >>> 9,
                 Burst := receiveSpeed >>> 10 },
        Outbound := if sendSpeed = 0 then none else
          some { Average := sendSpeed >>> 10, Peak := sendSpeed >>> 9,
                 Burst := sendSpeed >>> 10 } } := by
  unfold plainBandwidth
  by_cases hr : receiveSpeed = 0 <;> by_cases hs : sendSpeed = 0 <;>
    simp [hr, hs, Ne.symm, eq_comm]

/-- The value of `thresholdBandwidth` case by case. -/
theorem thresholdBandwidth_eq (receiveSpeed sendSpeed : Nat) :
    thresholdBandwidth receiveSpeed sendSpeed =
      { Inbound := if receiveSpeed = 0 then none else
          some { Average := receiveSpeed >>> 10, Peak := receiveSpeed >>> 9,
                 Burst := receiveSpeed >>> 10 },
        Outbound := if sendSpeed = 0 then none else
          some { Average := sendSpeed >>> 10, Peak := sendSpeed >>> 9,
                 Burst := sendSpeed >>> 10 } } := by
  unfold thresholdBandwidth
  by_cases hr : receiveSpeed = 0 <;> by_cases hs : sendSpeed = 0 <;>
    simp [hr, hs, Ne.symm, eq_comm]

theorem updatedInterfaces_append (a b : List DomainCommand) :
    updatedInterfaces (a ++ b) = updatedInterfaces a ++ updatedInterfaces b := by
  induction a with
  | nil => rfl
  | cons x xs ih =>
    cases x with
    | UpdateDeviceFlags device flags => cases device <;> simp [updatedInterfaces, ih]
    | _ => simp [updatedInterfaces, ih]

/-- The live half of the loop body writes no interface to the configuration. -/
theorem setLiveParameters_bandwidth (env : DomainEnv) (activated : Bool)
    (parameters : DomainInterfaceParameters) (bandWidth : virDomainInterfaceBandwidth)
    (netInf : virDomainInterfaceElement) (trace : List DomainCommand)
    (h : ∀ i ∈ updatedInterfaces trace, i.Bandwidth = some bandWidth) :
    match setLiveParameters env activated parameters netInf trace with
    | .error run => ∀ i ∈ updatedInterfaces run.trace, i.Bandwidth = some bandWidth
    | .ok trace1 => ∀ i ∈ updatedInterfaces trace1, i.Bandwidth = some bandWidth := by
  have hset : ∀ device, ∀ i ∈ updatedInterfaces
      (trace ++ [DomainCommand.SetInterfaceParameters device parameters]),
      i.Bandwidth = some bandWidth := by
    intro device i hi
    rw [updatedInterfaces_append] at hi
    simp only [updatedInterfaces, List.append_nil] at hi
    exact h i hi
  unfold setLiveParameters
  cases activated with
  | false => exact h
  | true =>
    simp only [if_true]
    cases netInf.Target with
    | none => exact h
    | some target =>
      simp only
      cases env.SetInterfaceParameters (setParametersCount trace) with
      | some err => exact hset target.Device
      | none => exact hset target.Device

/-- The configuration half of the loop body writes the interface with the given
bandwidth. -/
theorem updateInterfaceConfig_bandwidth (env : DomainEnv)
    (bandWidth : virDomainInterfaceBandwidth)
    (netInf : virDomainInterfaceElement) (trace : List DomainCommand)
    (h : ∀ i ∈ updatedInterfaces trace, i.Bandwidth = some bandWidth) :
    match updateInterfaceConfig env bandWidth netInf trace with
    | .error run => ∀ i ∈ updatedInterfaces run.trace, i.Bandwidth = some bandWidth
    | .ok trace1 => ∀ i ∈ updatedInterfaces trace1, i.Bandwidth = some bandWidth := by
  have hupd : ∀ i ∈ updatedInterfaces (trace ++ [DomainCommand.UpdateDeviceFlags
      (.netInterface { netInf with Bandwidth := some bandWidth })
      .DOMAIN_DEVICE_MODIFY_CONFIG]), i.Bandwidth = some bandWidth := by
    intro i hi
    rw [updatedInterfaces_append] at hi
    rcases List.mem_append.mp hi with hi | hi
    · exact h i hi
    · simp only [updatedInterfaces, List.mem_singleton] at hi
      rw [hi]
  unfold updateInterfaceConfig
  simp only
  cases env.MarshalIndent (.netInterface { netInf with Bandwidth := some bandWidth }) with
  | error err => exact h
  | ok data =>
    simp only
    cases env.UpdateDeviceFlags (updateCount trace) with
    | some err => exact hupd
    | none => exact hupd

/-- One turn of the loop of `SetNetworkThreshold` writes only interfaces that
carry the given bandwidth, whether the loop goes on or is left. -/
theorem networkThresholdStep_bandwidth (env : DomainEnv) (activated : Bool)
    (parameters : DomainInterfaceParameters) (bandWidth : virDomainInterfaceBandwidth)
    (netInf : virDomainInterfaceElement) (trace : List DomainCommand)
    (h : ∀ i ∈ updatedInterfaces trace, i.Bandwidth = some bandWidth) :
    match networkThresholdStep env activated parameters bandWidth netInf trace with
    | .error run => ∀ i ∈ updatedInterfaces run.trace, i.Bandwidth = some bandWidth
    | .ok trace1 => ∀ i ∈ updatedInterfaces trace1, i.Bandwidth = some bandWidth := by
  have h1 := setLiveParameters_bandwidth env activated parameters bandWidth netInf trace h
  unfold networkThresholdStep
  cases hl : setLiveParameters env activated parameters netInf trace with
  | error run =>
    rw [hl] at h1
    exact h1
  | ok trace1 =>
    rw [hl] at h1
    exact updateInterfaceConfig_bandwidth env bandWidth netInf trace1 h1

/-- Every interface that the loop of `SetNetworkThreshold` writes carries the
given bandwidth. -/
theorem networkThresholdLoop_bandwidth (env : DomainEnv) (activated : Bool)
    (parameters : DomainInterfaceParameters) (bandWidth : virDomainInterfaceBandwidth)
    (interfaces : List virDomainInterfaceElement) (trace : List DomainCommand)
    (h : ∀ i ∈ updatedInterfaces trace, i.Bandwidth = some bandWidth) :
    ∀ i ∈ updatedInterfaces
        (networkThresholdLoop env activated parameters bandWidth interfaces trace).trace,
      i.Bandwidth = some bandWidth := by
  induction interfaces generalizing trace with
  | nil => simpa [networkThresholdLoop] using h
  | cons netInf rest ih =>
    have hstep := networkThresholdStep_bandwidth env activated parameters bandWidth netInf trace h
    unfold networkThresholdLoop
    cases hs : networkThresholdStep env activated parameters bandWidth netInf trace with
    | error run =>
      rw [hs] at hstep
      exact hstep
    | ok trace1 =>
      rw [hs] at hstep
      exact ih trace1 hstep

/-- C15 (counterexample): with both speeds zero `SetNetworkThreshold` writes an
interface with a bandwidth element (empty), while `SetPlainNetwork` attaches no
bandwidth element. -/
theorem C15_bandwidth_presence_differs :
    (updatedInterfaces (SetNetworkThreshold stoppedDomainEnv "uuid-1" 0 0).trace).map
        (fun i => i.Bandwidth) = [some { Inbound := none, Outbound := none }] ∧
    (SetPlainNetwork (.ok (1, 2, 3)) {} "virtio" "br0" "" 0 0).map
        (fun d => d.Devices.Interface.map (fun i => i.Bandwidth)) = .ok [none] := by
  decide

/-- C15 (amended): every interface that `SetNetworkThreshold` writes to the
persistent configuration carries a bandwidth element whose inbound and outbound
limits are those of the interface `SetPlainNetwork` builds for the same speeds
(same presence, same average, peak and burst); the whole bandwidth is equal
when a speed is nonzero, and when both are zero `SetNetworkThreshold` writes an
empty bandwidth element where `SetPlainNetwork` attaches none. -/
theorem C15_threshold_bandwidth_vs_builder (env : DomainEnv) (guestID : String)
    (randRead : Except String (Nat × Nat × Nat)) (define define1 : virDomainDefine)
    (netBus bridge mac : String) (receiveSpeed sendSpeed : Nat)
    (hb : SetPlainNetwork randRead define netBus bridge mac receiveSpeed sendSpeed = .ok define1) :
    ∃ built, define1.Devices.Interface = [built] ∧
      ∀ written ∈ updatedInterfaces (SetNetworkThreshold env guestID receiveSpeed sendSpeed).trace,
        (∃ bandWidth, written.Bandwidth = some bandWidth ∧
          bandWidth.Inbound = built.Bandwidth.bind (fun b => b.Inbound) ∧
          bandWidth.Outbound = built.Bandwidth.bind (fun b => b.Outbound)) ∧
        (receiveSpeed ≠ 0 ∨ sendSpeed ≠ 0 → written.Bandwidth = built.Bandwidth) ∧
        (receiveSpeed = 0 ∧ sendSpeed = 0 →
          written.Bandwidth = some { Inbound := none, Outbound := none } ∧
          built.Bandwidth = none) := by
  obtain ⟨address, hi, -⟩ :=
    SetPlainNetwork_ok randRead define define1 netBus bridge mac receiveSpeed sendSpeed hb
  refine ⟨_, hi, ?_⟩
  intro written hw
  have hwb : written.Bandwidth = some (thresholdBandwidth receiveSpeed sendSpeed) := by
    unfold SetNetworkThreshold at hw
    simp only at hw
    split at hw
    · simp [updatedInterfaces] at hw
    · split at hw
      · simp [updatedInterfaces] at hw
      · split at hw
        · simp [updatedInterfaces] at hw
        · exact networkThresholdLoop_bandwidth env _ _ _ _ [] (by simp [updatedInterfaces])
            written hw
  rw [hwb, thresholdBandwidth_eq]
  simp only [plainBandwidth_eq]
  by_cases hr : receiveSpeed = 0 <;> by_cases hs : sendSpeed = 0 <;> simp [hr, hs]

/-- Witness for C15: 2048 bytes per second in, nothing out, on the stopped
sample domain. -/
theorem C15_threshold_bandwidth_vs_builder_witness :
    SetPlainNetwork (.ok (1, 2, 3)) {} "virtio" "br0" "" 2048 0 =
      .ok { Devices := { Interface := [{
        InterfaceType := "bridge", Source := { Bridge := "br0" },
        MAC := some { Address := "00:16:3e:01:02:03" }, Model := some { ModelType := "virtio" },
        Bandwidth := some { Inbound := some { Average := 2, Peak := 4, Burst := 2 } } }] } } ∧
    ∃ built, (({ Devices := { Interface := [{
        InterfaceType := "bridge", Source := { Bridge := "br0" },
        MAC := some { Address := "00:16:3e:01:02:03" }, Model := some { ModelType := "virtio" },
        Bandwidth := some { Inbound := some { Average := 2, Peak := 4, Burst := 2 } } }] } } :
        virDomainDefine).Devices.Interface = [built]) ∧
      ∀ written ∈ updatedInterfaces (SetNetworkThreshold stoppedDomainEnv "uuid-1" 2048 0).trace,
        (∃ bandWidth, written.Bandwidth = some bandWidth ∧
          bandWidth.Inbound = built.Bandwidth.bind (fun b => b.Inbound) ∧
          bandWidth.Outbound = built.Bandwidth.bind (fun b => b.Outbound)) ∧
        ((2048 : Nat) ≠ 0 ∨ (0 : Nat) ≠ 0 → written.Bandwidth = built.Bandwidth) ∧
        ((2048 : Nat) = 0 ∧ (0 : Nat) = 0 →
          written.Bandwidth = some { Inbound := none, Outbound := none } ∧
          built.Bandwidth = none) :=
  ⟨by decide,
   C15_threshold_bandwidth_vs_builder stoppedDomainEnv "uuid-1" (.ok (1, 2, 3)) {} _
     "virtio" "br0" "" 2048 0 (by decide)⟩

/-- C16: when `SetPlainNetwork` returns nil the define has exactly one
interface, of type bridge with the given bridge as source and the given model;
its bandwidth has an inbound limit iff the receive speed is nonzero and an
outbound limit iff the send speed is nonzero, each with average = speed >> 10,
peak = speed >> 9 and burst = average, and there is no bandwidth element when
both speeds are zero.  The call returns nil whenever a MAC address is given or
the random read succeeds. -/
theorem C16_SetPlainNetwork_interface (randRead : Except String (Nat × Nat × Nat))
    (define : virDomainDefine) (netBus bridge mac : String) (receiveSpeed sendSpeed : Nat) :
    ((mac ≠ "" ∨ ∃ bytes, randRead = .ok bytes) →
      ∃ define1, SetPlainNetwork randRead define netBus bridge mac receiveSpeed sendSpeed =
        .ok define1) ∧
    ∀ define1, SetPlainNetwork randRead define netBus bridge mac receiveSpeed sendSpeed =
        .ok define1 →
      ∃ i, define1.Devices.Interface = [i] ∧
        i.InterfaceType = "bridge" ∧ i.Source.Bridge = bridge ∧
        i.Model = some { ModelType := netBus } ∧
        (receiveSpeed = 0 ∧ sendSpeed = 0 → i.Bandwidth = none) ∧
        (receiveSpeed ≠ 0 ∨ sendSpeed ≠ 0 → ∃ bandWidth, i.Bandwidth = some bandWidth ∧
          (receiveSpeed = 0 → bandWidth.Inbound = none) ∧
          (receiveSpeed ≠ 0 → ∃ limit, bandWidth.Inbound = some limit ∧
            limit.Average = receiveSpeed >>> 10 ∧ limit.Peak = receiveSpeed >>> 9 ∧
            limit.Burst = limit.Average) ∧
          (sendSpeed = 0 → bandWidth.Outbound = none) ∧
          (sendSpeed ≠ 0 → ∃ limit, bandWidth.Outbound = some limit ∧
            limit.Average = sendSpeed >>> 10 ∧ limit.Peak = sendSpeed >>> 9 ∧
            limit.Burst = limit.Average)) := by
  constructor
  · intro h
    unfold SetPlainNetwork
    simp only
    by_cases hm : mac = ""
    · rcases h with h | ⟨⟨b0, b1, b2⟩, h⟩
      · exact absurd hm h
      · rw [if_pos hm, h]
        exact ⟨_, rfl⟩
    · rw [if_neg hm]
      exact ⟨_, rfl⟩
  · intro define1 h
    obtain ⟨address, hi, -⟩ :=
      SetPlainNetwork_ok randRead define define1 netBus bridge mac receiveSpeed sendSpeed h
    refine ⟨_, hi, rfl, rfl, rfl, ?_, ?_⟩
    · rintro ⟨hr, hs⟩
      simp [plainBandwidth_eq, hr, hs]
    · intro hne
      simp only [plainBandwidth_eq]
      by_cases hr : receiveSpeed = 0
      · by_cases hs : sendSpeed = 0
        · rcases hne with h1 | h1
          · exact absurd hr h1
          · exact absurd hs h1
        · simp [hr, hs]
      · by_cases hs : sendSpeed = 0 <;> simp [hr, hs]

/-- Witness for C16: a MAC address is given, so the call returns nil. -/
theorem C16_SetPlainNetwork_interface_witness :
    ∃ define1, SetPlainNetwork (.error "no entropy") {} "virtio" "br0" "00:16:3e:aa:bb:cc"
      2048 0 = .ok define1 :=
  (C16_SetPlainNetwork_interface (.error "no entropy") {} "virtio" "br0" "00:16:3e:aa:bb:cc"
    2048 0).1 (Or.inl (by decide))

/-! ## Theorems: disks and CPU priority -/

/-- The volume loop appends one element per volume, numbered from `devChar`. -/
theorem volumeLoop_eq (diskBus pool devicePrefix : String) (ioTune : Option virDomainDiskTune)
    (volumes : List String) (devChar : Nat) (disks : List virDomainDiskElement) :
    volumeLoop diskBus pool devicePrefix ioTune volumes devChar disks =
      disks ++ (volumes.enumFrom devChar).map
        (fun cv => volumeElement diskBus pool devicePrefix ioTune cv.1 cv.2) := by
  induction volumes generalizing devChar disks with
  | nil => simp [volumeLoop]
  | cons v rest ih => simp [volumeLoop, ih]

/-- The disk list after `SetLocalVolumes`: the disks already there, the empty
CD-ROM, the boot-image CD-ROM when there is a boot image, then the volumes. -/
theorem SetLocalVolumes_disks (define : virDomainDefine) (diskBus pool : String)
    (volumes : List String) (bootImage : String) (readSpeed readIOPS writeSpeed writeIOPS : Nat) :
    (SetLocalVolumes define diskBus pool volumes bootImage readSpeed readIOPS writeSpeed
      writeIOPS).Devices.Disks =
      (define.Devices.Disks ++ [cdromElement] ++
        (if bootImage = "" then [] else [ciElement bootImage])) ++
        (volumes.enumFrom (volumeStart diskBus).1).map
          (fun cv => volumeElement diskBus pool (volumeStart diskBus).2
            (volumeTune readSpeed readIOPS writeSpeed writeIOPS) cv.1 cv.2) := by
  unfold SetLocalVolumes
  simp only [volumeLoop_eq]
  by_cases hb : bootImage = ""
  · simp [hb]
  · have hb2 : "" ≠ bootImage := fun h => hb h.symm
    simp [hb, hb2]

/-- The i-th volume disk after `SetLocalVolumes` on a define without disks. -/
theorem SetLocalVolumes_volume (define : virDomainDefine) (diskBus pool : String)
    (volumes : List String) (bootImage : String) (readSpeed readIOPS writeSpeed writeIOPS : Nat)
    (hd : define.Devices.Disks = []) (i : Nat) (hi : i < volumes.length) :
    (SetLocalVolumes define diskBus pool volumes bootImage readSpeed readIOPS writeSpeed
      writeIOPS).Devices.Disks[1 + (if bootImage = "" then 0 else 1) + i]? =
      some (volumeElement diskBus pool (volumeStart diskBus).2
        (volumeTune readSpeed readIOPS writeSpeed writeIOPS) ((volumeStart diskBus).1 + i)
        (volumes.get ⟨i, hi⟩)) := by
  rw [SetLocalVolumes_disks, hd]
  have hlen : ([] ++ [cdromElement] ++ (if bootImage = "" then [] else [ciElement bootImage])).length
      = 1 + (if bootImage = "" then 0 else 1) := by
    by_cases hb : bootImage = "" <;> simp [hb]
  rw [List.getElem?_append_right (by rw [hlen]; omega), hlen]
  simp only [Nat.add_sub_cancel_left, List.getElem?_map, List.getElem?_enumFrom]
  rw [List.getElem?_eq_getElem hi]
  rfl

/-- C17: on a define without disks, the list built by `SetLocalVolumes` starts
with the empty read-only IDE CD-ROM at "hda"; its second element is the
read-only file CD-ROM at "hdb" with the boot image as source when the boot
image path is not empty, and otherwise every element after the first is a
volume disk; the list has 1 + (1 if a boot image is present) + the number of
volumes elements. -/
theorem C17_SetLocalVolumes_cdroms (define : virDomainDefine) (diskBus pool : String)
    (volumes : List String) (bootImage : String) (readSpeed readIOPS writeSpeed writeIOPS : Nat)
    (hd : define.Devices.Disks = []) :
    (SetLocalVolumes define diskBus pool volumes bootImage readSpeed readIOPS writeSpeed
      writeIOPS).Devices.Disks.head? =
      some { DiskType := "block", Device := "cdrom", Driver := { Name := "qemu", DriverType := "raw" },
             Target := { Device := "hda", Bus := "ide" }, ReadOnly := some true,
             Source := none, IoTune := none } ∧
    (bootImage ≠ "" →
      (SetLocalVolumes define diskBus pool volumes bootImage readSpeed readIOPS writeSpeed
        writeIOPS).Devices.Disks[1]? =
        some { DiskType := "file", Device := "cdrom",
               Driver := { Name := "qemu", DriverType := "raw" },
               Target := { Device := "hdb", Bus := "ide" }, ReadOnly := some true,
               Source := some { File := bootImage }, IoTune := none }) ∧
    (bootImage = "" →
      ∀ d ∈ (SetLocalVolumes define diskBus pool volumes bootImage readSpeed readIOPS writeSpeed
        writeIOPS).Devices.Disks.tail, d.DiskType = "volume" ∧ d.Device = "disk") ∧
    (SetLocalVolumes define diskBus pool volumes bootImage readSpeed readIOPS writeSpeed
      writeIOPS).Devices.Disks.length =
      1 + (if bootImage = "" then 0 else 1) + volumes.length := by
  rw [SetLocalVolumes_disks, hd]
  have hcd : cdromElement =
      { DiskType := "block", Device := "cdrom", Driver := { Name := "qemu", DriverType := "raw" },
        Target := { Device := "hda", Bus := "ide" }, ReadOnly := some true,
        Source := none, IoTune := none } := by decide
  have hci : ciElement bootImage =
      { DiskType := "file", Device := "cdrom", Driver := { Name := "qemu", DriverType := "raw" },
        Target := { Device := "hdb", Bus := "ide" }, ReadOnly := some true,
        Source := some { File := bootImage }, IoTune := none } := by
    have hname : deviceName DevicePrefixIDE (StartDeviceCharacter + IDEOffsetCIDATA) = "hdb" := by
      decide
    simp [ciElement, hname, DiskTypeFile, DeviceCDROM, DriverNameQEMU, DriverTypeRaw, DiskBusIDE]
  refine ⟨?_, ?_, ?_, ?_⟩
  · simp [hcd]
  · intro hb
    simp [hb, hci]
  · intro hb d hmem
    simp only [hb, if_true, List.nil_append, List.append_nil, List.singleton_append,
      List.tail_cons, List.mem_map] at hmem
    obtain ⟨cv, -, rfl⟩ := hmem
    unfold volumeElement
    cases volumeTune readSpeed readIOPS writeSpeed writeIOPS <;> exact ⟨rfl, rfl⟩
  · by_cases hb : bootImage = "" <;> simp [hb] <;> omega

/-- Witness for C17: two volumes and a boot image on the empty define. -/
theorem C17_SetLocalVolumes_cdroms_witness :
    (SetLocalVolumes {} "scsi" "local0" ["sys", "data"] "/pool/ci.iso" 0 0 0 0).Devices.Disks.length
      = 1 + (if "/pool/ci.iso" = "" then 0 else 1) + ["sys", "data"].length :=
  (C17_SetLocalVolumes_cdroms {} "scsi" "local0" ["sys", "data"] "/pool/ci.iso" 0 0 0 0 rfl).2.2.2

/-- C18: on a define without disks, the i-th volume (from 0, in input order)
becomes the disk after the CD-ROMs at the same offset: type "volume", device
"disk", driver qemu/qcow2, bus the given disk bus, source the pool and the
volume name, and target "hd" followed by the character 'a' + 2 + i when the
bus is "ide", "sd" followed by the character 'a' + i otherwise, whether or not
a boot image is present. -/
theorem C18_SetLocalVolumes_volume_disk (define : virDomainDefine) (diskBus pool : String)
    (volumes : List String) (bootImage : String) (readSpeed readIOPS writeSpeed writeIOPS : Nat)
    (hd : define.Devices.Disks = []) (i : Nat) (hi : i < volumes.length) :
    ∃ d, (SetLocalVolumes define diskBus pool volumes bootImage readSpeed readIOPS writeSpeed
        writeIOPS).Devices.Disks[1 + (if bootImage = "" then 0 else 1) + i]? = some d ∧
      d.DiskType = "volume" ∧ d.Device = "disk" ∧
      d.Driver = { Name := "qemu", DriverType := "qcow2" } ∧
      d.Target.Bus = diskBus ∧
      d.Source = some { Pool := pool, Volume := volumes.get ⟨i, hi⟩ } ∧
      d.ReadOnly = none ∧
      d.Target.Device =
        (if diskBus = "ide" then "hd" ++ String.singleton (fmtChar (0x61 + 2 + i))
         else "sd" ++ String.singleton (fmtChar (0x61 + i))) := by
  refine ⟨_, SetLocalVolumes_volume define diskBus pool volumes bootImage readSpeed readIOPS
    writeSpeed writeIOPS hd i hi, ?_⟩
  have hfields : ∀ (pfx : String) (c : Nat),
      let d := volumeElement diskBus pool pfx
        (volumeTune readSpeed readIOPS writeSpeed writeIOPS) c (volumes.get ⟨i, hi⟩)
      d.DiskType = "volume" ∧ d.Device = "disk" ∧
      d.Driver = { Name := "qemu", DriverType := "qcow2" } ∧ d.Target.Bus = diskBus ∧
      d.Source = some { Pool := pool, Volume := volumes.get ⟨i, hi⟩ } ∧ d.ReadOnly = none ∧
      d.Target.Device = pfx ++ String.singleton (fmtChar c) := by
    intro pfx c
    unfold volumeElement
    cases volumeTune readSpeed readIOPS writeSpeed writeIOPS <;>
      exact ⟨rfl, rfl, rfl, rfl, rfl, rfl, rfl⟩
  obtain ⟨h1, h2, h3, h4, h5, h6, h7⟩ := hfields (volumeStart diskBus).2 ((volumeStart diskBus).1 + i)
  refine ⟨h1, h2, h3, h4, h5, h6, ?_⟩
  rw [h7]
  unfold volumeStart
  by_cases hb : diskBus = "ide"
  · have hb2 : DiskBusIDE = diskBus := hb.symm
    rw [if_pos hb2, if_pos hb]
    rfl
  · have hb2 : ¬ DiskBusIDE = diskBus := fun h => hb h.symm
    rw [if_neg hb2, if_neg hb]
    rfl

/-- Witness for C18: the second volume on the IDE bus, with a boot image, is
at "hdd". -/
theorem C18_SetLocalVolumes_volume_disk_witness :
    ∃ d, (SetLocalVolumes {} "ide" "local0" ["sys", "data"] "/pool/ci.iso" 0 0 0
        0).Devices.Disks[1 + (if "/pool/ci.iso" = "" then 0 else 1) + 1]? = some d ∧
      d.DiskType = "volume" ∧ d.Device = "disk" ∧
      d.Driver = { Name := "qemu", DriverType := "qcow2" } ∧
      d.Target.Bus = "ide" ∧
      d.Source = some { Pool := "local0", Volume := ["sys", "data"].get ⟨1, by decide⟩ } ∧
      d.ReadOnly = none ∧
      d.Target.Device =
        (if "ide" = "ide" then "hd" ++ String.singleton (fmtChar (0x61 + 2 + 1))
         else "sd" ++ String.singleton (fmtChar (0x61 + 1))) :=
  C18_SetLocalVolumes_volume_disk {} "ide" "local0" ["sys", "data"] "/pool/ci.iso" 0 0 0 0 rfl 1
    (by decide)

/-- The letters of the first volume: "hdc" on the IDE bus, "sda" otherwise. -/
theorem deviceName_first_volume :
    deviceName DevicePrefixIDE (StartDeviceCharacter + IDEOffsetDISK) = "hdc" ∧
    deviceName DevicePrefixSCSI StartDeviceCharacter = "sda" := by
  decide

/-- The conversion to `int` keeps every value below 2^63. -/
theorem toInt_small (x : Nat) (h : x < 2 ^ 63) : toInt x = (x : Int) := by
  unfold toInt
  have h1 : x % 2 ^ 64 = x := Nat.mod_eq_of_lt (by omega)
  rw [h1, if_pos h]

/-- The value of `volumeTune` case by case. -/
theorem volumeTune_eq (readSpeed readIOPS writeSpeed writeIOPS : Nat) :
    volumeTune readSpeed readIOPS writeSpeed writeIOPS =
      if readSpeed = 0 ∧ readIOPS = 0 ∧ writeSpeed = 0 ∧ writeIOPS = 0 then none
      else some { ReadBytePerSecond := readSpeed, WriteBytePerSecond := writeSpeed,
                  ReadIOPerSecond := toInt readIOPS, WriteIOPerSecond := toInt writeIOPS } := by
  unfold volumeTune
  by_cases h : readSpeed = 0 ∧ readIOPS = 0 ∧ writeSpeed = 0 ∧ writeIOPS = 0
  · obtain ⟨h1, h2, h3, h4⟩ := h
    simp [h1, h2, h3, h4]
  · rw [if_neg h, if_pos]
    by_contra hc
    apply h
    simp only [not_or, ne_eq, not_not] at hc
    exact ⟨hc.2.2.1.symm, hc.2.2.2.symm, hc.1.symm, hc.2.1.symm⟩

/-- The `iotune` of a volume element is the given one. -/
theorem volumeElement_IoTune (diskBus pool devicePrefix : String)
    (ioTune : Option virDomainDiskTune) (devChar : Nat) (volumeName : String) :
    (volumeElement diskBus pool devicePrefix ioTune devChar volumeName).IoTune = ioTune := by
  unfold volumeElement
  cases ioTune <;> rfl

/-- C19 (counterexample): with a read IOPS value of 2^63 and the other three
values zero, the data disk carries an `iotune` whose read IOPS field is
-2^63, not 2^63. -/
theorem C19_iotune_iops_not_kept :
    ((SetLocalVolumes {} "scsi" "local0" ["sys"] "" 0 9223372036854775808 0
        0).Devices.Disks[1]?).bind (fun d => d.IoTune) =
      some { ReadBytePerSecond := 0, WriteBytePerSecond := 0,
             ReadIOPerSecond := -9223372036854775808, WriteIOPerSecond := 0 } ∧
    (-9223372036854775808 : Int) ≠ ((9223372036854775808 : Nat) : Int) := by
  decide

/-- C19 (amended): on a define without disks, the CD-ROM disks built by
`SetLocalVolumes` carry no `iotune`; the volume disks carry one iff one of the
four values is nonzero, and it then holds the read and write byte rates as
given and the read and write IOPS converted to `int`, which are the given
values whenever these are below 2^63. -/
theorem C19_SetLocalVolumes_iotune (define : virDomainDefine) (diskBus pool : String)
    (volumes : List String) (bootImage : String) (readSpeed readIOPS writeSpeed writeIOPS : Nat)
    (hd : define.Devices.Disks = []) :
    (∀ k, k < 1 + (if bootImage = "" then 0 else 1) →
      ∃ d, (SetLocalVolumes define diskBus pool volumes bootImage readSpeed readIOPS writeSpeed
          writeIOPS).Devices.Disks[k]? = some d ∧ d.Device = "cdrom" ∧ d.IoTune = none) ∧
    (∀ i, i < volumes.length →
      ∃ d, (SetLocalVolumes define diskBus pool volumes bootImage readSpeed readIOPS writeSpeed
          writeIOPS).Devices.Disks[1 + (if bootImage = "" then 0 else 1) + i]? = some d ∧
        d.Device = "disk" ∧
        (readSpeed = 0 ∧ readIOPS = 0 ∧ writeSpeed = 0 ∧ writeIOPS = 0 → d.IoTune = none) ∧
        (¬ (readSpeed = 0 ∧ readIOPS = 0 ∧ writeSpeed = 0 ∧ writeIOPS = 0) →
          d.IoTune = some { ReadBytePerSecond := readSpeed, WriteBytePerSecond := writeSpeed,
                            ReadIOPerSecond := toInt readIOPS,
                            WriteIOPerSecond := toInt writeIOPS })) ∧
    (readIOPS < 2 ^ 63 → toInt readIOPS = (readIOPS : Int)) ∧
    (writeIOPS < 2 ^ 63 → toInt writeIOPS = (writeIOPS : Int)) := by
  refine ⟨?_, ?_, toInt_small readIOPS, toInt_small writeIOPS⟩
  · intro k hk
    rw [SetLocalVolumes_disks, hd]
    by_cases hb : bootImage = ""
    · simp only [hb, if_true] at hk ⊢
      have hk0 : k = 0 := by omega
      subst hk0
      exact ⟨cdromElement, by simp, rfl, rfl⟩
    · simp only [hb, if_false] at hk ⊢
      have hk01 : k = 0 ∨ k = 1 := by omega
      rcases hk01 with rfl | rfl
      · exact ⟨cdromElement, by simp, rfl, rfl⟩
      · exact ⟨ciElement bootImage, by simp, rfl, rfl⟩
  · intro i hi
    refine ⟨_, SetLocalVolumes_volume define diskBus pool volumes bootImage readSpeed readIOPS
      writeSpeed writeIOPS hd i hi, ?_, ?_, ?_⟩
    · unfold volumeElement
      cases volumeTune readSpeed readIOPS writeSpeed writeIOPS <;> rfl
    · intro hz
      rw [volumeElement_IoTune, volumeTune_eq, if_pos hz]
    · intro hz
      rw [volumeElement_IoTune, volumeTune_eq, if_neg hz]

/-- Witness for C19: one volume limited to 200 read and 100 write operations
per second. -/
theorem C19_SetLocalVolumes_iotune_witness :
    ∃ d, (SetLocalVolumes {} "scsi" "local0" ["sys"] "" 0 200 0
        100).Devices.Disks[1 + (if "" = "" then 0 else 1) + 0]? = some d ∧
      d.Device = "disk" ∧
      ((0 : Nat) = 0 ∧ (200 : Nat) = 0 ∧ (0 : Nat) = 0 ∧ (100 : Nat) = 0 → d.IoTune = none) ∧
      (¬ ((0 : Nat) = 0 ∧ (200 : Nat) = 0 ∧ (0 : Nat) = 0 ∧ (100 : Nat) = 0) →
        d.IoTune = some { ReadBytePerSecond := 0, WriteBytePerSecond := 0,
                          ReadIOPerSecond := toInt 200, WriteIOPerSecond := toInt 100 }) :=
  (C19_SetLocalVolumes_iotune {} "scsi" "local0" ["sys"] "" 0 200 0 100 rfl).2.1 0 (by decide)

/-- C20: with pairwise distinct priority constants, `setCPUPriority` sets the
period to 1,000,000 and shares and quota to (2000, 1,000,000) for the high,
(1000, 500,000) for the medium and (500, 250,000) for the low priority, and
returns nil; for every other priority value it returns an error. -/
theorem C20_setCPUPriority_table (decls : PriorityDecls) (domain : virDomainDefine)
    (priority : Nat)
    (hd : decls.PriorityHigh ≠ decls.PriorityMedium ∧ decls.PriorityHigh ≠ decls.PriorityLow ∧
      decls.PriorityMedium ≠ decls.PriorityLow) :
    (priority = decls.PriorityHigh →
      setCPUPriority decls domain priority =
        ({ domain with CPUTune := { Shares := 2000, Period := 1000000, Quota := 1000000 } },
          none)) ∧
    (priority = decls.PriorityMedium →
      setCPUPriority decls domain priority =
        ({ domain with CPUTune := { Shares := 1000, Period := 1000000, Quota := 500000 } },
          none)) ∧
    (priority = decls.PriorityLow →
      setCPUPriority decls domain priority =
        ({ domain with CPUTune := { Shares := 500, Period := 1000000, Quota := 250000 } },
          none)) ∧
    (priority ≠ decls.PriorityHigh ∧ priority ≠ decls.PriorityMedium ∧
        priority ≠ decls.PriorityLow →
      ∃ err, (setCPUPriority decls domain priority).2 = some err) := by
  obtain ⟨h1, h2, h3⟩ := hd
  refine ⟨?_, ?_, ?_, ?_⟩
  · intro h
    simp [setCPUPriority, h]
  · intro h
    have hne : ¬ decls.PriorityMedium = decls.PriorityHigh := fun e => h1 e.symm
    simp [setCPUPriority, h, hne]
  · intro h
    have hne1 : ¬ decls.PriorityLow = decls.PriorityHigh := fun e => h2 e.symm
    have hne2 : ¬ decls.PriorityLow = decls.PriorityMedium := fun e => h3 e.symm
    simp [setCPUPriority, h, hne1, hne2]
  · rintro ⟨a, b, c⟩
    exact ⟨"invalid CPU priority " ++ toString priority, by simp [setCPUPriority, a, b, c]⟩

/-- Witness for C20 with the sample constants: the medium priority. -/
theorem C20_setCPUPriority_table_witness :
    setCPUPriority samplePriorityDecls {} 1 =
      ({ CPUTune := { Shares := 1000, Period := 1000000, Quota := 500000 } }, none) :=
  (C20_setCPUPriority_table samplePriorityDecls {} 1 (by decide)).2.1 rfl


/-! ## Lemmas: created events -/

theorem createdEvents_of_sentMessages (trace trace0 : List Action) (l : List (Message × String))
    (h : sentMessages trace = sentMessages trace0 ++ l) :
    createdEvents trace = createdEvents trace0 ++
      l.filter (fun m => decide (m.1.ID = MessageID.GuestCreatedEvent)) := by
  simp [createdEvents, h, List.filter_append]

theorem createdEvents_nil_of_sentMessages (trace : List Action) (h : sentMessages trace = []) :
    createdEvents trace = [] := by
  simp [createdEvents, h]

theorem createdEvents_SendMessage (env : ExecEnv) (trace : List Action) (msg : Message)
    (target : String) :
    createdEvents (SendMessage env trace msg target).1 = createdEvents trace ++
      (if msg.ID = MessageID.GuestCreatedEvent then [(msg, target)] else []) := by
  rw [createdEvents_of_sentMessages _ trace [(msg, target)] (sentMessages_SendMessage _ _ _ _)]
  by_cases h : msg.ID = MessageID.GuestCreatedEvent <;> simp [h]

theorem createdEvents_ResponseFail (env : ExecEnv) (trace : List Action) (resp : Message)
    (err target : String) (h : resp.ID ≠ MessageID.GuestCreatedEvent) :
    createdEvents (ResponseFail env trace resp err target).trace = createdEvents trace := by
  rw [createdEvents_of_sentMessages _ trace _ (sentMessages_ResponseFail _ _ _ _ _)]
  simp [h]

theorem createdEvents_cloneFail (env : ExecEnv) (trace : List Action) (config : GuestConfig)
    (event : Message) (err sender : String) (h : event.ID ≠ MessageID.GuestCreatedEvent) :
    createdEvents (cloneFail env trace config event err sender).trace = createdEvents trace := by
  rw [createdEvents_of_sentMessages _ trace _ (sentMessages_cloneFail _ _ _ _ _ _)]
  simp [h]

theorem createdEvents_startAutoStartInstance (env : ExecEnv) (trace : List Action) (id : Nat)
    (instanceID receiver : String) :
    createdEvents (startAutoStartInstance env trace id instanceID receiver) =
      createdEvents trace := by
  unfold startAutoStartInstance
  cases env.StartInstance with
  | some e => simp [createdEvents, sentMessages_append, sentMessages]
  | none =>
    simp only
    rw [createdEvents_SendMessage]
    simp [createdEvents, sentMessages_append, sentMessages]

/-- The created events of the cloning loop: none when it leaves by a failure
exit, otherwise exactly one, sent to `sender`. -/
theorem createdEvents_cloneLoop (env : ExecEnv) (id : Nat) (sender : String)
    (config : GuestConfig) (events : List CloneEvent) (event : Message) (trace : List Action)
    (hid : event.ID = MessageID.GuestUpdatedEvent) :
    (cloneEndsInFailure events = true →
      createdEvents (cloneLoop env id sender config events event trace).trace =
        createdEvents trace) ∧
    (cloneEndsInFailure events = false →
      ∃ m, m.ID = MessageID.GuestCreatedEvent ∧ m.ParamKeyInstance = some config.ID ∧
        createdEvents (cloneLoop env id sender config events event trace).trace =
          createdEvents trace ++ [(m, sender)]) := by
  have hne : event.ID ≠ MessageID.GuestCreatedEvent := by rw [hid]; decide
  induction events generalizing event trace with
  | nil =>
    refine ⟨fun _ => ?_, fun h => ?_⟩
    · simp only [cloneLoop]
      exact createdEvents_cloneFail env trace config event "timeout" sender hne
    · simp [cloneEndsInFailure] at h
  | cons e rest ih =>
    cases e with
    | tick expired =>
      cases expired with
      | true =>
        refine ⟨fun _ => ?_, fun h => ?_⟩
        · simp only [cloneLoop, if_true]
          exact createdEvents_cloneFail env trace config event "timeout" sender hne
        · simp [cloneEndsInFailure] at h
      | false =>
        simpa [cloneLoop, cloneEndsInFailure] using ih event trace hid hne
    | progress n =>
      have hid1 : ({ event with ParamKeyProgress := some n } : Message).ID =
          MessageID.GuestUpdatedEvent := hid
      have hne1 : ({ event with ParamKeyProgress := some n } : Message).ID ≠
          MessageID.GuestCreatedEvent := hne
      have hsend : createdEvents
          (SendMessage env trace { event with ParamKeyProgress := some n } sender).1 =
          createdEvents trace := by
        rw [createdEvents_SendMessage, if_neg hne1, List.append_nil]
      have := ih { event with ParamKeyProgress := some n }
        (SendMessage env trace { event with ParamKeyProgress := some n } sender).1 hid1 hne1
      simp only [cloneLoop, cloneEndsInFailure]
      rw [hsend] at this
      exact this
    | result result =>
      cases h : result.Error with
      | some err =>
        refine ⟨fun _ => ?_, fun hf => ?_⟩
        · simp only [cloneLoop, h]
          exact createdEvents_cloneFail env trace config event err sender hne
        · simp [cloneEndsInFailure, h] at hf
      | none =>
        refine ⟨fun hf => ?_, fun _ => ?_⟩
        · simp [cloneEndsInFailure, h] at hf
        · refine ⟨
            { ID := .GuestCreatedEvent, Success := true, FromSession := id,
              ParamKeyInstance := some config.ID, ParamKeyMonitor := some config.MonitorPort,
              ParamKeySecret := some config.MonitorSecret,
              ParamKeyHardware := some config.HardwareAddress }, rfl, rfl, ?_⟩
          simp only [cloneLoop, h]
          split
          · rw [createdEvents_startAutoStartInstance, createdEvents_SendMessage]
            simp
          · rw [createdEvents_SendMessage]
            simp

/-- The created events of the cloning block. -/
theorem createdEvents_cloneStage (env : ExecEnv) (id : Nat) (request : Request) (p : Parsed)
    (config : GuestConfig) (trace : List Action) :
    (config.StorageVolumes ≠ [] ∧ cloneFails env = false →
      ∃ m, m.ID = MessageID.GuestCreatedEvent ∧ m.ParamKeyInstance = some config.ID ∧
        createdEvents (cloneStage env id request p config trace).trace =
          createdEvents trace ++ [(m, request.Sender)]) ∧
    (¬ (config.StorageVolumes ≠ [] ∧ cloneFails env = false) →
      createdEvents (cloneStage env id request p config trace).trace = createdEvents trace) := by
  have hne : (progressEvent id config.ID).ID ≠ MessageID.GuestCreatedEvent := by
    show MessageID.GuestUpdatedEvent ≠ MessageID.GuestCreatedEvent
    decide
  have hread : ∀ v, createdEvents (trace ++ [Action.ReadDiskImage id config.ID v p.imageID
      p.systemSize p.imageSize p.mediaHost p.mediaPort]) = createdEvents trace := by
    intro v
    simp [createdEvents, sentMessages_append, sentMessages]
  unfold cloneStage cloneFails
  cases hvol : config.StorageVolumes with
  | nil =>
    refine ⟨fun h => absurd rfl h.1, fun _ => rfl⟩
  | cons v vs =>
    cases hs : env.cloneStart with
    | timeout =>
      refine ⟨fun h => by simp at h, fun _ => ?_⟩
      simp only
      rw [createdEvents_cloneFail _ _ _ _ _ _ hne, hread]
    | start err =>
      cases err with
      | some e =>
        refine ⟨fun h => by simp at h, fun _ => ?_⟩
        simp only
        rw [createdEvents_cloneFail _ _ _ _ _ _ hne, hread]
      | none =>
        have hloop := createdEvents_cloneLoop env id request.Sender config env.cloneEvents
          (progressEvent id config.ID)
          (trace ++ [.ReadDiskImage id config.ID v p.imageID p.systemSize p.imageSize
            p.mediaHost p.mediaPort]) rfl
        rw [hread] at hloop
        simp only
        refine ⟨fun h => hloop.2 h.2, fun h => hloop.1 ?_⟩
        cases hc : cloneEndsInFailure env.cloneEvents with
        | true => rfl
        | false => exact absurd ⟨by simp, hc⟩ h

/-- The created events of the block that ends a run without cloning. -/
theorem createdEvents_finishStage (env : ExecEnv) (id : Nat) (request : Request)
    (config : GuestConfig) (trace : List Action) :
    ∃ m, m.ID = MessageID.GuestCreatedEvent ∧ m.ParamKeyInstance = some config.ID ∧
      createdEvents (finishStage env id request config trace).trace =
        createdEvents trace ++ [(m, request.Sender)] := by
  refine ⟨
    { ID := .GuestCreatedEvent, FromSession := id, ParamKeyInstance := some config.ID,
      ParamKeyMonitor := some config.MonitorPort, ParamKeySecret := some config.MonitorSecret,
      ParamKeyHardware := some config.HardwareAddress }, rfl, rfl, ?_⟩
  unfold finishStage
  simp only
  split
  · rw [createdEvents_startAutoStartInstance, createdEvents_SendMessage]
    simp
  · rw [createdEvents_SendMessage]
    simp

/-- The created events of the define stage and what follows it, once
`CreateInstance` has succeeded. -/
theorem createdEvents_defineStage (env : ExecEnv) (id : Nat) (request : Request)
    (resp : Message) (p : Parsed) (config : GuestConfig) (trace : List Action)
    (hresp : resp.ID = MessageID.CreateGuestResponse) (h : env.CreateInstance = none) :
    (env.SendMessage (sendCount trace) = none ∧
        (p.cloneFromImage = true → config.StorageVolumes ≠ [] ∧ cloneFails env = false) →
      ∃ m, m.ID = MessageID.GuestCreatedEvent ∧ m.ParamKeyInstance = some config.ID ∧
        createdEvents (defineStage env id request resp p config trace).trace =
          createdEvents trace ++ [(m, request.Sender)]) ∧
    (¬ (env.SendMessage (sendCount trace) = none ∧
        (p.cloneFromImage = true → config.StorageVolumes ≠ [] ∧ cloneFails env = false)) →
      createdEvents (defineStage env id request resp p config trace).trace =
        createdEvents trace) := by
  have hcount : sendCount (trace ++ [Action.CreateInstance
      { config with MonitorSecret := generatePassword env p.drawn 8 } none]) = sendCount trace := by
    simp [sendCount_append, sendCount]
  have hreply : ∀ r, createdEvents (trace ++
      [Action.CreateInstance { config with MonitorSecret := generatePassword env p.drawn 8 } none,
       Action.SendMessage
        (successReply resp { config with MonitorSecret := generatePassword env p.drawn 8 })
        request.Sender r]) = createdEvents trace := by
    intro r
    have hid : (successReply resp
        { config with MonitorSecret := generatePassword env p.drawn 8 }).ID ≠
        MessageID.GuestCreatedEvent := by
      show resp.ID ≠ MessageID.GuestCreatedEvent
      rw [hresp]; decide
    simp [createdEvents, sentMessages_append, sentMessages, hid]
  unfold defineStage
  simp only [h, SendMessage, hcount, List.append_assoc, List.singleton_append]
  cases hs : env.SendMessage (sendCount trace) with
  | some e =>
    simp only
    refine ⟨fun hc => by simp at hc, fun _ => hreply _⟩
  | none =>
    simp only
    cases hc : p.cloneFromImage with
    | false =>
      constructor
      · intro _
        simp only [Bool.not_false, if_true]
        obtain ⟨m, h1, h2, h3⟩ := createdEvents_finishStage env id request
          { config with MonitorSecret := generatePassword env p.drawn 8 }
          (trace ++ [Action.CreateInstance
            { config with MonitorSecret := generatePassword env p.drawn 8 } none,
           Action.SendMessage
            (successReply resp { config with MonitorSecret := generatePassword env p.drawn 8 })
            request.Sender none])
        exact ⟨m, h1, h2, by rw [h3, hreply]⟩
      · intro hn
        exact absurd ⟨trivial, fun hf => by cases hf⟩ hn
    | true =>
      have hcl := createdEvents_cloneStage env id request p
        { config with MonitorSecret := generatePassword env p.drawn 8 }
        (trace ++ [Action.CreateInstance
          { config with MonitorSecret := generatePassword env p.drawn 8 } none,
         Action.SendMessage
          (successReply resp { config with MonitorSecret := generatePassword env p.drawn 8 })
          request.Sender none])
      rw [hreply] at hcl
      constructor
      · intro hcond
        simp only [Bool.not_true, Bool.false_eq_true, if_false]
        exact hcl.1 (hcond.2 rfl)
      · intro hn
        simp only [Bool.not_true, Bool.false_eq_true, if_false]
        exact hcl.2 (fun hcond => hn ⟨trivial, fun _ => hcond⟩)


theorem initialResponse_ID (id : Nat) (request : Request) :
    (initialResponse id request).ID ≠ MessageID.GuestCreatedEvent := by
  show MessageID.CreateGuestResponse ≠ MessageID.GuestCreatedEvent
  decide

/-- C11: a run that completes successfully, with or without cloning from an
image, hands exactly one `GuestCreatedEvent` to the sender, addressed to the
sender of the request and carrying the instance id; every other run (rejected
request, failure of the network stage, of the volume creation, of the domain
definition, of the delivery of the create response or of the cloning) hands
none. -/
theorem C11_created_event_count (decls : ServiceDecls) (env : ExecEnv) (id : Nat)
    (request : Request) :
    (runSucceeds decls env request →
      ∃ m, m.ID = MessageID.GuestCreatedEvent ∧
        (∀ p, parseRequest decls env request = .ok p → m.ParamKeyInstance = some p.config.ID) ∧
        createdEvents (Execute decls env id request).trace = [(m, request.Sender)]) ∧
    (¬ runSucceeds decls env request →
      createdEvents (Execute decls env id request).trace = []) := by
  have hcases : (∃ stop, parseRequest decls env request = .error stop) ∨
      (∃ p, parseRequest decls env request = .ok p) := by
    cases parseRequest decls env request with
    | error stop => exact Or.inl ⟨stop, rfl⟩
    | ok p => exact Or.inr ⟨p, rfl⟩
  rcases hcases with ⟨stop, hp⟩ | ⟨p, hp⟩
  · constructor
    · rintro ⟨p, h, -⟩
      rw [hp] at h
      cases h
    · intro _
      unfold Execute
      rw [hp]
      cases stop with
      | respond err =>
        simp only
        rw [createdEvents_ResponseFail _ _ _ _ _ (initialResponse_ID id request)]
        rfl
      | returnErr err => rfl
  · have hsame : ∀ p1, parseRequest decls env request = .ok p1 → p1 = p := by
      intro p1 h1
      rw [hp] at h1
      exact (Except.ok.inj h1).symm
    rw [Execute_parsed decls env id request p hp]
    by_cases hn : networkOk decls env p
    · obtain ⟨config, trace, he, hid, -, -, hm, -, hcount⟩ :=
        networkStage_ok decls env id request (initialResponse id request) p hn
      have hc0 : createdEvents trace = [] := createdEvents_nil_of_sentMessages trace hm
      rw [he]
      cases hs : env.CreateVolumes.Error with
      | some e =>
        constructor
        · rintro ⟨p1, -, -, h, -⟩
          rw [hs] at h
          cases h
        · intro _
          rw [createdEvents_of_sentMessages _ trace _
            (storageStage_fail decls env id request _ p config trace e hs).1, hc0]
          simp [failureMessage, initialResponse_ID id request]
      | none =>
        obtain ⟨config1, trace1, he1, hid1, -, -, hvol, hm1, -, hcount1⟩ :=
          storageStage_ok decls env id request (initialResponse id request) p config trace hs
        have hc1 : createdEvents trace1 = [] :=
          createdEvents_nil_of_sentMessages trace1 (by rw [hm1, hm])
        rw [he1]
        cases hd : env.CreateInstance with
        | some e =>
          constructor
          · rintro ⟨p1, -, -, -, h, -⟩
            rw [hd] at h
            cases h
          · intro _
            rw [createdEvents_of_sentMessages _ trace1 _
              (defineStage_fail env id request _ p config1 trace1 e hd).1, hc1]
            simp [failureMessage, initialResponse_ID id request]
        | none =>
          have hdef := createdEvents_defineStage env id request (initialResponse id request) p
            config1 trace1 rfl hd
          rw [hcount1, hcount, hvol, hc1] at hdef
          constructor
          · rintro ⟨p1, hp1, -, -, -, hsend, hclone⟩
            have := hsame p1 hp1
            subst this
            obtain ⟨m, h1, h2, h3⟩ := hdef.1 ⟨hsend, hclone⟩
            refine ⟨m, h1, ?_, by rw [h3]; rfl⟩
            intro p2 hp2
            have := hsame p2 hp2
            subst this
            rw [h2, hid1, hid]
          · intro hns
            apply hdef.2
            intro hcond
            exact hns ⟨p, hp, hn, hs, hd, hcond.1, hcond.2⟩
    · constructor
      · rintro ⟨p1, hp1, h, -⟩
        have := hsame p1 hp1
        subst this
        exact absurd h hn
      · intro _
        obtain ⟨err, trace, he, hm, -⟩ :=
          networkStage_fail decls env id request (initialResponse id request) p hn
        rw [he, createdEvents_ResponseFail _ _ _ _ _ (initialResponse_ID id request),
          createdEvents_nil_of_sentMessages trace hm]

/-- Witness for C11: the sample cloning request in the all-succeeding
environment completes and one created event is sent to "core". -/
theorem C11_created_event_count_witness :
    runSucceeds sampleDecls sampleEnv sampleCloneRequest ∧
    ∃ m, m.ID = MessageID.GuestCreatedEvent ∧
      (∀ p, parseRequest sampleDecls sampleEnv sampleCloneRequest = .ok p →
        m.ParamKeyInstance = some p.config.ID) ∧
      createdEvents (Execute sampleDecls sampleEnv 9 sampleCloneRequest).trace = [(m, "core")] :=
  ⟨⟨sampleCloneParsed, by decide, ⟨⟨_, rfl⟩, rfl, rfl, rfl⟩, rfl, rfl, rfl,
      fun _ => ⟨by decide, by decide⟩⟩,
   (C11_created_event_count sampleDecls sampleEnv 9 sampleCloneRequest).1
     ⟨sampleCloneParsed, by decide, ⟨⟨_, rfl⟩, rfl, rfl, rfl⟩, rfl, rfl, rfl,
      fun _ => ⟨by decide, by decide⟩⟩⟩

/-! ## Theorems: progress reports -/

/-- An `int` expression whose result lies in `[0, 2^63)` has that result as
its value. -/
theorem wrapInt_small (x : Int) (h0 : 0 ≤ x) (h : x < 2 ^ 63) : wrapInt x = x := by
  unfold wrapInt
  have h1 : x % 2 ^ 64 = x := Int.emod_eq_of_lt h0 (by omega)
  rw [h1, toInt_small _ (by omega)]
  exact Int.toNat_of_nonneg h0

/-- The progress value when nothing overflows: the quotient capped at 100. -/
theorem progressValue_eq (processed total : Int) (h0 : 0 ≤ processed)
    (hno : processed * 100 < 2 ^ 63) (ht : 0 < total) :
    progressValue processed total = some (min 100 (processed * 100 / total)).toNat := by
  have hq0 : 0 ≤ processed * 100 / total := Int.ediv_nonneg (by omega) (by omega)
  have hq1 : processed * 100 / total ≤ processed * 100 :=
    Int.ediv_le_self _ (by omega)
  unfold progressValue
  rw [if_neg (by omega), wrapInt_small _ (by omega) hno,
    Int.tdiv_eq_ediv (by omega) (by omega), wrapInt_small _ hq0 (by omega)]
  simp only
  congr 1
  unfold toUint
  by_cases h : processed * 100 / total > 100
  · rw [if_pos h, min_eq_left (by omega)]
    rfl
  · rw [if_neg h, min_eq_right (by omega), Int.emod_eq_of_lt hq0 (by omega)]

/-- C22: for a positive total and byte counters `0 <= processed1 <= processed2`
with `processed2 * 100` below 2^63 (no overflow), the progress values the
goroutines compute are `min(100, processed * 100 / total)`, the first is at
most the second, and both are at most 100. -/
theorem C22_progress_bounded_monotone (total processed1 processed2 : Int) (ht : 0 < total)
    (h0 : 0 ≤ processed1) (h12 : processed1 ≤ processed2) (hno : processed2 * 100 < 2 ^ 63) :
    ∃ v1 v2, progressValue processed1 total = some v1 ∧
      progressValue processed2 total = some v2 ∧
      (v1 : Int) = min 100 (processed1 * 100 / total) ∧
      (v2 : Int) = min 100 (processed2 * 100 / total) ∧
      v1 ≤ v2 ∧ v2 ≤ 100 := by
  have hq1 : 0 ≤ processed1 * 100 / total := Int.ediv_nonneg (by omega) (by omega)
  have hq2 : 0 ≤ processed2 * 100 / total := Int.ediv_nonneg (by omega) (by omega)
  have hmono : processed1 * 100 / total ≤ processed2 * 100 / total :=
    Int.ediv_le_ediv ht (by omega)
  refine ⟨_, _, progressValue_eq processed1 total h0 (by omega) ht,
    progressValue_eq processed2 total (by omega) hno ht, ?_, ?_, ?_, ?_⟩
  · exact Int.toNat_of_nonneg (le_min (by omega) hq1)
  · exact Int.toNat_of_nonneg (le_min (by omega) hq2)
  · exact Int.toNat_le_toNat (min_le_min le_rfl hmono)
  · have : min 100 (processed2 * 100 / total) ≤ 100 := min_le_left _ _
    omega

/-- Witness for C22: half and twice a total of 1024 bytes give 50 and 100. -/
theorem C22_progress_bounded_monotone_witness :
    ∃ v1 v2, progressValue 512 1024 = some v1 ∧ progressValue 2048 1024 = some v2 ∧
      (v1 : Int) = min 100 (512 * 100 / 1024) ∧ (v2 : Int) = min 100 (2048 * 100 / 1024) ∧
      v1 ≤ v2 ∧ v2 ≤ 100 :=
  C22_progress_bounded_monotone 1024 512 2048 (by decide) (by decide) (by decide) (by decide)

/-- A progress goroutine panics exactly when its divisor is zero and a tick
reaches it before the value on `notifyChan`. -/
theorem progressRoutine_panicked (id : Nat) (total : Int) (signals : List ProgressSignal)
    (updates : List SchedulerUpdate) :
    (progressRoutine id total signals updates).status = .panicked ↔
      total = 0 ∧ ∃ processed, signals.head? = some (.tick processed) := by
  induction signals generalizing updates with
  | nil => simp [progressRoutine]
  | cons s rest ih =>
    cases s with
    | notify => simp [progressRoutine]
    | tick processed =>
      by_cases ht : total = 0
      · simp [progressRoutine, progressValue, ht]
      · have hv : ∃ v, progressValue processed total = some v := by
          simp [progressValue, ht]
        obtain ⟨v, hv⟩ := hv
        simp only [progressRoutine, hv, ih, ht, false_and]

/-- C23 (the failing inputs): a read task with image size 0, and a write task
on an empty file, panic with a division by zero at the first tick of the
progress goroutine, whatever the byte counter is; a progress goroutine panics
exactly when its divisor is zero and a tick comes before the stop signal. -/
theorem C23_progress_division_by_zero (id : Nat) (processed : Int)
    (rest : List ProgressSignal) :
    (readProgress id 0 (.tick processed :: rest)).status = .panicked ∧
    (writeProgress id 0 (.tick processed :: rest)).status = .panicked ∧
    (∀ imageSize signals, (readProgress id imageSize signals).status = .panicked ↔
      toInt imageSize = 0 ∧ ∃ p, signals.head? = some (.tick p)) ∧
    (∀ totalSize signals, (writeProgress id totalSize signals).status = .panicked ↔
      totalSize = 0 ∧ ∃ p, signals.head? = some (.tick p)) := by
  refine ⟨?_, ?_, ?_, ?_⟩
  · unfold readProgress
    rw [progressRoutine_panicked]
    exact ⟨by decide, processed, rfl⟩
  · unfold writeProgress
    rw [progressRoutine_panicked]
    exact ⟨rfl, processed, rfl⟩
  · intro imageSize signals
    unfold readProgress
    exact progressRoutine_panicked _ _ _ _
  · intro totalSize signals
    unfold writeProgress
    exact progressRoutine_panicked _ _ _ _

/-! ## Theorems: completion of the scheduler tasks -/

/-- The deferred function of the write, resize and shrink tasks ends a trace
without sends by the event and then the result, both with the error. -/
theorem endsWithCompletion_taskDeferred (calls : List IOAction) (err : GoError)
    (event : schedulerEvent) (result : SchedulerResult) (hevent : event.Error = none)
    (hresult : result.Error = none) (hc : ∀ a ∈ calls, a.isSend = false) :
    endsWithCompletion (calls ++ taskDeferred err event result) event.EventType result.ID err := by
  cases err with
  | none => exact ⟨calls, event, result, rfl, hc, rfl, rfl, hevent, hresult⟩
  | some e => exact ⟨calls, _, _, rfl, hc, rfl, rfl, rfl, rfl⟩

/-- The same for the deferred function of the read task. -/
theorem endsWithCompletion_readDeferred (calls : List IOAction) (err : GoError)
    (event : schedulerEvent) (result : SchedulerResult) (hevent : event.Error = none)
    (hresult : result.Error = none) (hc : ∀ a ∈ calls, a.isSend = false) :
    endsWithCompletion (calls ++ readDeferred err event result) event.EventType result.ID err := by
  cases err with
  | none => exact ⟨calls, event, result, rfl, hc, rfl, rfl, hevent, hresult⟩
  | some e => exact ⟨calls, _, _, rfl, hc, rfl, rfl, rfl, rfl⟩

/-- Every run of the write task that returns ends with its event and result. -/
theorem handleWriteTask_completion (env : WriteEnv) (id : Nat)
    (group volume path image host : String) (port : Nat) (run : TaskRun)
    (h : handleWriteTask env id group volume path image host port = some run) :
    endsWithCompletion run.trace .schedulerEventWriteDiskCompleted id run.ret := by
  unfold handleWriteTask at h
  simp only at h
  repeat' split at h
  all_goals
    cases h <;>
      exact endsWithCompletion_taskDeferred _ _ _ _ rfl rfl (by simp [IOAction.isSend])

/-- The write task returns unless `http.NewRequest` fails. -/
theorem handleWriteTask_returns (env : WriteEnv) (id : Nat)
    (group volume path image host : String) (port : Nat) (h : env.newRequest = none) :
    ∃ run, handleWriteTask env id group volume path image host port = some run := by
  unfold handleWriteTask
  simp only [h]
  repeat' split
  all_goals exact ⟨_, rfl⟩

/-- The calls of the block run at the end of the stream hold no send. -/
theorem readFinish_isSend (env : ReadEnv) (path : String) (targetSize : Nat)
    (checkSum : String) (processed : Nat) (trace : List IOAction)
    (h : ∀ a ∈ trace, a.isSend = false) :
    ∀ a ∈ (readFinish env path targetSize checkSum processed trace).trace, a.isSend = false := by
  unfold readFinish
  simp only
  repeat' split
  all_goals simpa [IOAction.isSend, or_imp, forall_and] using h

/-- The calls of the receive loop hold no send. -/
theorem readLoop_isSend (env : ReadEnv) (path : String) (targetSize : Nat) (checkSum : String)
    (steps : List ReadStep) (processed : Nat) (trace : List IOAction) (exit : ReadLoopExit)
    (hl : readLoop env path targetSize checkSum steps processed trace = some exit)
    (h : ∀ a ∈ trace, a.isSend = false) : ∀ a ∈ exit.trace, a.isSend = false := by
  induction steps generalizing processed trace with
  | nil => cases hl
  | cons step rest ih =>
    have hw : ∀ a ∈ trace ++ [IOAction.write step.n], a.isSend = false := by
      simpa [IOAction.isSend, or_imp, forall_and] using h
    unfold readLoop at hl
    simp only at hl
    repeat' split at hl
    all_goals first
      | (cases hl; first | exact hw | exact h | exact readFinish_isSend _ _ _ _ _ _ hw
                         | exact readFinish_isSend _ _ _ _ _ _ h)
      | exact ih _ _ hl hw
      | exact ih _ _ hl h

/-- The receive loop is left when the stream ends. -/
theorem readLoop_returns (env : ReadEnv) (path : String) (targetSize : Nat) (checkSum : String)
    (steps : List ReadStep) (processed : Nat) (trace : List IOAction) (h : streamEnds steps) :
    ∃ exit, readLoop env path targetSize checkSum steps processed trace = some exit := by
  induction steps generalizing processed trace with
  | nil =>
    obtain ⟨step, hm, -⟩ := h
    cases hm
  | cons step rest ih =>
    have hrest : (step.err = .nil ∧ (step.n > 0 → step.writeError = none)) → streamEnds rest := by
      rintro ⟨h1, h2⟩
      obtain ⟨s, hm, hs⟩ := h
      rcases List.mem_cons.mp hm with rfl | hm
      · rcases hs with hs | ⟨hn, hs⟩
        · exact absurd h1 hs
        · exact absurd (h2 hn) hs
      · exact ⟨s, hm, hs⟩
    unfold readLoop
    simp only
    split
    · rename_i hn
      split
      · exact ⟨_, rfl⟩
      · rename_i hwr
        split
        · exact ⟨_, rfl⟩
        · exact ⟨_, rfl⟩
        · rename_i he
          exact ih _ _ (hrest ⟨he, fun _ => hwr⟩)
    · rename_i hn
      split
      · exact ⟨_, rfl⟩
      · exact ⟨_, rfl⟩
      · rename_i he
        exact ih _ _ (hrest ⟨he, fun h0 => absurd h0 hn⟩)

/-- Every run of the read task that returns ends with its event and result. -/
theorem handleReadTask_completion (env : ReadEnv) (id : Nat) (group volume path image : String)
    (imageSize targetSize : Nat) (host : String) (port : Nat) (run : ReadTaskRun)
    (h : handleReadTask env id group volume path image imageSize targetSize host port = some run) :
    endsWithCompletion run.trace .schedulerEventReadDiskCompleted id run.ret := by
  unfold handleReadTask at h
  simp only at h
  split at h
  · cases h
    exact endsWithCompletion_readDeferred _ _ _ _ rfl rfl (by simp [IOAction.isSend])
  · split at h
    · cases h
      exact endsWithCompletion_readDeferred _ _ _ _ rfl rfl (by simp [IOAction.isSend])
    · split at h
      · cases h
      · rename_i exit hl
        cases h
        have hs := readLoop_isSend _ _ _ _ _ _ _ _ hl (by simp [IOAction.isSend])
        exact endsWithCompletion_readDeferred _ _ _ _ rfl rfl
          (by simpa [IOAction.isSend, or_imp, forall_and] using hs)

/-- The read task returns when the stream ends. -/
theorem handleReadTask_returns (env : ReadEnv) (id : Nat) (group volume path image : String)
    (imageSize targetSize : Nat) (host : String) (port : Nat) (h : streamEnds env.steps) :
    ∃ run, handleReadTask env id group volume path image imageSize targetSize host port
      = some run := by
  unfold handleReadTask
  simp only
  split
  · exact ⟨_, rfl⟩
  · split
    · exact ⟨_, rfl⟩
    · rename_i checkSum hg
      obtain ⟨exit, he⟩ := readLoop_returns env path targetSize checkSum env.steps 0
        [.openFile path, .get host port image] h
      rw [he]
      exact ⟨_, rfl⟩

/-- The resize task ends with its event and result. -/
theorem handleResizeTask_completion (env : FileEnv) (id : Nat) (group volume path : String)
    (size : Nat) :
    endsWithCompletion (handleResizeTask env id group volume path size).trace
      .schedulerEventResizeDiskCompleted id (handleResizeTask env id group volume path size).ret := by
  unfold handleResizeTask
  simp only
  split <;>
    exact endsWithCompletion_taskDeferred _ _ _ _ rfl rfl (by simp [IOAction.isSend])

/-- The shrink task ends with its event and result. -/
theorem handleShrinkTask_completion (env : ShrinkEnv) (files : Files) (id : Nat)
    (group volume path : String) :
    endsWithCompletion (handleShrinkTask env files id group volume path).trace
      .schedulerEventShrinkDiskCompleted id (handleShrinkTask env files id group volume path).ret := by
  unfold handleShrinkTask
  simp only
  repeat' split
  all_goals exact endsWithCompletion_taskDeferred _ _ _ _ rfl rfl (by simp [IOAction.isSend])

/-- Every run of the write, read, resize and shrink task that returns, with or
without an error, has sent exactly one completion event and exactly one
result, as its last two actions, the event first, and both carry the returned
error; the resize and shrink tasks always return, the write task returns
unless `http.NewRequest` fails, and the read task returns when the stream
ends. -/
theorem returning_tasks_send_completion (wenv : WriteEnv) (renv : ReadEnv) (fenv : FileEnv)
    (senv : ShrinkEnv) (files : Files) (id : Nat) (group volume path image host : String)
    (port imageSize targetSize size : Nat) :
    (∀ run, handleWriteTask wenv id group volume path image host port = some run →
      endsWithCompletion run.trace .schedulerEventWriteDiskCompleted id run.ret) ∧
    (wenv.newRequest = none →
      ∃ run, handleWriteTask wenv id group volume path image host port = some run) ∧
    (∀ run, handleReadTask renv id group volume path image imageSize targetSize host port
        = some run →
      endsWithCompletion run.trace .schedulerEventReadDiskCompleted id run.ret) ∧
    (streamEnds renv.steps →
      ∃ run, handleReadTask renv id group volume path image imageSize targetSize host port
        = some run) ∧
    endsWithCompletion (handleResizeTask fenv id group volume path size).trace
      .schedulerEventResizeDiskCompleted id (handleResizeTask fenv id group volume path size).ret ∧
    endsWithCompletion (handleShrinkTask senv files id group volume path).trace
      .schedulerEventShrinkDiskCompleted id
      (handleShrinkTask senv files id group volume path).ret :=
  ⟨fun run h => handleWriteTask_completion _ _ _ _ _ _ _ _ run h,
   handleWriteTask_returns _ _ _ _ _ _ _ _,
   fun run h => handleReadTask_completion _ _ _ _ _ _ _ _ _ _ run h,
   handleReadTask_returns _ _ _ _ _ _ _ _ _ _,
   handleResizeTask_completion _ _ _ _ _ _,
   handleShrinkTask_completion _ _ _ _ _ _⟩

/-- An accepted upload, and a download whose stream ends, send their event
and result. -/
theorem returning_tasks_send_completion_sample :
    (∃ run, handleWriteTask sampleWriteEnv 7 "g" "v" "/pool/v.qcow2" "img" "h" 443 = some run ∧
      endsWithCompletion run.trace .schedulerEventWriteDiskCompleted 7 run.ret) ∧
    (∃ run, handleReadTask corruptedReadEnv 7 "g" "v" "/pool/v.qcow2" "img" 4 1024 "h" 443
        = some run ∧
      endsWithCompletion run.trace .schedulerEventReadDiskCompleted 7 run.ret) :=
  have h := returning_tasks_send_completion sampleWriteEnv corruptedReadEnv sampleFileEnv
    sampleShrinkEnv sampleFiles 7 "g" "v" "/pool/v.qcow2" "img" "h" 443 4 1024 2048
  ⟨(h.2.1 rfl).elim fun run hr => ⟨run, hr, h.1 run hr⟩,
   (h.2.2.2.1 ⟨{ n := 0, err := .eof }, by decide, Or.inl (by decide)⟩).elim
     fun run hr => ⟨run, hr, h.2.2.1 run hr⟩⟩

/-- C21 (the failing input): a write task whose file is found, hashed and
opened and whose `http.NewRequest` fails, as it does for the host "bad host",
never returns, so it sends neither its completion event nor its result:
`finishRoutine` waits for the goroutine that writes into a pipe nobody reads.
This is the only way in which a write task fails to return; every other error
exit sends the event and the result. -/
theorem C21_write_task_request_failure_no_completion (env : WriteEnv) (id : Nat)
    (group volume path image host : String) (port : Nat) :
    handleWriteTask badHostEnv 7 "g" "v" "/pool/v.qcow2" "img" "bad host" 443 = none ∧
    (handleWriteTask env id group volume path image host port = none ↔
      (∃ size, env.stat = .ok size) ∧ (∃ sum, env.generateCheckSum = .ok sum) ∧
      env.openFile = none ∧ ∃ e, env.newRequest = some e) := by
  refine ⟨rfl, ?_⟩
  unfold handleWriteTask
  simp only
  repeat' split
  all_goals simp_all

/-! ## Theorems: shrink task -/

/-- The path of the shrunk file differs from the path of the image. -/
theorem shrankPath_ne (path : String) : path ++ "_shrink" ≠ path := by
  intro h
  have hl := congrArg String.length h
  simp only [String.length_append] at hl
  have h7 : "_shrink".length = 7 := by decide
  omega

/-- C24 (counterexample): when the conversion and the removal of the original
succeed and the renaming fails, the shrink task returns the error of the
renaming and the original image is no longer at the task's path; the converted
file is left at the path with the suffix "_shrink". -/
theorem C24_shrink_rename_failure_original_gone :
    sampleFiles "/pool/v.qcow2" = some "image" ∧
    (handleShrinkTask renameFailEnv sampleFiles 7 "g" "v" "/pool/v.qcow2").ret =
      some "rename /pool/v.qcow2_shrink /pool/v.qcow2: permission denied" ∧
    (handleShrinkTask renameFailEnv sampleFiles 7 "g" "v" "/pool/v.qcow2").files "/pool/v.qcow2"
      = none ∧
    (handleShrinkTask renameFailEnv sampleFiles 7 "g" "v" "/pool/v.qcow2").files
      "/pool/v.qcow2_shrink" = some "shrunk" := by
  refine ⟨?_, ?_, ?_, ?_⟩ <;> decide

/-- C24 (amended): a shrink that fails in the conversion or in removing the
original returns that error and leaves at the task's path what was there; a
shrink that fails in the renaming returns that error after the original has
been removed, the converted file staying at the path with the suffix
"_shrink"; a shrink without failure returns nil and leaves the converted file
at the task's path and nothing at the suffixed path. -/
theorem C24_handleShrinkTask_files (env : ShrinkEnv) (files : Files) (id : Nat)
    (group volume path : String) :
    (∀ output, env.convert = .error output →
      (handleShrinkTask env files id group volume path).ret = some output ∧
      (handleShrinkTask env files id group volume path).files path = files path) ∧
    (∀ converted e, env.convert = .ok converted → env.remove = some e →
      (handleShrinkTask env files id group volume path).ret = some e ∧
      (handleShrinkTask env files id group volume path).files path = files path ∧
      (handleShrinkTask env files id group volume path).files (path ++ "_shrink")
        = some converted) ∧
    (∀ converted e, env.convert = .ok converted → env.remove = none → env.rename = some e →
      (handleShrinkTask env files id group volume path).ret = some e ∧
      (handleShrinkTask env files id group volume path).files path = none ∧
      (handleShrinkTask env files id group volume path).files (path ++ "_shrink")
        = some converted) ∧
    (∀ converted, env.convert = .ok converted → env.remove = none → env.rename = none →
      (handleShrinkTask env files id group volume path).ret = none ∧
      (handleShrinkTask env files id group volume path).files path = some converted ∧
      (handleShrinkTask env files id group volume path).files (path ++ "_shrink") = none) := by
  have hne := shrankPath_ne path
  have hne2 : path ≠ path ++ "_shrink" := fun h => hne h.symm
  refine ⟨?_, ?_, ?_, ?_⟩
  · intro output hc
    simp [handleShrinkTask, hc]
  · intro converted e hc hr
    simp [handleShrinkTask, hc, hr, writeFile, hne2]
  · intro converted e hc hr hn
    simp [handleShrinkTask, hc, hr, hn, writeFile, removeFile, hne]
  · intro converted hc hr hn
    simp [handleShrinkTask, hc, hr, hn, writeFile, removeFile, renameFile, hne]

/-- Witness for C24: the four cases on the pool with one image. -/
theorem C24_handleShrinkTask_files_witness :
    ((handleShrinkTask sampleShrinkEnv sampleFiles 7 "g" "v" "/pool/v.qcow2").ret = none ∧
      (handleShrinkTask sampleShrinkEnv sampleFiles 7 "g" "v" "/pool/v.qcow2").files
        "/pool/v.qcow2" = some "shrunk" ∧
      (handleShrinkTask sampleShrinkEnv sampleFiles 7 "g" "v" "/pool/v.qcow2").files
        ("/pool/v.qcow2" ++ "_shrink") = none) ∧
    ((handleShrinkTask renameFailEnv sampleFiles 7 "g" "v" "/pool/v.qcow2").ret =
        some "rename /pool/v.qcow2_shrink /pool/v.qcow2: permission denied" ∧
      (handleShrinkTask renameFailEnv sampleFiles 7 "g" "v" "/pool/v.qcow2").files
        "/pool/v.qcow2" = none ∧
      (handleShrinkTask renameFailEnv sampleFiles 7 "g" "v" "/pool/v.qcow2").files
        ("/pool/v.qcow2" ++ "_shrink") = some "shrunk") :=
  ⟨(C24_handleShrinkTask_files sampleShrinkEnv sampleFiles 7 "g" "v" "/pool/v.qcow2").2.2.2
      "shrunk" rfl rfl rfl,
   (C24_handleShrinkTask_files renameFailEnv sampleFiles 7 "g" "v" "/pool/v.qcow2").2.2.1
      "shrunk" _ rfl rfl rfl⟩

/-! ## Theorems: snapshot tasks -/

/-- The snapshot-restore loop on a list in two parts: the second part runs
after the first when the first runs to its end. -/
theorem restoreSnapshotLoop_append (env : FileEnv) (pre rest : List snapshotTarget)
    (trace : List IOAction) :
    restoreSnapshotLoop env (pre ++ rest) trace =
      match restoreSnapshotLoop env pre trace with
      | .ok reached => restoreSnapshotLoop env rest reached
      | .error stop => .error stop := by
  induction pre generalizing trace with
  | nil => rfl
  | cons target pre ih =>
    simp only [List.cons_append, restoreSnapshotLoop]
    split
    · rfl
    · split
      · rfl
      · split
        · rfl
        · exact ih _

/-- A snapshot-restore loop that runs to its end has made the three calls of
every target, in order. -/
theorem restoreSnapshotLoop_ok (env : FileEnv) (targets : List snapshotTarget)
    (trace reached : List IOAction) (h : restoreSnapshotLoop env targets trace = .ok reached) :
    reached = trace ++ targets.flatMap restoreCalls := by
  induction targets generalizing trace with
  | nil =>
    simp only [restoreSnapshotLoop] at h
    simp [← Except.ok.inj h]
  | cons target rest ih =>
    simp only [restoreSnapshotLoop] at h
    split at h
    · cases h
    · split at h
      · cases h
      · split at h
        · cases h
        · rw [ih _ h]
          simp [List.flatMap_cons, restoreCalls, imageFormatDefault, imageFormatQCOW2]

/-- The calls of a snapshot-restore loop begin with the calls made before it. -/
theorem restoreSnapshotLoop_extends (event : schedulerEvent) (env : FileEnv)
    (targets : List snapshotTarget) (trace : List IOAction) :
    ∃ rest, (snapshotReturn event (restoreSnapshotLoop env targets trace)).trace
      = trace ++ rest := by
  induction targets generalizing trace with
  | nil => exact ⟨_, rfl⟩
  | cons target rest ih =>
    simp only [restoreSnapshotLoop]
    split
    · exact ⟨_, by simp [snapshotReturn]; rfl⟩
    · split
      · exact ⟨_, by simp [snapshotReturn]; rfl⟩
      · split
        · exact ⟨_, by simp [snapshotReturn]; rfl⟩
        · obtain ⟨r, hr⟩ := ih
            (trace ++ [.stat target.Backing] ++ [.remove target.Current] ++
              [.backingImage target.Current target.Backing imageFormatDefault])
          exact ⟨[.stat target.Backing] ++ ([.remove target.Current] ++
            ([.backingImage target.Current target.Backing imageFormatDefault] ++ r)),
            by rw [hr]; simp only [List.append_assoc]⟩

/-- C26: when the snapshot-restore task reaches a target, after the calls
`reached` for the targets before it, and `os.Stat` finds that its backing file
does not exist, the task makes no further call, so it does not remove the
target's current file, and it returns the error "invalid backing path", which
the completion event carries; when the backing file is found, the task calls
`os.Remove` on current and, once that has succeeded, creates the image at
current backed by backing (format qcow2); a failing removal ends the task with
its error. -/
theorem C26_restore_snapshot_target (env : FileEnv) (group snapshot : String)
    (pre : List snapshotTarget) (target : snapshotTarget) (post : List snapshotTarget)
    (reached : List IOAction) (hpre : restoreSnapshotLoop env pre [] = .ok reached) :
    reached = pre.flatMap restoreCalls ∧
    (env.stat reached target.Backing = .notExist →
      (handleRestoreSnapshotTask env group snapshot (pre ++ target :: post)).ret =
        some ("invalid backing path '" ++ target.Backing ++ "'") ∧
      (handleRestoreSnapshotTask env group snapshot (pre ++ target :: post)).trace =
        reached ++ [.stat target.Backing,
          .sendEvent { EventType := .schedulerEventRestoreSnapshotCompleted, Group := group,
                       Snapshot := snapshot,
                       Error := some ("invalid backing path '" ++ target.Backing ++ "'") }]) ∧
    (env.stat reached target.Backing ≠ .notExist →
      (∀ e, env.answer (reached ++ [.stat target.Backing]) (.remove target.Current) = some e →
        (handleRestoreSnapshotTask env group snapshot (pre ++ target :: post)).ret = some e ∧
        (handleRestoreSnapshotTask env group snapshot (pre ++ target :: post)).trace =
          reached ++ [.stat target.Backing, .remove target.Current,
            .sendEvent { EventType := .schedulerEventRestoreSnapshotCompleted, Group := group,
                         Snapshot := snapshot, Error := some e }]) ∧
      (env.answer (reached ++ [.stat target.Backing]) (.remove target.Current) = none →
        ∃ rest, (handleRestoreSnapshotTask env group snapshot (pre ++ target :: post)).trace =
          reached ++ [.stat target.Backing, .remove target.Current,
            .backingImage target.Current target.Backing "qcow2"] ++ rest)) := by
  have hloop : restoreSnapshotLoop env (pre ++ target :: post) [] =
      restoreSnapshotLoop env (target :: post) reached := by
    rw [restoreSnapshotLoop_append, hpre]
  refine ⟨by simpa using restoreSnapshotLoop_ok env pre [] reached hpre, ?_, ?_⟩
  · intro hs
    unfold handleRestoreSnapshotTask
    rw [hloop]
    simp only [restoreSnapshotLoop, hs, if_true]
    exact ⟨rfl, by simp [snapshotReturn, snapshotDeferred]⟩
  · intro hs
    constructor
    · intro e he
      unfold handleRestoreSnapshotTask
      rw [hloop]
      simp only [restoreSnapshotLoop, hs, if_false, he]
      exact ⟨rfl, by simp [snapshotReturn, snapshotDeferred]⟩
    · intro he
      unfold handleRestoreSnapshotTask
      rw [hloop]
      simp only [restoreSnapshotLoop, hs, if_false, he]
      split
      · exact ⟨_, by simp [snapshotReturn, imageFormatDefault, imageFormatQCOW2]; rfl⟩
      · obtain ⟨r, hr⟩ := restoreSnapshotLoop_extends
            { EventType := .schedulerEventRestoreSnapshotCompleted, Group := group,
              Snapshot := snapshot } env post
            (reached ++ [.stat target.Backing] ++ [.remove target.Current] ++
              [.backingImage target.Current target.Backing imageFormatDefault])
        exact ⟨r, by rw [hr]; simp [imageFormatDefault, imageFormatQCOW2]⟩

/-- Witness for C26: the second of two targets has no backing file. -/
theorem C26_restore_snapshot_target_witness :
    (handleRestoreSnapshotTask missingBackingEnv "g" "s1" sampleTargets).ret =
      some "invalid backing path '/pool/b.s1'" ∧
    (handleRestoreSnapshotTask missingBackingEnv "g" "s1" sampleTargets).trace =
      [.stat "/pool/a.s1", .remove "/pool/a", .backingImage "/pool/a" "/pool/a.s1" "qcow2",
       .stat "/pool/b.s1",
       .sendEvent { EventType := .schedulerEventRestoreSnapshotCompleted, Group := "g",
                    Snapshot := "s1", Error := some "invalid backing path '/pool/b.s1'" }] :=
  (C26_restore_snapshot_target missingBackingEnv "g" "s1"
    [{ Current := "/pool/a", Backing := "/pool/a.s1", Backed := "/pool/a.s0" }]
    { Current := "/pool/b", Backing := "/pool/b.s1", Backed := "/pool/b.s0" } []
    [.stat "/pool/a.s1", .remove "/pool/a", .backingImage "/pool/a" "/pool/a.s1" "qcow2"]
    (by decide)).2.1 (by decide)

/-- The snapshot-delete loop on a list in two parts: the second part runs
after the first when the first runs to its end. -/
theorem deleteSnapshotLoop_append (env : FileEnv) (pre rest : List snapshotTarget)
    (trace : List IOAction) :
    deleteSnapshotLoop env (pre ++ rest) trace =
      match deleteSnapshotLoop env pre trace with
      | .ok reached => deleteSnapshotLoop env rest reached
      | .error stop => .error stop := by
  induction pre generalizing trace with
  | nil => rfl
  | cons target pre ih =>
    simp only [List.cons_append, deleteSnapshotLoop]
    split
    · exact ih _
    · split
      · rfl
      · split
        · rfl
        · split
          · rfl
          · exact ih _

/-- On targets that all have an empty `Backed` the snapshot-delete loop runs
to its end, one `os.Remove` per target, whatever the calls answer. -/
theorem deleteSnapshotLoop_remove_only (env : FileEnv) (targets : List snapshotTarget)
    (trace : List IOAction) (h : ∀ t ∈ targets, t.Backed = "") :
    deleteSnapshotLoop env targets trace =
      .ok (trace ++ targets.map (fun t => IOAction.remove t.Current)) := by
  induction targets generalizing trace with
  | nil => simp [deleteSnapshotLoop]
  | cons target rest ih =>
    have ht : "" = target.Backed := (h target (List.mem_cons_self _ _)).symm
    simp only [deleteSnapshotLoop, if_pos ht]
    rw [ih _ (fun t hm => h t (List.mem_cons_of_mem _ hm))]
    simp

/-- C27: when the snapshot-delete task reaches a target after the calls
`reached`.  With an empty `Backed` it calls `os.Remove` on current and goes on
with the remaining targets whatever that call answers, and a task whose
targets all have an empty `Backed` returns nil with an event without error.
With a non-empty `Backed` it calls `commitImage(backed)`, `os.Remove(backed)`
and `os.Rename(current, backed)` in that order; the first of them that fails
ends the task, no further call is made, and the task returns that failure,
wrapped in a message naming the step, which the completion event carries; when
none fails the task goes on with the remaining targets. -/
theorem C27_delete_snapshot_target (env : FileEnv) (group snapshot : String)
    (pre : List snapshotTarget) (target : snapshotTarget) (post : List snapshotTarget)
    (reached : List IOAction) (hpre : deleteSnapshotLoop env pre [] = .ok reached) :
    (target.Backed = "" →
      deleteSnapshotLoop env (pre ++ target :: post) [] =
        deleteSnapshotLoop env post (reached ++ [.remove target.Current])) ∧
    ((∀ t ∈ pre ++ target :: post, t.Backed = "") →
      (handleDeleteSnapshotTask env group snapshot (pre ++ target :: post)).ret = none ∧
      (handleDeleteSnapshotTask env group snapshot (pre ++ target :: post)).trace =
        (pre ++ target :: post).map (fun t => IOAction.remove t.Current) ++
          [.sendEvent { EventType := .schedulerEventDeleteSnapshotCompleted, Group := group,
                        Snapshot := snapshot, Error := none }]) ∧
    (target.Backed ≠ "" →
      (∀ e, env.answer reached (.commitImage target.Backed) = some e →
        handleDeleteSnapshotTask env group snapshot (pre ++ target :: post) =
          { ret := some ("commit image '" ++ target.Backed ++ "' fail when delete snapshot: " ++ e),
            trace := reached ++ [.commitImage target.Backed,
              .sendEvent
                { EventType := .schedulerEventDeleteSnapshotCompleted, Group := group,
                  Snapshot := snapshot,
                  Error := some ("commit image '" ++ target.Backed ++
                    "' fail when delete snapshot: " ++ e) }] }) ∧
      (∀ e, env.answer reached (.commitImage target.Backed) = none →
        env.answer (reached ++ [.commitImage target.Backed]) (.remove target.Backed) = some e →
        handleDeleteSnapshotTask env group snapshot (pre ++ target :: post) =
          { ret := some ("delete snapshot file '" ++ target.Backed ++
              "' fail after merging: " ++ e),
            trace := reached ++ [.commitImage target.Backed, .remove target.Backed,
              .sendEvent
                { EventType := .schedulerEventDeleteSnapshotCompleted, Group := group,
                  Snapshot := snapshot,
                  Error := some ("delete snapshot file '" ++ target.Backed ++
                    "' fail after merging: " ++ e) }] }) ∧
      (∀ e, env.answer reached (.commitImage target.Backed) = none →
        env.answer (reached ++ [.commitImage target.Backed]) (.remove target.Backed) = none →
        env.answer (reached ++ [.commitImage target.Backed, .remove target.Backed])
          (.rename target.Current target.Backed) = some e →
        handleDeleteSnapshotTask env group snapshot (pre ++ target :: post) =
          { ret := some ("rename snapshot file '" ++ target.Current ++
              "' fail after merging: " ++ e),
            trace := reached ++ mergeCalls target ++
              [.sendEvent
                { EventType := .schedulerEventDeleteSnapshotCompleted, Group := group,
                  Snapshot := snapshot,
                  Error := some ("rename snapshot file '" ++ target.Current ++
                    "' fail after merging: " ++ e) }] }) ∧
      (env.answer reached (.commitImage target.Backed) = none →
        env.answer (reached ++ [.commitImage target.Backed]) (.remove target.Backed) = none →
        env.answer (reached ++ [.commitImage target.Backed, .remove target.Backed])
          (.rename target.Current target.Backed) = none →
        deleteSnapshotLoop env (pre ++ target :: post) [] =
          deleteSnapshotLoop env post (reached ++ mergeCalls target))) := by
  have hloop : deleteSnapshotLoop env (pre ++ target :: post) [] =
      deleteSnapshotLoop env (target :: post) reached := by
    rw [deleteSnapshotLoop_append, hpre]
  refine ⟨?_, ?_, ?_⟩
  · intro hb
    rw [hloop]
    simp [deleteSnapshotLoop, hb]
  · intro hall
    unfold handleDeleteSnapshotTask
    rw [deleteSnapshotLoop_remove_only env _ [] hall]
    exact ⟨rfl, rfl⟩
  · intro hb
    have hb2 : ¬ "" = target.Backed := fun h => hb h.symm
    refine ⟨?_, ?_, ?_, ?_⟩
    · intro e h1
      unfold handleDeleteSnapshotTask
      rw [hloop]
      simp [deleteSnapshotLoop, hb2, h1, snapshotReturn, snapshotDeferred]
    · intro e h1 h2
      unfold handleDeleteSnapshotTask
      rw [hloop]
      simp [deleteSnapshotLoop, hb2, h1, h2, snapshotReturn, snapshotDeferred]
    · intro e h1 h2 h3
      unfold handleDeleteSnapshotTask
      rw [hloop]
      simp [deleteSnapshotLoop, hb2, h1, h2, h3, snapshotReturn, snapshotDeferred, mergeCalls]
    · intro h1 h2 h3
      rw [hloop]
      simp [deleteSnapshotLoop, hb2, h1, h2, h3, mergeCalls]

/-- Witness for C27: the removal of the second target's backed file fails
after the first target has been merged. -/
theorem C27_delete_snapshot_target_witness :
    handleDeleteSnapshotTask removeFailEnv "g" "s1" sampleTargets =
      { ret := some "delete snapshot file '/pool/b.s0' fail after merging: permission denied",
        trace := [.commitImage "/pool/a.s0", .remove "/pool/a.s0", .rename "/pool/a" "/pool/a.s0",
          .commitImage "/pool/b.s0", .remove "/pool/b.s0",
          .sendEvent
            { EventType := .schedulerEventDeleteSnapshotCompleted, Group := "g",
              Snapshot := "s1",
              Error := some
                "delete snapshot file '/pool/b.s0' fail after merging: permission denied" }] } :=
  ((C27_delete_snapshot_target removeFailEnv "g" "s1"
    [{ Current := "/pool/a", Backing := "/pool/a.s1", Backed := "/pool/a.s0" }]
    { Current := "/pool/b", Backing := "/pool/b.s1", Backed := "/pool/b.s0" } []
    [.commitImage "/pool/a.s0", .remove "/pool/a.s0", .rename "/pool/a" "/pool/a.s0"]
    (by decide)).2.2 (by decide)).2.1 "permission denied" (by decide) (by decide)

/-! ## Theorems: root-login flag -/

/-- A request that passes the flag check has one flag, and root login is
enabled exactly when that flag equals `RootLoginEnabled` = 1. -/
theorem parseModulesAndFlags_flag (request : Request) (config c : GuestConfig)
    (h : parseModulesAndFlags request config = .ok c) :
    ∃ f, request.ParamKeyFlag = .ok [f] ∧ (c.RootLoginEnabled = true ↔ f = 1) := by
  unfold parseModulesAndFlags at h
  simp only at h
  split at h
  · cases h
  · split at h
    · cases h
    · rename_i flags hf
      split at h
      · rename_i flag
        refine ⟨flag, hf, ?_⟩
        split at h
        · rename_i h1
          cases h
          exact ⟨fun _ => h1.symm, fun _ => rfl⟩
        · rename_i h1
          cases h
          exact ⟨fun h2 => (by cases h2), fun h2 => absurd h2.symm h1⟩
      · cases h

/-- The cloud-init parameters leave the root-login setting as it is. -/
theorem parseCloudInit_RootLoginEnabled (env : ExecEnv) (request : Request)
    (config : GuestConfig) (r : GuestConfig × Nat)
    (h : parseCloudInit env request config = .ok r) :
    r.1.RootLoginEnabled = config.RootLoginEnabled := by
  unfold parseCloudInit at h
  by_cases hc : config.CloudInitAvailable = true
  · rw [if_pos hc] at h
    cases hv : request.ParamKeySecret with
    | error e => rw [hv] at h; cases h
    | ok v =>
      rw [hv] at h
      cases hw : request.ParamKeyPath with
      | error e => rw [hw] at h; cases h
      | ok w =>
        rw [hw] at h
        simp only at h
        split at h <;> (cases h; rfl)
  · rw [if_neg hc] at h
    cases h
    rfl

/-- C28 (counterexample): the flag value 3 has bit 0 set (3 mod 2 = 1), the
request is accepted, and the resulting configuration has root login disabled. -/
theorem C28_flag_three_root_login_disabled :
    flagThreeRequest.ParamKeyFlag = .ok [3] ∧ 3 % 2 = 1 ∧
    ∃ p, parseRequest sampleDecls sampleEnv flagThreeRequest = .ok p ∧
      p.config.RootLoginEnabled = false :=
  ⟨rfl, rfl, sampleParsed, by decide, rfl⟩

/-- C28 (amended): for every accepted CreateGuest request the flag parameter
is a single unsigned integer f, and the resulting guest configuration has root
login enabled exactly when f = 1. -/
theorem C28_root_login_iff_flag_is_one (decls : ServiceDecls) (env : ExecEnv)
    (request : Request) (p : Parsed) (h : parseRequest decls env request = .ok p) :
    ∃ f, request.ParamKeyFlag = .ok [f] ∧ (p.config.RootLoginEnabled = true ↔ f = 1) := by
  obtain ⟨basics, c1, c2, clone, c3, c4, c5, c6, ci, -, -, -, -, -, -, -, -, h9, h10, hcfg, -, -⟩ :=
    parseRequest_ok decls env request p h
  obtain ⟨f, hf, hiff⟩ := parseModulesAndFlags_flag request c5 c6 h9
  refine ⟨f, hf, ?_⟩
  rw [hcfg, parseCloudInit_RootLoginEnabled env request c6 ci h10]
  exact hiff

/-- Witness for C28: the sample request carries the flag 0 and root login is
off. -/
theorem C28_root_login_iff_flag_is_one_witness :
    ∃ f, sampleRequest.ParamKeyFlag = .ok [f] ∧
      (sampleParsed.config.RootLoginEnabled = true ↔ f = 1) :=
  C28_root_login_iff_flag_is_one sampleDecls sampleEnv sampleRequest sampleParsed (by decide)

/-! ## Theorems: device names -/

/-- The verb `%c` prints a code point below the surrogates as itself. -/
theorem fmtChar_toNat (n : Nat) (h : n < 0xD800) : (fmtChar n).toNat = n := by
  have hv : n.isValidChar := Or.inl h
  unfold fmtChar
  rw [if_pos hv]
  unfold Char.ofNat
  rw [dif_pos hv]
  rfl

/-- Device names with letters below the surrogates and leading parts of the same
length are equal only when both parts are. -/
theorem deviceName_inj (p q : String) (n m : Nat) (hl : p.length = q.length)
    (hn : n < 0xD800) (hm : m < 0xD800) (h : deviceName p n = deviceName q m) :
    p = q ∧ n = m := by
  unfold deviceName at h
  have hd := congrArg String.data h
  simp only [String.data_append, String.singleton] at hd
  have hi := List.append_inj hd hl
  refine ⟨String.ext hi.1, ?_⟩
  have hc : fmtChar n = fmtChar m := by simpa using hi.2
  have ht := congrArg Char.toNat hc
  rwa [fmtChar_toNat n hn, fmtChar_toNat m hm] at ht

/-- The target device of a volume disk. -/
theorem volumeElement_Device (diskBus pool devicePrefix : String)
    (ioTune : Option virDomainDiskTune) (devChar : Nat) (volumeName : String) :
    (volumeElement diskBus pool devicePrefix ioTune devChar volumeName).Target.Device =
      deviceName devicePrefix devChar := by
  unfold volumeElement
  cases ioTune <;> rfl

/-- The target devices after `SetLocalVolumes` on a define without disks. -/
theorem SetLocalVolumes_targetDevices (define : virDomainDefine) (diskBus pool : String)
    (volumes : List String) (bootImage : String) (readSpeed readIOPS writeSpeed writeIOPS : Nat)
    (hd : define.Devices.Disks = []) :
    targetDevices (SetLocalVolumes define diskBus pool volumes bootImage readSpeed readIOPS
      writeSpeed writeIOPS).Devices.Disks =
      (deviceName "hd" 97 :: (if bootImage = "" then [] else [deviceName "hd" 98])) ++
        (List.range' (volumeStart diskBus).1 volumes.length).map
          (deviceName (volumeStart diskBus).2) := by
  rw [SetLocalVolumes_disks, hd]
  have hmap : List.map (fun d => d.Target.Device)
      (List.map (fun cv => volumeElement diskBus pool (volumeStart diskBus).2
        (volumeTune readSpeed readIOPS writeSpeed writeIOPS) cv.1 cv.2)
        (volumes.enumFrom (volumeStart diskBus).1)) =
      (List.range' (volumeStart diskBus).1 volumes.length).map
        (deviceName (volumeStart diskBus).2) := by
    rw [← List.enumFrom_map_fst, List.map_map, List.map_map]
    apply List.map_congr_left
    intro cv _
    exact volumeElement_Device _ _ _ _ _ _
  unfold targetDevices
  rw [List.map_append, hmap]
  by_cases hb : bootImage = "" <;> simp [hb] <;> first | rfl | exact ⟨rfl, rfl⟩

/-- C29: on a define without disks, for every disk bus, boot image and volume
list whose last device letter is still below the surrogate code points (first
letter + number of volumes at most 0xD800), the disks built by
`SetLocalVolumes` have pairwise distinct target device names. -/
theorem C29_SetLocalVolumes_distinct_devices (define : virDomainDefine) (diskBus pool : String)
    (volumes : List String) (bootImage : String) (readSpeed readIOPS writeSpeed writeIOPS : Nat)
    (hd : define.Devices.Disks = [])
    (hlen : (volumeStart diskBus).1 + volumes.length ≤ 0xD800) :
    (targetDevices (SetLocalVolumes define diskBus pool volumes bootImage readSpeed readIOPS
      writeSpeed writeIOPS).Devices.Disks).Nodup := by
  rw [SetLocalVolumes_targetDevices _ _ _ _ _ _ _ _ _ hd]
  have hpl : (volumeStart diskBus).2.length = "hd".length := by
    unfold volumeStart
    split <;> decide
  have hstart : (volumeStart diskBus).2 = "hd" → 99 ≤ (volumeStart diskBus).1 := by
    unfold volumeStart
    split
    · intro _; decide
    · intro h; exact absurd h (by decide)
  have hcd : (deviceName "hd" 97 :: (if bootImage = "" then [] else [deviceName "hd" 98])).Nodup := by
    by_cases hb : bootImage = ""
    · simp [hb]
    · simp only [hb, if_false]
      decide
  have hvol : ((List.range' (volumeStart diskBus).1 volumes.length).map
      (deviceName (volumeStart diskBus).2)).Nodup := by
    apply List.Nodup.map_on _ (List.nodup_range' _ _)
    intro x hx y hy hxy
    rw [List.mem_range'_1] at hx hy
    exact (deviceName_inj _ _ x y rfl (by omega) (by omega) hxy).2
  refine List.Nodup.append hcd hvol ?_
  intro name h1 h2
  obtain ⟨x, hx, rfl⟩ := List.mem_map.mp h2
  rw [List.mem_range'_1] at hx
  have hcases : deviceName (volumeStart diskBus).2 x = deviceName "hd" 97 ∨
      deviceName (volumeStart diskBus).2 x = deviceName "hd" 98 := by
    by_cases hb : bootImage = ""
    · simp only [hb, if_true, List.mem_singleton] at h1
      exact Or.inl h1
    · simp only [hb, if_false, List.mem_cons, List.mem_singleton, List.not_mem_nil,
        or_false] at h1
      exact h1
  rcases hcases with h | h
  · have hi := deviceName_inj _ _ x 97 hpl (by omega) (by decide) h
    have := hstart hi.1
    omega
  · have hi := deviceName_inj _ _ x 98 hpl (by omega) (by decide) h
    have := hstart hi.1
    omega

/-- Witness for C29: two volumes on the IDE bus beside both CD-ROMs. -/
theorem C29_SetLocalVolumes_distinct_devices_witness :
    (targetDevices (SetLocalVolumes {} "ide" "local0" ["sys", "data"] "/pool/ci.iso" 0 0 0
      0).Devices.Disks).Nodup :=
  C29_SetLocalVolumes_distinct_devices {} "ide" "local0" ["sys", "data"] "/pool/ci.iso" 0 0 0 0
    rfl (by decide)

/-! ## Theorems: generated passwords -/

/-- The loop of `generatePassword` yields `length` characters. -/
theorem generatePasswordChars_length (env : ExecEnv) (k length : Nat) :
    (generatePasswordChars env k length).length = length := by
  induction length generalizing k with
  | zero => rfl
  | succ n ih => simp [generatePasswordChars, ih]

/-- Every character of the loop of `generatePassword` is one of `Letters`. -/
theorem generatePasswordChars_mem (env : ExecEnv) (k length : Nat) :
    ∀ c ∈ generatePasswordChars env k length, c ∈ Letters.toList := by
  induction length generalizing k with
  | zero => intro c hc; cases hc
  | succ n ih =>
    intro c hc
    simp only [generatePasswordChars, List.mem_cons] at hc
    rcases hc with rfl | hc
    · have hlt : Intn env k Letters.length < Letters.toList.length :=
        Nat.mod_lt _ (by decide)
      rw [List.getD_eq_getElem _ _ hlt]
      exact List.getElem_mem _
    · exact ih _ c hc

/-- A trace that extends a trace that extends a third extends the third. -/
theorem extends_trans {a b c : List Action} (h1 : ∃ r, b = a ++ r) (h2 : ∃ r, c = b ++ r) :
    ∃ r, c = a ++ r := by
  obtain ⟨r1, rfl⟩ := h1
  obtain ⟨r2, rfl⟩ := h2
  exact ⟨r1 ++ r2, List.append_assoc _ _ _⟩

/-- A send keeps the calls made before it. -/
theorem SendMessage_extends (env : ExecEnv) (trace : List Action) (msg : Message)
    (target : String) : ∃ r, (SendMessage env trace msg target).1 = trace ++ r :=
  ⟨_, rfl⟩

/-- `ResponseFail` keeps the calls made before it. -/
theorem ResponseFail_extends (env : ExecEnv) (trace : List Action) (resp : Message)
    (err target : String) : ∃ r, (ResponseFail env trace resp err target).trace = trace ++ r :=
  ⟨_, rfl⟩

/-- `ReleaseResource` keeps the calls made before it. -/
theorem ReleaseResource_extends (env : ExecEnv) (trace : List Action) (guestID : String)
    (clearNetwork clearVolumes clearInstance : Bool) :
    ∃ r, ReleaseResource env trace guestID clearNetwork clearVolumes clearInstance
      = trace ++ r :=
  ⟨_, ReleaseResource_eq env trace guestID clearNetwork clearVolumes clearInstance⟩

/-- A failure exit of the cloning block keeps the calls made before it. -/
theorem cloneFail_extends (env : ExecEnv) (trace : List Action) (config : GuestConfig)
    (event : Message) (err sender : String) :
    ∃ r, (cloneFail env trace config event err sender).trace = trace ++ r :=
  extends_trans (ReleaseResource_extends env trace config.ID true true true)
    (ResponseFail_extends env _ event err sender)

/-- `startAutoStartInstance` keeps the calls made before it. -/
theorem startAutoStartInstance_extends (env : ExecEnv) (trace : List Action) (id : Nat)
    (instanceID receiver : String) :
    ∃ r, startAutoStartInstance env trace id instanceID receiver = trace ++ r := by
  unfold startAutoStartInstance
  simp only
  split
  · exact ⟨_, rfl⟩
  · exact extends_trans ⟨_, rfl⟩ (SendMessage_extends env _ _ _)

/-- The loop of the cloning block keeps the calls made before it. -/
theorem cloneLoop_extends (env : ExecEnv) (id : Nat) (sender : String) (config : GuestConfig)
    (events : List CloneEvent) (event : Message) (trace : List Action) :
    ∃ r, (cloneLoop env id sender config events event trace).trace = trace ++ r := by
  induction events generalizing event trace with
  | nil => exact cloneFail_extends env trace config event "timeout" sender
  | cons e rest ih =>
    cases e with
    | tick expired =>
      simp only [cloneLoop]
      split
      · exact cloneFail_extends env trace config event "timeout" sender
      · exact ih event trace
    | progress progress =>
      simp only [cloneLoop]
      exact extends_trans (SendMessage_extends env trace _ sender) (ih _ _)
    | result result =>
      simp only [cloneLoop]
      split
      · exact cloneFail_extends env trace config event _ sender
      · split
        · exact extends_trans (SendMessage_extends env trace _ sender)
            (startAutoStartInstance_extends env _ id config.ID sender)
        · exact SendMessage_extends env trace _ sender

/-- The cloning block keeps the calls made before it. -/
theorem cloneStage_extends (env : ExecEnv) (id : Nat) (request : Request) (p : Parsed)
    (config : GuestConfig) (trace : List Action) :
    ∃ r, (cloneStage env id request p config trace).trace = trace ++ r := by
  unfold cloneStage
  simp only
  split
  · exact ⟨[], (List.append_nil _).symm⟩
  · split
    · exact extends_trans ⟨_, rfl⟩ (cloneFail_extends env _ config _ _ _)
    · exact extends_trans ⟨_, rfl⟩ (cloneFail_extends env _ config _ _ _)
    · exact extends_trans ⟨_, rfl⟩ (cloneLoop_extends env id _ config _ _ _)

/-- The block that ends a run without cloning keeps the calls made before it. -/
theorem finishStage_extends (env : ExecEnv) (id : Nat) (request : Request)
    (config : GuestConfig) (trace : List Action) :
    ∃ r, (finishStage env id request config trace).trace = trace ++ r := by
  unfold finishStage
  simp only
  split
  · exact extends_trans (SendMessage_extends env trace _ _)
      (startAutoStartInstance_extends env _ id config.ID _)
  · exact SendMessage_extends env trace _ _

/-- The first call of the define stage is `CreateInstance`, with the monitor
secret just generated. -/
theorem defineStage_CreateInstance (env : ExecEnv) (id : Nat) (request : Request)
    (resp : Message) (p : Parsed) (config : GuestConfig) (trace : List Action) :
    ∃ r, (defineStage env id request resp p config trace).trace =
      trace ++ Action.CreateInstance
        { config with MonitorSecret := generatePassword env p.drawn 8 } env.CreateInstance :: r := by
  have hx : ∃ r, (defineStage env id request resp p config trace).trace =
      (trace ++ [Action.CreateInstance
        { config with MonitorSecret := generatePassword env p.drawn 8 } env.CreateInstance])
        ++ r := by
    unfold defineStage
    simp only
    split
    · exact extends_trans (ReleaseResource_extends env _ _ true true false)
        (ResponseFail_extends env _ resp _ _)
    · split
      · exact SendMessage_extends env _ _ _
      · split
        · exact extends_trans (SendMessage_extends env _ _ _) (finishStage_extends env id _ _ _)
        · exact extends_trans (SendMessage_extends env _ _ _)
            (cloneStage_extends env id _ p _ _)
  obtain ⟨r, hr⟩ := hx
  exact ⟨r, by rw [hr]; simp⟩

/-- C30: for every length and every random source, `generatePassword` returns
a string of exactly that many characters, each one of `Letters`; `Letters`
holds 79 distinct characters, 52 letters, 10 digits and 17 symbols; the define
stage hands `CreateInstance` a monitor secret of 8 characters, and the
password generated for a cloud-init guest without password has 10. -/
theorem C30_generatePassword_alphabet (env : ExecEnv) :
    (∀ k length, (generatePassword env k length).length = length ∧
      ∀ c ∈ (generatePassword env k length).toList, c ∈ Letters.toList) ∧
    (Letters.length = 79 ∧ Letters.toList.Nodup ∧
      (Letters.toList.filter Char.isAlpha).length = 52 ∧
      (Letters.toList.filter Char.isDigit).length = 10 ∧
      (Letters.toList.filter (fun c => !c.isAlphanum)).length = 17) ∧
    (∀ id request resp p config trace, ∃ c r,
      (defineStage env id request resp p config trace).trace =
        trace ++ Action.CreateInstance c env.CreateInstance :: r ∧
      c.MonitorSecret.length = 8) ∧
    (∀ request config r, config.CloudInitAvailable = true → request.ParamKeySecret = .ok "" →
      parseCloudInit env request config = .ok r → r.1.AuthSecret.length = 10) := by
  have hlen : ∀ k length, (generatePassword env k length).length = length :=
    fun k length => generatePasswordChars_length env k length
  refine ⟨fun k length => ⟨hlen k length, generatePasswordChars_mem env k length⟩,
    ⟨by decide, by decide, by decide, by decide, by decide⟩, ?_, ?_⟩
  · intro id request resp p config trace
    obtain ⟨r, hr⟩ := defineStage_CreateInstance env id request resp p config trace
    exact ⟨_, r, hr, hlen p.drawn 8⟩
  · intro request config r hc hs h
    unfold parseCloudInit at h
    rw [if_pos hc, hs] at h
    simp only at h
    split at h
    · cases h
    · split at h <;> (cases h; exact hlen 0 10)

/-- Witness for C30: the password generated for the sample cloud-init request. -/
theorem C30_generatePassword_alphabet_witness :
    ∃ r, parseCloudInit sampleEnv cloudInitRequest { CloudInitAvailable := true } = .ok r ∧
      r.1.AuthSecret.length = 10 :=
  ⟨_, rfl, (C30_generatePassword_alphabet sampleEnv).2.2.2 cloudInitRequest
    { CloudInitAvailable := true } _ rfl rfl rfl⟩

end Cell
